import Mathlib

/-!
Verification development for the WCAG 2.2 AA color-contrast utility
(`src/a11y/contrast.ts`): hex parsing, relative luminance, contrast
ratio, threshold policy, and the deterministic color-snapping engine.

The embedding models JavaScript numbers by exact rationals (`ℚ`) for all
arithmetic the source performs with rational operations, and by real
numbers (`ℝ`) for the luminance computation, whose gamma segment
`((c+0.055)/1.055) ** 2.4` is a real power.  String handling models the
ASCII behavior of `replace('#','')`, `toUpperCase`, and the validation
regex `^[0-9A-F]{3}$|^[0-9A-F]{6}$`.
-/

namespace Contrast

/-- Model of the source's `RGB` interface: three numeric channels.
Channels are rationals, since JavaScript numbers arising here are
results of rational arithmetic and rounding. -/
structure RGB where
  r : ℚ
  g : ℚ
  b : ℚ
deriving DecidableEq

/-- Model of the HSL intermediate object `{ h, s, l }` used by
`rgbToHsl` / `hslToRgb` (h in degrees 0-360, s and l in percent). -/
structure HSL where
  h : ℚ
  s : ℚ
  l : ℚ
deriving DecidableEq

/-- Model of `ContrastOptions`; an absent optional flag is `false`. -/
structure ContrastOptions where
  isLargeText : Bool := false
  uiComponent : Bool := false
deriving DecidableEq

/-- Model of `SnapOptions extends ContrastOptions`. -/
structure SnapOptions extends ContrastOptions where
  lockHue : Bool := false
  lockChroma : Bool := false
  preferForegroundAdjust : Bool := false
  preferBackgroundAdjust : Bool := false

/-- Which color a snap adjusted: the source's `'fg' | 'bg'` union. -/
inductive Side where
  | fg
  | bg
deriving DecidableEq

/-- Model of `SnapResult`; `Option` fields model JS fields that may be
absent from the returned object literal. -/
structure SnapResult where
  fg : String
  bg : String
  ratio : ℝ
  clamped : Option Bool := none
  adjusted : Option Side := none
  iterations : Option ℕ := none

/-- The source's `EPSILON = 1e-3`. -/
def EPSILON : ℚ := 1e-3

/-- The source's `NORMAL_TEXT_THRESHOLD = 4.5`. -/
def NORMAL_TEXT_THRESHOLD : ℚ := 4.5

/-- The source's `LARGE_TEXT_THRESHOLD = 3.0`. -/
def LARGE_TEXT_THRESHOLD : ℚ := 3.0

/-- The threshold snippet repeated in `passesContrast` and
`snapToPassingColor`: 3.0 if `isLargeText || uiComponent`, else 4.5. -/
def requiredThreshold (opts : ContrastOptions) : ℚ :=
  if opts.isLargeText || opts.uiComponent then LARGE_TEXT_THRESHOLD else NORMAL_TEXT_THRESHOLD

/-- JS `s.replace('#','')`: remove the first occurrence of `'#'`, if
any, leaving the rest of the string unchanged. -/
def replaceFirstHash : List Char → List Char
  | [] => []
  | c :: cs => if c = '#' then cs else c :: replaceFirstHash cs

/-- ASCII model of JS `toUpperCase` on one character. -/
def toUpperChar (c : Char) : Char :=
  if 97 ≤ c.toNat ∧ c.toNat ≤ 122 then Char.ofNat (c.toNat - 32) else c

/-- One character of the validation regex class `[0-9A-F]`
(code points 48-57 and 65-70). -/
def isHexDigitU (c : Char) : Bool :=
  (decide (48 ≤ c.toNat) && decide (c.toNat ≤ 57)) ||
    (decide (65 ≤ c.toNat) && decide (c.toNat ≤ 70))

/-- Numeric value of one `[0-9A-F]` digit, as `parseInt(-, 16)` assigns it. -/
def hexVal (c : Char) : ℕ :=
  if c.toNat ≤ 57 then c.toNat - 48 else c.toNat - 55

/-- The error message thrown by `hexToRgb`. -/
def formatErrorMsg (hex : String) : String :=
  "Invalid hex color format: " ++ hex ++ ". Expected #RGB or #RRGGBB format."

/-- Model of `hexToRgb` (source lines 55-78): strip the first `'#'`,
uppercase, require exactly 3 or 6 hex digits (the regex
`^[0-9A-F]{3}$|^[0-9A-F]{6}$`, here expressed as an all-hex check plus
the length-3/length-6 pattern match), expand 3-digit shorthand by
doubling each digit (`parseInt(c + c, 16) = 17 * hexVal c`), and
otherwise throw `formatErrorMsg`.  Throwing is modeled by `Except`. -/
def hexToRgb (hex : String) : Except String RGB :=
  let cleanHex := (replaceFirstHash hex.data).map toUpperChar
  if cleanHex.all isHexDigitU then
    match cleanHex with
    | [r1, g1, b1] =>
        .ok ⟨((17 * hexVal r1 : ℕ) : ℚ), ((17 * hexVal g1 : ℕ) : ℚ), ((17 * hexVal b1 : ℕ) : ℚ)⟩
    | [r1, r2, g1, g2, b1, b2] =>
        .ok ⟨((16 * hexVal r1 + hexVal r2 : ℕ) : ℚ), ((16 * hexVal g1 + hexVal g2 : ℕ) : ℚ),
          ((16 * hexVal b1 + hexVal b2 : ℕ) : ℚ)⟩
    | _ => .error (formatErrorMsg hex)
  else .error (formatErrorMsg hex)

/-- Hex digit character produced by `toString(16)` + `toUpperCase`. -/
def hexDigitChar (n : ℕ) : Char :=
  if n < 10 then Char.ofNat (48 + n) else Char.ofNat (55 + n)

/-- JS `Math.max` on two rationals, kernel-computable. -/
def qmax (a b : ℚ) : ℚ := if a ≤ b then b else a

/-- JS `Math.min` on two rationals, kernel-computable. -/
def qmin (a b : ℚ) : ℚ := if a ≤ b then a else b

/-- JS `Math.max(0, Math.min(255, n))`. -/
def clamp255 (n : ℚ) : ℚ := qmax 0 (qmin 255 n)

/-- JS `Math.round`: round half toward positive infinity. -/
def jsRound (q : ℚ) : ℤ := ⌊q + 1 / 2⌋

/-- The `toHex` helper of `rgbToHex`: clamp to [0,255], round, render as
exactly two uppercase hex digits (`padStart(2, '0')`). -/
def toHexByte (n : ℚ) : List Char :=
  let v := (jsRound (clamp255 n)).toNat
  [hexDigitChar (v / 16), hexDigitChar (v % 16)]

/-- Model of `rgbToHex` (source lines 83-86). -/
def rgbToHex (rgb : RGB) : String :=
  ⟨'#' :: (toHexByte rgb.r ++ toHexByte rgb.g ++ toHexByte rgb.b)⟩

/-- The channel-wise clamp-and-round that `rgbToHex` applies; parsing
`rgbToHex rgb` back recovers exactly `canonRGB rgb`. -/
def canonRGB (rgb : RGB) : RGB :=
  ⟨((jsRound (clamp255 rgb.r) : ℤ) : ℚ), ((jsRound (clamp255 rgb.g) : ℤ) : ℚ),
    ((jsRound (clamp255 rgb.b) : ℤ) : ℚ)⟩

/-- One channel of the WCAG sRGB inverse companding: the linear segment
for `c ≤ 0.03928`, the gamma segment `((c+0.055)/1.055) ** 2.4`
otherwise (source lines 106-108).  The gamma segment is a real power. -/
noncomputable def srgbChannel (c : ℚ) : ℝ :=
  if c ≤ 0.03928 then ((c / 12.92 : ℚ) : ℝ)
  else (((c + 0.055) / 1.055 : ℚ) : ℝ) ^ (2.4 : ℝ)

/-- Model of `relativeLuminance` on an RGB value (source lines 97-112). -/
noncomputable def relativeLuminance (color : RGB) : ℝ :=
  0.2126 * srgbChannel (color.r / 255) + 0.7152 * srgbChannel (color.g / 255) +
    0.0722 * srgbChannel (color.b / 255)

/-- Model of `relativeLuminance` applied to a hex string argument. -/
noncomputable def relativeLuminanceHex (hex : String) : Except String ℝ := do
  let rgb ← hexToRgb hex
  pure (relativeLuminance rgb)

/-- The contrast-ratio formula `(lighter + 0.05) / (darker + 0.05)` on
two parsed colors (source lines 120-128). -/
noncomputable def contrastRatioRGB (fg bg : RGB) : ℝ :=
  (max (relativeLuminance fg) (relativeLuminance bg) + 0.05) /
    (min (relativeLuminance fg) (relativeLuminance bg) + 0.05)

/-- Model of `contrastRatio` on hex strings; parsing may throw. -/
noncomputable def contrastRatio (fgHex bgHex : String) : Except String ℝ := do
  let f ← hexToRgb fgHex
  let b ← hexToRgb bgHex
  pure (contrastRatioRGB f b)

open Classical in
/-- Model of `passesContrast` after parsing (source lines 143-155):
`ratio >= threshold - EPSILON`, as a JS boolean. -/
noncomputable def passesContrastRGB (f b : RGB) (opts : ContrastOptions) : Bool :=
  decide ((requiredThreshold opts : ℝ) - (EPSILON : ℝ) ≤ contrastRatioRGB f b)

/-- Model of `passesContrast` on hex strings. -/
noncomputable def passesContrast (fgHex bgHex : String) (opts : ContrastOptions) :
    Except String Bool := do
  let f ← hexToRgb fgHex
  let b ← hexToRgb bgHex
  pure (passesContrastRGB f b opts)

/-- Model of `rgbToHsl` (source lines 160-185).  JS `switch (max)`
matches `case r` first, then `case g`, then `case b`. -/
def rgbToHsl (rgb : RGB) : HSL :=
  let r := rgb.r / 255
  let g := rgb.g / 255
  let b := rgb.b / 255
  let maxC := qmax r (qmax g b)
  let minC := qmin r (qmin g b)
  let diff := maxC - minC
  let l := (maxC + minC) / 2
  if diff = 0 then ⟨0, 0, l * 100⟩
  else
    let s := if 1 / 2 < l then diff / (2 - maxC - minC) else diff / (maxC + minC)
    let h :=
      if maxC = r then (g - b) / diff + (if g < b then 6 else 0)
      else if maxC = g then (b - r) / diff + 2
      else (r - g) / diff + 4
    ⟨h / 6 * 360, s * 100, l * 100⟩

/-- The `hue2rgb` helper of `hslToRgb` (source lines 195-202); the two
JS in-place updates of `t` become sequential lets. -/
def hue2rgb (p q t : ℚ) : ℚ :=
  let t1 := if t < 0 then t + 1 else t
  let t2 := if 1 < t1 then t1 - 1 else t1
  if t2 < 1 / 6 then p + (q - p) * 6 * t2
  else if t2 < 1 / 2 then q
  else if t2 < 2 / 3 then p + (q - p) * (2 / 3 - t2) * 6
  else p

/-- Model of `hslToRgb` (source lines 190-221). -/
def hslToRgb (hsl : HSL) : RGB :=
  let h := hsl.h / 360
  let s := hsl.s / 100
  let l := hsl.l / 100
  if s = 0 then
    ⟨((jsRound (l * 255) : ℤ) : ℚ), ((jsRound (l * 255) : ℤ) : ℚ), ((jsRound (l * 255) : ℤ) : ℚ)⟩
  else
    let q := if l < 1 / 2 then l * (1 + s) else l + s - l * s
    let p := 2 * l - q
    ⟨((jsRound (hue2rgb p q (h + 1 / 3) * 255) : ℤ) : ℚ),
      ((jsRound (hue2rgb p q h * 255) : ℤ) : ℚ),
      ((jsRound (hue2rgb p q (h - 1 / 3) * 255) : ℤ) : ℚ)⟩

/-- The composition `contrastRatio(rgbToHex a, rgbToHex b)` that the
snapping engine uses everywhere it evaluates a candidate pair: rendering
to hex canonicalizes each channel by `canonRGB`, and parsing the
rendered string back always succeeds (`hexToRgb_rgbToHex` below). -/
noncomputable def contrastRatioHexed (a b : RGB) : ℝ :=
  contrastRatioRGB (canonRGB a) (canonRGB b)

/-- Loop state of the `for` loop in `binarySearchLightness` (source
lines 234-268): interval bounds, best passing color and its ratio, the
iteration counter, and whether the loop has exited early (`break`). -/
structure BSState where
  minL : ℚ
  maxL : ℚ
  bestRgb : RGB
  bestRatio : ℝ
  iterations : ℕ
  done : Bool

/-- Return value of `binarySearchLightness`. -/
structure BSOut where
  rgb : RGB
  ratio : ℝ
  iterations : ℕ

/-- The midpoint candidate ratio evaluated by one loop iteration of
`binarySearchLightness` from state `s`: the test color takes the
foreground position iff `isForeground` (source lines 242-248). -/
noncomputable def testRatioOf (originalHsl : HSL) (otherRgb : RGB) (isForeground : Bool)
    (s : BSState) : ℝ :=
  let testRgb := hslToRgb ⟨originalHsl.h, originalHsl.s, (s.minL + s.maxL) / 2⟩
  contrastRatioHexed (cond isForeground testRgb otherRgb) (cond isForeground otherRgb testRgb)

open Classical in
/-- One iteration of the `binarySearchLightness` loop (source lines
240-268): evaluate the midpoint; on `testRatio >= threshold` record it
as best and narrow toward it, otherwise narrow away from it; then break
(`done := true`) once the interval width falls below 0.1. -/
noncomputable def bslStep (originalHsl : HSL) (otherRgb : RGB) (threshold : ℚ)
    (isForeground isLightening : Bool) (s : BSState) : BSState :=
  bif s.done then s else
  let midL := (s.minL + s.maxL) / 2
  let testRgb := hslToRgb ⟨originalHsl.h, originalHsl.s, midL⟩
  let testRatio := contrastRatioHexed (cond isForeground testRgb otherRgb)
    (cond isForeground otherRgb testRgb)
  let s1 : BSState :=
    if (threshold : ℝ) ≤ testRatio then
      { minL := cond isLightening s.minL midL, maxL := cond isLightening midL s.maxL,
        bestRgb := testRgb, bestRatio := testRatio, iterations := s.iterations + 1,
        done := false }
    else
      { minL := cond isLightening midL s.minL, maxL := cond isLightening s.maxL midL,
        bestRgb := s.bestRgb, bestRatio := s.bestRatio, iterations := s.iterations + 1,
        done := false }
  { s1 with done := decide (|s1.maxL - s1.minL| < 1 / 10) }

/-- Entry state of `binarySearchLightness` (source lines 234-238): the
initial interval is `[l, 100]` when lightening and `[0, l]` when
darkening, and the initial best is the HSL round-trip of the original
color with its ratio against the other color. -/
noncomputable def bslInit (originalHsl : HSL) (otherRgb : RGB) (isLightening : Bool) : BSState :=
  { minL := cond isLightening originalHsl.l 0, maxL := cond isLightening 100 originalHsl.l,
    bestRgb := hslToRgb originalHsl,
    bestRatio := contrastRatioHexed (hslToRgb originalHsl) otherRgb,
    iterations := 0, done := false }

/-- The loop of `binarySearchLightness`, iterated `n` times. -/
noncomputable def bslRun (originalHsl : HSL) (otherRgb : RGB) (threshold : ℚ)
    (isForeground isLightening : Bool) : ℕ → BSState
  | 0 => bslInit originalHsl otherRgb isLightening
  | n + 1 => bslStep originalHsl otherRgb threshold isForeground isLightening
      (bslRun originalHsl otherRgb threshold isForeground isLightening n)

/-- Model of `binarySearchLightness` (source lines 226-271); the source
is always called with its default `maxIterations = 7`. -/
noncomputable def binarySearchLightness (originalHsl : HSL) (otherRgb : RGB) (threshold : ℚ)
    (isForeground isLightening : Bool) (maxIterations : ℕ) : BSOut :=
  let s := bslRun originalHsl otherRgb threshold isForeground isLightening maxIterations
  ⟨s.bestRgb, s.bestRatio, s.iterations⟩

/-- The four canonical adjustment paths, in the source's order. -/
inductive AdjustPath where
  | fgLighten
  | fgDarken
  | bgDarken
  | bgLighten
deriving DecidableEq

/-- JS `path.startsWith('fg')`. -/
def AdjustPath.isFg : AdjustPath → Bool
  | .fgLighten => true
  | .fgDarken => true
  | .bgDarken => false
  | .bgLighten => false

/-- One element of the `candidates` array (source lines 323-332). -/
structure Candidate where
  rgb : RGB
  ratio : ℝ
  iterations : ℕ
  path : AdjustPath

/-- A candidate extended with its perceptual change `ΔL`
(source lines 342-347). -/
structure CandW extends Candidate where
  change : ℚ

/-- The `candidates` array (source lines 323-332): the four bounded
searches in canonical order lighten-fg, darken-fg, darken-bg,
lighten-bg. -/
noncomputable def snapCandidates (fgRgb bgRgb : RGB) (threshold : ℚ) : List Candidate :=
  let fgHsl := rgbToHsl fgRgb
  let bgHsl := rgbToHsl bgRgb
  let A := binarySearchLightness fgHsl bgRgb threshold true true 7
  let B := binarySearchLightness fgHsl bgRgb threshold true false 7
  let C := binarySearchLightness bgHsl fgRgb threshold false false 7
  let D := binarySearchLightness bgHsl fgRgb threshold false true 7
  [⟨A.rgb, A.ratio, A.iterations, .fgLighten⟩, ⟨B.rgb, B.ratio, B.iterations, .fgDarken⟩,
    ⟨C.rgb, C.ratio, C.iterations, .bgDarken⟩, ⟨D.rgb, D.ratio, D.iterations, .bgLighten⟩]

open Classical in
/-- The `passingCandidates` filter (source line 335). -/
noncomputable def passingCandidates (fgRgb bgRgb : RGB) (threshold : ℚ) : List Candidate :=
  (snapCandidates fgRgb bgRgb threshold).filter fun c =>
    decide ((threshold : ℝ) - (EPSILON : ℝ) ≤ c.ratio)

/-- The change computation of `candidatesWithChange` (source lines
342-347): `ΔL` from the adjusted side's original lightness. -/
def withChange (fgHsl bgHsl : HSL) (c : Candidate) : CandW :=
  ⟨c, |(cond c.path.isFg fgHsl bgHsl).l - (rgbToHsl c.rgb).l|⟩

/-- Stable insertion of a candidate after all entries with
less-or-equal change. -/
def insertByChange : List CandW → CandW → List CandW
  | [], c => [c]
  | d :: ds, c => if d.change ≤ c.change then d :: insertByChange ds c else c :: d :: ds

/-- The stable ascending sort by `change` (source line 350; JS
`Array.prototype.sort` is stable). -/
def sortByChange (l : List CandW) : List CandW := l.foldl insertByChange []

/-- The sorted `candidatesWithChange` list (source lines 342-350). -/
noncomputable def sortedPassing (fgRgb bgRgb : RGB) (threshold : ℚ) : List CandW :=
  sortByChange ((passingCandidates fgRgb bgRgb threshold).map
    (withChange (rgbToHsl fgRgb) (rgbToHsl bgRgb)))

/-- The `similarCandidates` tie zone (source lines 356-359): passing
candidates within 0.5 lightness units of the minimal change
`candidatesWithChange[0].change`. -/
noncomputable def tieZone (fgRgb bgRgb : RGB) (threshold : ℚ) : List CandW :=
  match sortedPassing fgRgb bgRgb threshold with
  | [] => []
  | m :: ms => (m :: ms).filter fun c => |c.change - m.change| ≤ 0.5

/-- The selection logic of the passing branch (source lines 340-374):
`none` when no candidate passes; otherwise the tie-zone pick.  The
source's fallback `|| similarCandidates[0]` and its direct
`similarCandidates[0]` pick are both `m`, the head of the sorted list,
because the tie zone always starts with `m` (zero change difference). -/
noncomputable def chooseBest (opts : SnapOptions) (fgRgb bgRgb : RGB) (threshold : ℚ) :
    Option CandW :=
  match sortedPassing fgRgb bgRgb threshold with
  | [] => none
  | m :: _ =>
    let tz := tieZone fgRgb bgRgb threshold
    some (if 1 < tz.length then
      if opts.preferForegroundAdjust && !opts.preferBackgroundAdjust then
        (tz.find? fun c => c.path.isFg).getD m
      else if opts.preferBackgroundAdjust && !opts.preferForegroundAdjust then
        (tz.find? fun c => !c.path.isFg).getD m
      else (tz.find? fun c => c.path.isFg).getD m
    else m)

open Classical in
/-- The `reduce` of the clamped branch (source lines 377-379): keep the
current best unless a later candidate's ratio is strictly greater.  The
empty-list case never arises (the candidates array has four entries). -/
noncomputable def bestByRatio : List Candidate → Candidate
  | [] => ⟨⟨0, 0, 0⟩, 0, 0, .fgLighten⟩
  | c :: cs => cs.foldl (fun best cur => if best.ratio < cur.ratio then cur else best) c

open Classical in
/-- Body of `snapToPassingColor` after parsing (source lines 293-403):
early return when already passing; identical-color shortcut when the
ratio is exactly 1 and the threshold exceeds 1; otherwise pick a
candidate (tie-zone logic if any path passes, best-achievable ratio with
`clamped` otherwise) and apply it to its side only. -/
noncomputable def snapCore (fgRgb bgRgb : RGB) (opts : SnapOptions) : SnapResult :=
  let threshold := requiredThreshold opts.toContrastOptions
  let currentRatio := contrastRatioHexed fgRgb bgRgb
  if (threshold : ℝ) - (EPSILON : ℝ) ≤ currentRatio then
    { fg := rgbToHex fgRgb, bg := rgbToHex bgRgb, ratio := currentRatio }
  else if currentRatio = 1 ∧ 1 < threshold then
    { fg := rgbToHex fgRgb, bg := rgbToHex bgRgb, ratio := currentRatio, clamped := some true }
  else
    match chooseBest opts fgRgb bgRgb threshold with
    | some best =>
      let fgRgb2 := cond best.path.isFg best.rgb fgRgb
      let bgRgb2 := cond best.path.isFg bgRgb best.rgb
      { fg := rgbToHex fgRgb2, bg := rgbToHex bgRgb2,
        ratio := contrastRatioHexed fgRgb2 bgRgb2, clamped := some false,
        adjusted := some (cond best.path.isFg Side.fg Side.bg),
        iterations := some best.iterations }
    | none =>
      let best := bestByRatio (snapCandidates fgRgb bgRgb threshold)
      let fgRgb2 := cond best.path.isFg best.rgb fgRgb
      let bgRgb2 := cond best.path.isFg bgRgb best.rgb
      { fg := rgbToHex fgRgb2, bg := rgbToHex bgRgb2,
        ratio := contrastRatioHexed fgRgb2 bgRgb2, clamped := some true,
        adjusted := some (cond best.path.isFg Side.fg Side.bg),
        iterations := some best.iterations }

/-- Model of `snapToPassingColor` (source lines 285-403). -/
noncomputable def snapToPassingColor (fgHex bgHex : String) (opts : SnapOptions) :
    Except String SnapResult := do
  let fgRgb ← hexToRgb fgHex
  let bgRgb ← hexToRgb bgHex
  pure (snapCore fgRgb bgRgb opts)

/-! ### Basic arithmetic lemmas about the rational helpers -/

theorem qmax_eq_max (a b : ℚ) : qmax a b = max a b := by
  rw [qmax, max_def]

theorem qmin_eq_min (a b : ℚ) : qmin a b = min a b := by
  rw [qmin, min_def]

theorem jsRound_intCast (n : ℤ) : jsRound (n : ℚ) = n := by
  rw [jsRound, Int.floor_eq_iff]
  constructor
  · linarith
  · linarith

theorem clamp255_of_mem (n : ℚ) (h0 : 0 ≤ n) (h255 : n ≤ 255) : clamp255 n = n := by
  have h1 : qmin 255 n = n := by
    rw [qmin]
    by_cases h : (255 : ℚ) ≤ n
    · rw [if_pos h]
      exact le_antisymm h h255
    · rw [if_neg h]
  rw [clamp255, h1, qmax, if_pos h0]

theorem canonRGB_int (r g b : ℕ) (hr : r ≤ 255) (hg : g ≤ 255) (hb : b ≤ 255) :
    canonRGB ⟨(r : ℚ), (g : ℚ), (b : ℚ)⟩ = ⟨(r : ℚ), (g : ℚ), (b : ℚ)⟩ := by
  have e : ∀ n : ℕ, n ≤ 255 → ((jsRound (clamp255 (n : ℚ)) : ℤ) : ℚ) = (n : ℚ) := by
    intro n hn
    rw [clamp255_of_mem (n : ℚ) (by positivity) (by exact_mod_cast hn)]
    rw [show ((n : ℚ)) = ((n : ℤ) : ℚ) by push_cast; ring, jsRound_intCast]
  rw [canonRGB]
  simp only [e r hr, e g hg, e b hb]

theorem hexVal_le (c : Char) (hc : isHexDigitU c = true) : hexVal c ≤ 15 := by
  rw [isHexDigitU] at hc
  simp only [Bool.or_eq_true, Bool.and_eq_true, decide_eq_true_eq] at hc
  rw [hexVal]
  rcases hc with ⟨h1, h2⟩ | ⟨h1, h2⟩ <;> split <;> omega

/-- Channels produced by `hexToRgb` are naturals at most 255. -/
theorem hexToRgb_range (s : String) (f : RGB) (h : hexToRgb s = .ok f) :
    (∃ n : ℕ, n ≤ 255 ∧ f.r = (n : ℚ)) ∧ (∃ n : ℕ, n ≤ 255 ∧ f.g = (n : ℚ)) ∧
      (∃ n : ℕ, n ≤ 255 ∧ f.b = (n : ℚ)) := by
  rw [hexToRgb] at h
  split at h
  · rename_i hall
    split at h
    · rename_i c1 c2 c3 heq
      rw [heq] at hall
      simp only [List.all_cons, List.all_nil, Bool.and_eq_true, and_true] at hall
      obtain ⟨h1, h2, h3⟩ := hall
      injection h with h
      subst h
      exact ⟨⟨17 * hexVal c1, by have := hexVal_le c1 h1; omega, rfl⟩,
        ⟨17 * hexVal c2, by have := hexVal_le c2 h2; omega, rfl⟩,
        ⟨17 * hexVal c3, by have := hexVal_le c3 h3; omega, rfl⟩⟩
    · rename_i c1 c2 c3 c4 c5 c6 heq
      rw [heq] at hall
      simp only [List.all_cons, List.all_nil, Bool.and_eq_true, and_true] at hall
      obtain ⟨h1, h2, h3, h4, h5, h6⟩ := hall
      injection h with h
      subst h
      exact ⟨⟨16 * hexVal c1 + hexVal c2,
          by have := hexVal_le c1 h1; have := hexVal_le c2 h2; omega, rfl⟩,
        ⟨16 * hexVal c3 + hexVal c4,
          by have := hexVal_le c3 h3; have := hexVal_le c4 h4; omega, rfl⟩,
        ⟨16 * hexVal c5 + hexVal c6,
          by have := hexVal_le c5 h5; have := hexVal_le c6 h6; omega, rfl⟩⟩
    · exact absurd h (by simp)
  · exact absurd h (by simp)

/-! ### Bounds for the gamma segment via fifth roots

`x ^ (2.4 : ℝ) = (x ^ (1/5)) ^ 12`, so rational bounds on the fifth
root give rational bounds on the gamma value. -/

theorem le_rpow24 (b p : ℚ) (hp : 0 ≤ p) (h : (p ^ 5 : ℚ) ≤ b) :
    ((p : ℝ)) ^ (12 : ℕ) ≤ (b : ℝ) ^ (2.4 : ℝ) := by
  have hb : (0 : ℝ) ≤ (p : ℝ) ^ (5 : ℕ) := by positivity
  have hpb : ((p : ℝ)) ^ (5 : ℕ) ≤ (b : ℝ) := by exact_mod_cast h
  have h2 : (((p : ℝ)) ^ (5 : ℕ)) ^ (2.4 : ℝ) = ((p : ℝ)) ^ (12 : ℕ) := by
    rw [← Real.rpow_natCast (p : ℝ) 5, ← Real.rpow_mul (by exact_mod_cast hp)]
    rw [show ((5 : ℕ) : ℝ) * (2.4 : ℝ) = ((12 : ℕ) : ℝ) by norm_num]
    exact Real.rpow_natCast _ _
  calc ((p : ℝ)) ^ (12 : ℕ) = (((p : ℝ)) ^ (5 : ℕ)) ^ (2.4 : ℝ) := h2.symm
    _ ≤ (b : ℝ) ^ (2.4 : ℝ) := Real.rpow_le_rpow hb hpb (by norm_num)

theorem rpow24_le (b q : ℚ) (hq : 0 ≤ q) (hb : 0 ≤ b) (h : b ≤ (q ^ 5 : ℚ)) :
    (b : ℝ) ^ (2.4 : ℝ) ≤ ((q : ℝ)) ^ (12 : ℕ) := by
  have hbq : (b : ℝ) ≤ ((q : ℝ)) ^ (5 : ℕ) := by exact_mod_cast h
  have h2 : (((q : ℝ)) ^ (5 : ℕ)) ^ (2.4 : ℝ) = ((q : ℝ)) ^ (12 : ℕ) := by
    rw [← Real.rpow_natCast (q : ℝ) 5, ← Real.rpow_mul (by exact_mod_cast hq)]
    rw [show ((5 : ℕ) : ℝ) * (2.4 : ℝ) = ((12 : ℕ) : ℝ) by norm_num]
    exact Real.rpow_natCast _ _
  calc (b : ℝ) ^ (2.4 : ℝ) ≤ (((q : ℝ)) ^ (5 : ℕ)) ^ (2.4 : ℝ) :=
        Real.rpow_le_rpow (by exact_mod_cast hb) hbq (by norm_num)
    _ = ((q : ℝ)) ^ (12 : ℕ) := h2

/-! ### Range of the luminance computation -/

theorem srgbChannel_nonneg (c : ℚ) (hc : 0 ≤ c) : 0 ≤ srgbChannel c := by
  rw [srgbChannel]
  split
  · have : (0 : ℚ) ≤ c / 12.92 := by positivity
    exact_mod_cast this
  · refine Real.rpow_nonneg ?_ _
    have h : (0 : ℚ) ≤ (c + 0.055) / 1.055 := by positivity
    exact_mod_cast h

theorem srgbChannel_le_one (c : ℚ) (hc0 : 0 ≤ c) (hc : c ≤ 1) : srgbChannel c ≤ 1 := by
  rw [srgbChannel]
  split
  · rename_i h
    have : (c / 12.92 : ℚ) ≤ 1 := by
      rw [div_le_one (by norm_num)]
      linarith
    exact_mod_cast this
  · apply Real.rpow_le_one
    · have : (0 : ℚ) ≤ (c + 0.055) / 1.055 := by positivity
      exact_mod_cast this
    · have : ((c + 0.055) / 1.055 : ℚ) ≤ 1 := by
        rw [div_le_one (by norm_num)]
        linarith
      exact_mod_cast this
    · norm_num

theorem srgbChannel_lt_one (c : ℚ) (hc0 : 0 ≤ c) (hc : c < 1) : srgbChannel c < 1 := by
  rw [srgbChannel]
  split
  · rename_i h
    have : (c / 12.92 : ℚ) < 1 := by
      rw [div_lt_one (by norm_num)]
      linarith
    exact_mod_cast this
  · apply Real.rpow_lt_one
    · have : (0 : ℚ) ≤ (c + 0.055) / 1.055 := by positivity
      exact_mod_cast this
    · have : ((c + 0.055) / 1.055 : ℚ) < 1 := by
        rw [div_lt_one (by norm_num)]
        linarith
      exact_mod_cast this
    · norm_num

theorem srgbChannel_eq_zero_iff (c : ℚ) (hc : 0 ≤ c) : srgbChannel c = 0 ↔ c = 0 := by
  rw [srgbChannel]
  split
  · rename_i h
    constructor
    · intro hz
      have : (c / 12.92 : ℚ) = 0 := by exact_mod_cast hz
      field_simp at this
      exact this
    · intro hz
      subst hz
      norm_num
  · rename_i h
    rw [not_le] at h
    constructor
    · intro hz
      exfalso
      have hpos : (0 : ℝ) < (((c + 0.055) / 1.055 : ℚ) : ℝ) := by
        have : (0 : ℚ) < (c + 0.055) / 1.055 := by positivity
        exact_mod_cast this
      exact absurd hz (ne_of_gt (Real.rpow_pos_of_pos hpos _))
    · intro hz
      exact absurd hz (by intro hzz; rw [hzz] at h; norm_num at h)

theorem srgbChannel_one : srgbChannel 1 = 1 := by
  rw [srgbChannel, if_neg (by norm_num)]
  norm_num

theorem srgbChannel_eq_one_iff (c : ℚ) (hc0 : 0 ≤ c) (hc : c ≤ 1) :
    srgbChannel c = 1 ↔ c = 1 := by
  constructor
  · intro h
    by_contra hne
    exact absurd h (ne_of_lt (srgbChannel_lt_one c hc0 (lt_of_le_of_ne hc hne)))
  · intro h
    subst h
    exact srgbChannel_one

theorem relativeLuminance_nonneg (col : RGB) (h0 : 0 ≤ col.r) (h1 : 0 ≤ col.g)
    (h2 : 0 ≤ col.b) : 0 ≤ relativeLuminance col := by
  rw [relativeLuminance]
  have a0 := srgbChannel_nonneg (col.r / 255) (by positivity)
  have a1 := srgbChannel_nonneg (col.g / 255) (by positivity)
  have a2 := srgbChannel_nonneg (col.b / 255) (by positivity)
  nlinarith

theorem relativeLuminance_le_one (col : RGB) (h0 : 0 ≤ col.r) (h0u : col.r ≤ 255)
    (h1 : 0 ≤ col.g) (h1u : col.g ≤ 255) (h2 : 0 ≤ col.b) (h2u : col.b ≤ 255) :
    relativeLuminance col ≤ 1 := by
  rw [relativeLuminance]
  have a0 := srgbChannel_le_one (col.r / 255) (by positivity) (by linarith)
  have a1 := srgbChannel_le_one (col.g / 255) (by positivity) (by linarith)
  have a2 := srgbChannel_le_one (col.b / 255) (by positivity) (by linarith)
  have b0 := srgbChannel_nonneg (col.r / 255) (by positivity)
  have b1 := srgbChannel_nonneg (col.g / 255) (by positivity)
  have b2 := srgbChannel_nonneg (col.b / 255) (by positivity)
  nlinarith

/-- For an achromatic color the three weights collapse:
`0.2126 + 0.7152 + 0.0722 = 1`. -/
theorem relativeLuminance_gray (c : ℚ) :
    relativeLuminance ⟨c, c, c⟩ = srgbChannel (c / 255) := by
  rw [relativeLuminance]
  ring

/-! ### Comparison helpers for the contrast-ratio formula -/

theorem contrastRatioRGB_comm (a b : RGB) : contrastRatioRGB a b = contrastRatioRGB b a := by
  rw [contrastRatioRGB, contrastRatioRGB, max_comm, min_comm]

theorem contrastRatioRGB_self (a : RGB) (h : 0 ≤ relativeLuminance a) :
    contrastRatioRGB a a = 1 := by
  rw [contrastRatioRGB, max_self, min_self]
  exact div_self (by linarith)

theorem contrastRatioRGB_eq_of_lums {a b : RGB}
    (hab : relativeLuminance b ≤ relativeLuminance a) :
    contrastRatioRGB a b =
      (relativeLuminance a + 0.05) / (relativeLuminance b + 0.05) := by
  rw [contrastRatioRGB, max_eq_left hab, min_eq_right hab]

theorem contrastRatioRGB_ge (a b : RGB) (T : ℝ) (hT : 1 ≤ T)
    (ha : 0 ≤ relativeLuminance a) (hb : 0 ≤ relativeLuminance b)
    (h : T * (relativeLuminance b + 0.05) ≤ relativeLuminance a + 0.05 ∨
      T * (relativeLuminance a + 0.05) ≤ relativeLuminance b + 0.05) :
    T ≤ contrastRatioRGB a b := by
  rcases h with h | h
  · have hba : relativeLuminance b ≤ relativeLuminance a := by nlinarith
    rw [contrastRatioRGB_eq_of_lums hba]
    rw [le_div_iff₀ (by linarith)]
    linarith
  · have hab : relativeLuminance a ≤ relativeLuminance b := by nlinarith
    rw [contrastRatioRGB_comm, contrastRatioRGB_eq_of_lums hab]
    rw [le_div_iff₀ (by linarith)]
    linarith

theorem contrastRatioRGB_lt (a b : RGB) (T : ℝ)
    (ha : 0 ≤ relativeLuminance a) (hb : 0 ≤ relativeLuminance b)
    (h1 : relativeLuminance a + 0.05 < T * (relativeLuminance b + 0.05))
    (h2 : relativeLuminance b + 0.05 < T * (relativeLuminance a + 0.05)) :
    contrastRatioRGB a b < T := by
  rcases le_total (relativeLuminance b) (relativeLuminance a) with hba | hab
  · rw [contrastRatioRGB_eq_of_lums hba, div_lt_iff₀ (by linarith)]
    linarith
  · rw [contrastRatioRGB_comm, contrastRatioRGB_eq_of_lums hab, div_lt_iff₀ (by linarith)]
    linarith

theorem contrastRatioRGB_ge_one (a b : RGB)
    (ha : 0 ≤ relativeLuminance a) (hb : 0 ≤ relativeLuminance b) :
    1 ≤ contrastRatioRGB a b := by
  rcases le_total (relativeLuminance b) (relativeLuminance a) with hba | hab
  · rw [contrastRatioRGB_eq_of_lums hba, le_div_iff₀ (by linarith)]
    linarith
  · rw [contrastRatioRGB_comm, contrastRatioRGB_eq_of_lums hab, le_div_iff₀ (by linarith)]
    linarith

theorem contrastRatioRGB_le_21 (a b : RGB)
    (ha : 0 ≤ relativeLuminance a) (ha1 : relativeLuminance a ≤ 1)
    (hb : 0 ≤ relativeLuminance b) (hb1 : relativeLuminance b ≤ 1) :
    contrastRatioRGB a b ≤ 21 := by
  rcases le_total (relativeLuminance b) (relativeLuminance a) with hba | hab
  · rw [contrastRatioRGB_eq_of_lums hba, div_le_iff₀ (by linarith)]
    nlinarith
  · rw [contrastRatioRGB_comm, contrastRatioRGB_eq_of_lums hab, div_le_iff₀ (by linarith)]
    nlinarith

/-- The canonicalization of a parsed color is itself. -/
theorem canonRGB_hexToRgb (s : String) (f : RGB) (h : hexToRgb s = .ok f) :
    canonRGB f = f := by
  obtain ⟨⟨nr, hr, er⟩, ⟨ng, hg, eg⟩, ⟨nb, hb, eb⟩⟩ := hexToRgb_range s f h
  have hf : f = ⟨(nr : ℚ), (ng : ℚ), (nb : ℚ)⟩ := by
    cases f
    simp_all
  rw [hf]
  exact canonRGB_int nr ng nb hr hg hb

/-! ### The binary-search loop: step characterization and ratio invariant -/

theorem contrastRatioHexed_comm (a b : RGB) : contrastRatioHexed a b = contrastRatioHexed b a := by
  rw [contrastRatioHexed, contrastRatioHexed, contrastRatioRGB_comm]

theorem bslStep_done (hsl : HSL) (other : RGB) (T : ℚ) (iF iL : Bool) (s : BSState)
    (h : s.done = true) : bslStep hsl other T iF iL s = s := by
  rw [bslStep, h, cond_true]

theorem bslStep_ge (hsl : HSL) (other : RGB) (T : ℚ) (iF iL : Bool) (s : BSState)
    (hd : s.done = false) (h : (T : ℝ) ≤ testRatioOf hsl other iF s) :
    bslStep hsl other T iF iL s =
      { minL := cond iL s.minL ((s.minL + s.maxL) / 2),
        maxL := cond iL ((s.minL + s.maxL) / 2) s.maxL,
        bestRgb := hslToRgb ⟨hsl.h, hsl.s, (s.minL + s.maxL) / 2⟩,
        bestRatio := testRatioOf hsl other iF s,
        iterations := s.iterations + 1,
        done := decide (|cond iL ((s.minL + s.maxL) / 2) s.maxL -
          cond iL s.minL ((s.minL + s.maxL) / 2)| < 1 / 10) } := by
  rw [testRatioOf] at h
  rw [bslStep, hd]
  simp only [cond_false, testRatioOf]
  rw [if_pos h]

theorem bslStep_lt (hsl : HSL) (other : RGB) (T : ℚ) (iF iL : Bool) (s : BSState)
    (hd : s.done = false) (h : testRatioOf hsl other iF s < (T : ℝ)) :
    bslStep hsl other T iF iL s =
      { minL := cond iL ((s.minL + s.maxL) / 2) s.minL,
        maxL := cond iL s.maxL ((s.minL + s.maxL) / 2),
        bestRgb := s.bestRgb,
        bestRatio := s.bestRatio,
        iterations := s.iterations + 1,
        done := decide (|cond iL s.maxL ((s.minL + s.maxL) / 2) -
          cond iL ((s.minL + s.maxL) / 2) s.minL| < 1 / 10) } := by
  rw [testRatioOf] at h
  rw [bslStep, hd]
  simp only [cond_false, testRatioOf]
  rw [if_neg (not_le.mpr h)]

/-- Throughout the loop, the recorded best ratio is the ratio of the
recorded best color against the other, fixed color, oriented by
`isForeground`. -/
theorem bslRun_ratio (hsl : HSL) (other : RGB) (T : ℚ) (iF iL : Bool) (n : ℕ) :
    (bslRun hsl other T iF iL n).bestRatio =
      contrastRatioHexed (cond iF (bslRun hsl other T iF iL n).bestRgb other)
        (cond iF other (bslRun hsl other T iF iL n).bestRgb) := by
  induction n with
  | zero =>
    rw [bslRun, bslInit]
    cases iF
    · simp only [cond_false]
      exact contrastRatioHexed_comm _ _
    · simp only [cond_true]
  | succ n ih =>
    rw [bslRun]
    by_cases hd : (bslRun hsl other T iF iL n).done = true
    · rw [bslStep_done _ _ _ _ _ _ hd]
      exact ih
    · rw [Bool.not_eq_true] at hd
      by_cases hc : (T : ℝ) ≤ testRatioOf hsl other iF (bslRun hsl other T iF iL n)
      · rw [bslStep_ge _ _ _ _ _ _ hd hc]
        rw [testRatioOf]
      · rw [bslStep_lt _ _ _ _ _ _ hd (not_le.mp hc)]
        exact ih

/-- The ratio field of a finished search is its color's own ratio
against the other color. -/
theorem binarySearchLightness_ratio (hsl : HSL) (other : RGB) (T : ℚ) (iF iL : Bool) (n : ℕ) :
    (binarySearchLightness hsl other T iF iL n).ratio =
      contrastRatioHexed (cond iF (binarySearchLightness hsl other T iF iL n).rgb other)
        (cond iF other (binarySearchLightness hsl other T iF iL n).rgb) := by
  rw [binarySearchLightness]
  exact bslRun_ratio hsl other T iF iL n

/-- Every candidate's ratio field is the contrast ratio of the pair it
denotes: its own color on its own side, the unmodified input on the
other side. -/
theorem snapCandidates_ratio (f b : RGB) (T : ℚ) (c : Candidate)
    (hc : c ∈ snapCandidates f b T) :
    c.ratio = contrastRatioHexed (cond c.path.isFg c.rgb f) (cond c.path.isFg b c.rgb) := by
  rw [snapCandidates] at hc
  simp only [List.mem_cons, List.not_mem_nil, or_false] at hc
  rcases hc with h | h | h | h
  · subst h
    simp only [AdjustPath.isFg, cond_true]
    exact binarySearchLightness_ratio (rgbToHsl f) b T true true 7
  · subst h
    simp only [AdjustPath.isFg, cond_true]
    exact binarySearchLightness_ratio (rgbToHsl f) b T true false 7
  · subst h
    simp only [AdjustPath.isFg, cond_false]
    have := binarySearchLightness_ratio (rgbToHsl b) f T false false 7
    rw [cond_false, cond_false] at this
    exact this
  · subst h
    simp only [AdjustPath.isFg, cond_false]
    have := binarySearchLightness_ratio (rgbToHsl b) f T false true 7
    rw [cond_false, cond_false] at this
    exact this

/-! ### List lemmas for the candidate sort and tie zone -/

theorem mem_insertByChange (l : List CandW) (c x : CandW) :
    x ∈ insertByChange l c ↔ x ∈ l ∨ x = c := by
  induction l with
  | nil => simp [insertByChange]
  | cons d ds ih =>
    rw [insertByChange]
    split
    · simp only [List.mem_cons, ih]
      tauto
    · simp only [List.mem_cons]
      tauto

theorem mem_foldl_insertByChange (l acc : List CandW) (x : CandW) :
    x ∈ l.foldl insertByChange acc ↔ x ∈ acc ∨ x ∈ l := by
  induction l generalizing acc with
  | nil => simp
  | cons c cs ih =>
    rw [List.foldl_cons, ih, mem_insertByChange]
    simp only [List.mem_cons]
    tauto

theorem mem_sortByChange (l : List CandW) (x : CandW) : x ∈ sortByChange l ↔ x ∈ l := by
  rw [sortByChange, mem_foldl_insertByChange]
  simp

theorem insertByChange_pairwise (l : List CandW) (c : CandW)
    (h : List.Pairwise (fun a b : CandW => a.change ≤ b.change) l) :
    List.Pairwise (fun a b : CandW => a.change ≤ b.change) (insertByChange l c) := by
  induction l with
  | nil => simp [insertByChange]
  | cons d ds ih =>
    rw [List.pairwise_cons] at h
    obtain ⟨hd, hds⟩ := h
    rw [insertByChange]
    split
    · rename_i hle
      rw [List.pairwise_cons]
      refine ⟨?_, ih hds⟩
      intro x hx
      rw [mem_insertByChange] at hx
      rcases hx with hx | hx
      · exact hd x hx
      · subst hx
        exact hle
    · rename_i hlt
      have hc : c.change ≤ d.change := le_of_not_le hlt
      rw [List.pairwise_cons]
      refine ⟨?_, List.pairwise_cons.mpr ⟨hd, hds⟩⟩
      intro x hx
      rcases List.mem_cons.mp hx with hx | hx
      · subst hx
        exact hc
      · exact le_trans hc (hd x hx)

theorem sortByChange_pairwise (l : List CandW) :
    List.Pairwise (fun a b : CandW => a.change ≤ b.change) (sortByChange l) := by
  rw [sortByChange]
  have : ∀ acc, List.Pairwise (fun a b : CandW => a.change ≤ b.change) acc →
      List.Pairwise (fun a b : CandW => a.change ≤ b.change) (l.foldl insertByChange acc) := by
    induction l with
    | nil => intro acc h; exact h
    | cons c cs ih =>
      intro acc h
      rw [List.foldl_cons]
      exact ih _ (insertByChange_pairwise acc c h)
  exact this [] (by simp)

theorem tieZone_eq (f b : RGB) (T : ℚ) (m : CandW) (ms : List CandW)
    (h : sortedPassing f b T = m :: ms) :
    tieZone f b T = m :: ms.filter fun c => |c.change - m.change| ≤ 0.5 := by
  rw [tieZone, h]
  show List.filter _ (m :: ms) = _
  rw [List.filter_cons, if_pos (by simp only [sub_self, abs_zero, decide_eq_true_eq]; norm_num)]

theorem tieZone_subset_sorted (f b : RGB) (T : ℚ) (c : CandW) (hc : c ∈ tieZone f b T) :
    c ∈ sortedPassing f b T := by
  rw [tieZone] at hc
  split at hc
  · exact absurd hc (by simp)
  · rename_i m ms hs
    rw [hs]
    exact List.mem_of_mem_filter hc

/-- A member of the sorted passing list is a passing candidate together
with its change annotation. -/
theorem sortedPassing_mem (f b : RGB) (T : ℚ) (c : CandW) (hc : c ∈ sortedPassing f b T) :
    c.toCandidate ∈ snapCandidates f b T ∧ (T : ℝ) - (EPSILON : ℝ) ≤ c.ratio := by
  rw [sortedPassing, mem_sortByChange, List.mem_map] at hc
  obtain ⟨c0, hc0, hw⟩ := hc
  rw [passingCandidates, List.mem_filter] at hc0
  obtain ⟨hmem, hdec⟩ := hc0
  have hle := of_decide_eq_true hdec
  have ht : c.toCandidate = c0 := by
    rw [← hw, withChange]
  refine ⟨ht ▸ hmem, ?_⟩
  have : c.ratio = c0.ratio := by rw [← ht]
  rw [this]
  exact hle

theorem chooseBest_mem (o : SnapOptions) (f b : RGB) (T : ℚ) (c : CandW)
    (h : chooseBest o f b T = some c) : c ∈ tieZone f b T := by
  rw [chooseBest] at h
  split at h
  · exact absurd h (by simp)
  · rename_i m ms hs
    have hm : m ∈ tieZone f b T := by
      rw [tieZone_eq f b T m ms hs]
      simp
    simp only [Option.some.injEq] at h
    subst h
    split
    · split
      · rcases hf : List.find? (fun c => c.path.isFg) (tieZone f b T) with - | d
        · rw [hf, Option.getD_none]
          exact hm
        · rw [hf, Option.getD_some]
          exact List.mem_of_find?_eq_some hf
      · split
        · rcases hf : List.find? (fun c => !c.path.isFg) (tieZone f b T) with - | d
          · rw [hf, Option.getD_none]
            exact hm
          · rw [hf, Option.getD_some]
            exact List.mem_of_find?_eq_some hf
        · rcases hf : List.find? (fun c => c.path.isFg) (tieZone f b T) with - | d
          · rw [hf, Option.getD_none]
            exact hm
          · rw [hf, Option.getD_some]
            exact List.mem_of_find?_eq_some hf
    · exact hm


/-! ### Threshold facts and the branch structure of `snapCore` -/

theorem requiredThreshold_eq (o : ContrastOptions) :
    requiredThreshold o = 3 ∨ requiredThreshold o = 4.5 := by
  rw [requiredThreshold]
  split
  · left
    norm_num [LARGE_TEXT_THRESHOLD]
  · right
    norm_num [NORMAL_TEXT_THRESHOLD]

theorem one_lt_requiredThreshold (o : ContrastOptions) : 1 < requiredThreshold o := by
  rcases requiredThreshold_eq o with h | h <;> rw [h] <;> norm_num

theorem snapCore_pass (f b : RGB) (o : SnapOptions)
    (h : (requiredThreshold o.toContrastOptions : ℝ) - (EPSILON : ℝ) ≤ contrastRatioHexed f b) :
    snapCore f b o = { fg := rgbToHex f, bg := rgbToHex b, ratio := contrastRatioHexed f b } := by
  simp only [snapCore]
  rw [if_pos h]

theorem snapCore_shortcut (f b : RGB) (o : SnapOptions)
    (hno : ¬((requiredThreshold o.toContrastOptions : ℝ) - (EPSILON : ℝ) ≤ contrastRatioHexed f b))
    (h1 : contrastRatioHexed f b = 1) (hT : 1 < requiredThreshold o.toContrastOptions) :
    snapCore f b o =
      { fg := rgbToHex f, bg := rgbToHex b, ratio := contrastRatioHexed f b,
        clamped := some true } := by
  simp only [snapCore]
  rw [if_neg hno, if_pos (by exact ⟨h1, hT⟩)]

theorem snapCore_choose (f b : RGB) (o : SnapOptions) (best : CandW)
    (hno : ¬((requiredThreshold o.toContrastOptions : ℝ) - (EPSILON : ℝ) ≤ contrastRatioHexed f b))
    (hns : ¬(contrastRatioHexed f b = 1 ∧ 1 < requiredThreshold o.toContrastOptions))
    (hcb : chooseBest o f b (requiredThreshold o.toContrastOptions) = some best) :
    snapCore f b o =
      { fg := rgbToHex (cond best.path.isFg best.rgb f),
        bg := rgbToHex (cond best.path.isFg b best.rgb),
        ratio := contrastRatioHexed (cond best.path.isFg best.rgb f) (cond best.path.isFg b best.rgb),
        clamped := some false, adjusted := some (cond best.path.isFg Side.fg Side.bg),
        iterations := some best.iterations } := by
  simp only [snapCore]
  rw [if_neg hno, if_neg hns, hcb]

theorem snapCore_clamped (f b : RGB) (o : SnapOptions)
    (hno : ¬((requiredThreshold o.toContrastOptions : ℝ) - (EPSILON : ℝ) ≤ contrastRatioHexed f b))
    (hns : ¬(contrastRatioHexed f b = 1 ∧ 1 < requiredThreshold o.toContrastOptions))
    (hcb : chooseBest o f b (requiredThreshold o.toContrastOptions) = none) :
    snapCore f b o =
      { fg := rgbToHex (cond (bestByRatio
            (snapCandidates f b (requiredThreshold o.toContrastOptions))).path.isFg
          (bestByRatio (snapCandidates f b (requiredThreshold o.toContrastOptions))).rgb f),
        bg := rgbToHex (cond (bestByRatio
            (snapCandidates f b (requiredThreshold o.toContrastOptions))).path.isFg
          b (bestByRatio (snapCandidates f b (requiredThreshold o.toContrastOptions))).rgb),
        ratio := contrastRatioHexed
          (cond (bestByRatio
              (snapCandidates f b (requiredThreshold o.toContrastOptions))).path.isFg
            (bestByRatio (snapCandidates f b (requiredThreshold o.toContrastOptions))).rgb f)
          (cond (bestByRatio
              (snapCandidates f b (requiredThreshold o.toContrastOptions))).path.isFg
            b (bestByRatio (snapCandidates f b (requiredThreshold o.toContrastOptions))).rgb),
        clamped := some true,
        adjusted := some (cond (bestByRatio
            (snapCandidates f b (requiredThreshold o.toContrastOptions))).path.isFg
          Side.fg Side.bg),
        iterations := some (bestByRatio
          (snapCandidates f b (requiredThreshold o.toContrastOptions))).iterations } := by
  simp only [snapCore]
  rw [if_neg hno, if_neg hns, hcb]

/-- Unfolding the parse step of `snapToPassingColor`. -/
theorem snapToPassingColor_ok (fg bg : String) (f b : RGB) (o : SnapOptions)
    (hf : hexToRgb fg = .ok f) (hb : hexToRgb bg = .ok b) :
    snapToPassingColor fg bg o = .ok (snapCore f b o) := by
  rw [snapToPassingColor, hf, hb]
  rfl

theorem passesContrast_ok (fg bg : String) (f b : RGB) (o : ContrastOptions)
    (hf : hexToRgb fg = .ok f) (hb : hexToRgb bg = .ok b) :
    passesContrast fg bg o = .ok (passesContrastRGB f b o) := by
  rw [passesContrast, hf, hb]
  rfl

theorem contrastRatio_ok (fg bg : String) (f b : RGB)
    (hf : hexToRgb fg = .ok f) (hb : hexToRgb bg = .ok b) :
    contrastRatio fg bg = .ok (contrastRatioRGB f b) := by
  rw [contrastRatio, hf, hb]
  rfl


/-! ### Round trip: rendering a color to hex and parsing it back -/

theorem jsRound_clamp_range (q : ℚ) :
    0 ≤ jsRound (clamp255 q) ∧ jsRound (clamp255 q) ≤ 255 := by
  have hc : 0 ≤ clamp255 q ∧ clamp255 q ≤ 255 := by
    rw [clamp255, qmax, qmin]
    by_cases h1 : (255 : ℚ) ≤ q
    · rw [if_pos h1]
      norm_num
    · rw [if_neg h1]
      by_cases h2 : (0 : ℚ) ≤ q
      · rw [if_pos h2]
        exact ⟨h2, le_of_not_le h1⟩
      · rw [if_neg h2]
        norm_num
  obtain ⟨h0, h255⟩ := hc
  constructor
  · rw [jsRound, Int.le_floor]
    push_cast
    linarith
  · rw [jsRound]
    have : (clamp255 q + 1 / 2 : ℚ) < 256 := by linarith
    have h2 := Int.floor_lt.mpr (by exact_mod_cast this : clamp255 q + 1 / 2 < ((256 : ℤ) : ℚ))
    omega

theorem hexDigitChar_toUpper : ∀ n : ℕ, n ≤ 15 → toUpperChar (hexDigitChar n) = hexDigitChar n := by
  decide

theorem hexDigitChar_isHex : ∀ n : ℕ, n ≤ 15 → isHexDigitU (hexDigitChar n) = true := by
  decide

theorem hexVal_hexDigitChar : ∀ n : ℕ, n ≤ 15 → hexVal (hexDigitChar n) = n := by
  decide

/-- Parsing a rendered color always succeeds and recovers exactly the
clamp-and-round canonicalization of the color. -/
theorem hexToRgb_rgbToHex (c : RGB) : hexToRgb (rgbToHex c) = .ok (canonRGB c) := by
  obtain ⟨hr0, hr1⟩ := jsRound_clamp_range c.r
  obtain ⟨hg0, hg1⟩ := jsRound_clamp_range c.g
  obtain ⟨hb0, hb1⟩ := jsRound_clamp_range c.b
  set vr := (jsRound (clamp255 c.r)).toNat with hvr
  set vg := (jsRound (clamp255 c.g)).toNat with hvg
  set vb := (jsRound (clamp255 c.b)).toNat with hvb
  have hvr255 : vr ≤ 255 := by omega
  have hvg255 : vg ≤ 255 := by omega
  have hvb255 : vb ≤ 255 := by omega
  have hdig : ∀ v : ℕ, v ≤ 255 → v / 16 ≤ 15 ∧ v % 16 ≤ 15 := by
    intro v hv
    omega
  have hexpand : rgbToHex c = ⟨['#', hexDigitChar (vr / 16), hexDigitChar (vr % 16),
      hexDigitChar (vg / 16), hexDigitChar (vg % 16),
      hexDigitChar (vb / 16), hexDigitChar (vb % 16)]⟩ := by
    rw [rgbToHex, toHexByte, toHexByte, toHexByte]
    rfl
  rw [hexpand, hexToRgb]
  have hclean : replaceFirstHash ['#', hexDigitChar (vr / 16), hexDigitChar (vr % 16),
      hexDigitChar (vg / 16), hexDigitChar (vg % 16),
      hexDigitChar (vb / 16), hexDigitChar (vb % 16)] =
      [hexDigitChar (vr / 16), hexDigitChar (vr % 16),
       hexDigitChar (vg / 16), hexDigitChar (vg % 16),
       hexDigitChar (vb / 16), hexDigitChar (vb % 16)] := by
    rw [replaceFirstHash, if_pos rfl]
  show (let cleanHex := (replaceFirstHash _).map toUpperChar
    if cleanHex.all isHexDigitU then _ else _) = _
  rw [hclean]
  simp only [List.map_cons, List.map_nil,
    hexDigitChar_toUpper _ (hdig vr hvr255).1, hexDigitChar_toUpper _ (hdig vr hvr255).2,
    hexDigitChar_toUpper _ (hdig vg hvg255).1, hexDigitChar_toUpper _ (hdig vg hvg255).2,
    hexDigitChar_toUpper _ (hdig vb hvb255).1, hexDigitChar_toUpper _ (hdig vb hvb255).2]
  rw [if_pos (by
    simp [List.all_cons, List.all_nil,
      hexDigitChar_isHex _ (hdig vr hvr255).1, hexDigitChar_isHex _ (hdig vr hvr255).2,
      hexDigitChar_isHex _ (hdig vg hvg255).1, hexDigitChar_isHex _ (hdig vg hvg255).2,
      hexDigitChar_isHex _ (hdig vb hvb255).1, hexDigitChar_isHex _ (hdig vb hvb255).2])]
  show Except.ok (⟨((16 * hexVal (hexDigitChar (vr / 16)) + hexVal (hexDigitChar (vr % 16)) : ℕ) : ℚ),
    ((16 * hexVal (hexDigitChar (vg / 16)) + hexVal (hexDigitChar (vg % 16)) : ℕ) : ℚ),
    ((16 * hexVal (hexDigitChar (vb / 16)) + hexVal (hexDigitChar (vb % 16)) : ℕ) : ℚ)⟩ : RGB) = _
  rw [hexVal_hexDigitChar _ (hdig vr hvr255).1, hexVal_hexDigitChar _ (hdig vr hvr255).2,
    hexVal_hexDigitChar _ (hdig vg hvg255).1, hexVal_hexDigitChar _ (hdig vg hvg255).2,
    hexVal_hexDigitChar _ (hdig vb hvb255).1, hexVal_hexDigitChar _ (hdig vb hvb255).2]
  have hval : ∀ v : ℕ, v ≤ 255 → 16 * (v / 16) + v % 16 = v := by
    intro v hv
    omega
  rw [hval vr hvr255, hval vg hvg255, hval vb hvb255]
  rw [canonRGB]
  have hcast : ∀ z : ℤ, 0 ≤ z → ((z.toNat : ℕ) : ℚ) = ((z : ℤ) : ℚ) := by
    intro z hz
    exact_mod_cast congrArg (fun t : ℤ => (t : ℚ)) (Int.toNat_of_nonneg hz)
  rw [Except.ok.injEq]
  rw [hvr, hvg, hvb]
  rw [RGB.mk.injEq]
  exact ⟨hcast _ hr0, hcast _ hg0, hcast _ hb0⟩

/-! ### Luminance extremes -/

theorem relativeLuminance_black : relativeLuminance ⟨0, 0, 0⟩ = 0 := by
  rw [relativeLuminance, srgbChannel]
  norm_num

theorem relativeLuminance_white : relativeLuminance ⟨255, 255, 255⟩ = 1 := by
  have h : srgbChannel ((255 : ℚ) / 255) = 1 := by
    rw [show ((255 : ℚ) / 255) = 1 by norm_num]
    exact srgbChannel_one
  rw [relativeLuminance]
  simp only [RGB.r, RGB.g, RGB.b]
  rw [h]
  norm_num

theorem relativeLuminance_eq_one_iff (col : RGB) (h0 : 0 ≤ col.r) (h0u : col.r ≤ 255)
    (h1 : 0 ≤ col.g) (h1u : col.g ≤ 255) (h2 : 0 ≤ col.b) (h2u : col.b ≤ 255) :
    relativeLuminance col = 1 ↔ col = ⟨255, 255, 255⟩ := by
  constructor
  · intro h
    have a0 := srgbChannel_le_one (col.r / 255) (by positivity) (by linarith)
    have a1 := srgbChannel_le_one (col.g / 255) (by positivity) (by linarith)
    have a2 := srgbChannel_le_one (col.b / 255) (by positivity) (by linarith)
    have b0 := srgbChannel_nonneg (col.r / 255) (by positivity)
    have b1 := srgbChannel_nonneg (col.g / 255) (by positivity)
    have b2 := srgbChannel_nonneg (col.b / 255) (by positivity)
    rw [relativeLuminance] at h
    have e0 : srgbChannel (col.r / 255) = 1 := by nlinarith
    have e1 : srgbChannel (col.g / 255) = 1 := by nlinarith
    have e2 : srgbChannel (col.b / 255) = 1 := by nlinarith
    have c0 := (srgbChannel_eq_one_iff (col.r / 255) (by positivity) (by linarith)).mp e0
    have c1 := (srgbChannel_eq_one_iff (col.g / 255) (by positivity) (by linarith)).mp e1
    have c2 := (srgbChannel_eq_one_iff (col.b / 255) (by positivity) (by linarith)).mp e2
    have : col.r = 255 := by
      field_simp at c0
      linarith
    have : col.g = 255 := by
      field_simp at c1
      linarith
    have : col.b = 255 := by
      field_simp at c2
      linarith
    cases col
    simp_all
  · intro h
    subst h
    exact relativeLuminance_white

theorem relativeLuminance_eq_zero_iff (col : RGB) (h0 : 0 ≤ col.r) (h1 : 0 ≤ col.g)
    (h2 : 0 ≤ col.b) : relativeLuminance col = 0 ↔ col = ⟨0, 0, 0⟩ := by
  constructor
  · intro h
    have b0 := srgbChannel_nonneg (col.r / 255) (by positivity)
    have b1 := srgbChannel_nonneg (col.g / 255) (by positivity)
    have b2 := srgbChannel_nonneg (col.b / 255) (by positivity)
    rw [relativeLuminance] at h
    have e0 : srgbChannel (col.r / 255) = 0 := by nlinarith
    have e1 : srgbChannel (col.g / 255) = 0 := by nlinarith
    have e2 : srgbChannel (col.b / 255) = 0 := by nlinarith
    have c0 := (srgbChannel_eq_zero_iff (col.r / 255) (by positivity)).mp e0
    have c1 := (srgbChannel_eq_zero_iff (col.g / 255) (by positivity)).mp e1
    have c2 := (srgbChannel_eq_zero_iff (col.b / 255) (by positivity)).mp e2
    have hr : col.r = 0 := by
      field_simp at c0
      linarith
    have hg : col.g = 0 := by
      field_simp at c1
      linarith
    have hb : col.b = 0 := by
      field_simp at c2
      linarith
    cases col
    simp_all
  · intro h
    subst h
    exact relativeLuminance_black

theorem contrastRatioRGB_eq_one_of_lum_eq (a b : RGB)
    (h : relativeLuminance a = relativeLuminance b) (ha : 0 ≤ relativeLuminance a) :
    contrastRatioRGB a b = 1 := by
  rw [contrastRatioRGB, h, max_self, min_self]
  exact div_self (by rw [← h]; linarith)


/-! ## Claim C4: the hex parsing boundary -/

def specHexShape (s : String) : Bool :=
  match s.data with
  | '#' :: rest => (decide (rest.length = 3) || decide (rest.length = 6)) &&
      rest.all fun c => isHexDigitU (toUpperChar c)
  | l => (decide (l.length = 3) || decide (l.length = 6)) &&
      l.all fun c => isHexDigitU (toUpperChar c)

def amendedHexShape (s : String) : Bool :=
  (decide ((replaceFirstHash s.data).length = 3) ||
      decide ((replaceFirstHash s.data).length = 6)) &&
    (replaceFirstHash s.data).all fun c => isHexDigitU (toUpperChar c)

theorem hexToRgb_eq_of_shape (s : String) :
    (amendedHexShape s = true → ∃ f, hexToRgb s = .ok f) ∧
    (amendedHexShape s = false → hexToRgb s = .error (formatErrorMsg s)) := by
  rw [amendedHexShape, hexToRgb]
  rcases hlist : replaceFirstHash s.data with - | ⟨c1, - | ⟨c2, - | ⟨c3, - | ⟨c4, - | ⟨c5, - | ⟨c6, - | ⟨c7, rest⟩⟩⟩⟩⟩⟩⟩
  · exact ⟨fun h => absurd h (by simp), fun _ => by split <;> rfl⟩
  · exact ⟨fun h => absurd h (by simp), fun _ => by split <;> rfl⟩
  · exact ⟨fun h => absurd h (by simp), fun _ => by split <;> rfl⟩
  · constructor
    · intro h
      have hall : [c1, c2, c3].all (fun c => isHexDigitU (toUpperChar c)) = true := by
        revert h
        simp
      rw [show List.map toUpperChar [c1, c2, c3] =
        [toUpperChar c1, toUpperChar c2, toUpperChar c3] from rfl]
      rw [if_pos (by revert hall; simp [List.all_cons])]
      exact ⟨_, rfl⟩
    · intro h
      have hall : [c1, c2, c3].all (fun c => isHexDigitU (toUpperChar c)) = false := by
        revert h
        simp
      rw [show List.map toUpperChar [c1, c2, c3] =
        [toUpperChar c1, toUpperChar c2, toUpperChar c3] from rfl]
      rw [if_neg (by revert hall; simp [List.all_cons])]
  · constructor
    · intro h
      exfalso
      simp at h
    · intro _
      split <;> rfl
  · constructor
    · intro h
      exfalso
      simp at h
    · intro _
      split <;> rfl
  · constructor
    · intro h
      have hall : [c1, c2, c3, c4, c5, c6].all (fun c => isHexDigitU (toUpperChar c)) = true := by
        revert h
        simp
      rw [show List.map toUpperChar [c1, c2, c3, c4, c5, c6] =
        [toUpperChar c1, toUpperChar c2, toUpperChar c3, toUpperChar c4, toUpperChar c5,
          toUpperChar c6] from rfl]
      rw [if_pos (by revert hall; simp [List.all_cons])]
      exact ⟨_, rfl⟩
    · intro h
      have hall : [c1, c2, c3, c4, c5, c6].all (fun c => isHexDigitU (toUpperChar c)) = false := by
        revert h
        simp
      rw [show List.map toUpperChar [c1, c2, c3, c4, c5, c6] =
        [toUpperChar c1, toUpperChar c2, toUpperChar c3, toUpperChar c4, toUpperChar c5,
          toUpperChar c6] from rfl]
      rw [if_neg (by revert hall; simp [List.all_cons])]
  · constructor
    · intro h
      exfalso
      simp at h
    · intro _
      split <;> rfl

/-- CLAIM C4, counterexample: the string "AB#C" is not of the claimed
shape (an optional LEADING hash followed by 3 or 6 hex digits), yet
`hexToRgb` accepts it, because `replace('#','')` deletes the first hash
wherever it occurs.  So the parser accepts strictly more strings than
the claim states. -/
theorem C4_counterexample :
    specHexShape "AB#C" = false ∧ hexToRgb "AB#C" = .ok ⟨170, 187, 204⟩ := by
  constructor
  · rfl
  · rfl

/-- CLAIM C4, amended: `hexToRgb` accepts exactly the strings in which
deleting the first hash occurrence, wherever it stands, leaves exactly
3 or exactly 6 case-insensitive hex digits; every other string throws a
`FormatError` whose message names the offending input and the two
accepted shapes; and the two parses are the only error source of
`snapToPassingColor`. -/
theorem C4_parse_boundary_amended (s fg bg : String) (o : SnapOptions) :
    (amendedHexShape s = true → ∃ f, hexToRgb s = .ok f) ∧
    (amendedHexShape s = false →
      hexToRgb s =
        .error ("Invalid hex color format: " ++ s ++ ". Expected #RGB or #RRGGBB format.")) ∧
    (∀ e : String, snapToPassingColor fg bg o = .error e →
      hexToRgb fg = .error e ∨ hexToRgb bg = .error e) := by
  refine ⟨(hexToRgb_eq_of_shape s).1, (hexToRgb_eq_of_shape s).2, ?_⟩
  intro e he
  rw [snapToPassingColor] at he
  rcases hf : hexToRgb fg with ef | f
  · rw [hf] at he
    left
    simp only [bind, Except.bind] at he
    injection he with he2
    rw [he2]
  · rw [hf] at he
    rcases hb : hexToRgb bg with eb | b
    · rw [hb] at he
      right
      simp only [bind, Except.bind] at he
      injection he with he2
      rw [he2]
    · rw [hb] at he
      simp only [bind, Except.bind, pure, Except.pure] at he
      exact absurd he (by simp)

/-- CLAIM C4, witness: both directions of the amended acceptance
characterization at concrete inputs. -/
theorem C4_witness :
    (∃ f, hexToRgb "#1A2B3C" = .ok f) ∧
    hexToRgb "#12345" =
      .error ("Invalid hex color format: " ++ "#12345" ++ ". Expected #RGB or #RRGGBB format.") :=
  ⟨(C4_parse_boundary_amended "#1A2B3C" "x" "y" {}).1 (by rfl),
    (C4_parse_boundary_amended "#12345" "x" "y" {}).2.1 (by rfl)⟩

/-! ## Claim C6: the pass verdict and the threshold policy -/

/-- Specification definition (§4.3): the required threshold as the
specification words it. -/
def specRequiredThreshold (o : ContrastOptions) : ℚ :=
  if o.isLargeText = true ∨ o.uiComponent = true then 3.0 else 4.5

theorem specRequiredThreshold_eq (o : ContrastOptions) :
    specRequiredThreshold o = requiredThreshold o := by
  rw [specRequiredThreshold, requiredThreshold]
  by_cases h1 : o.isLargeText <;> by_cases h2 : o.uiComponent <;>
    simp [h1, h2, LARGE_TEXT_THRESHOLD, NORMAL_TEXT_THRESHOLD]

/-- CLAIM C6 (confirmed): for valid hex colors and any options,
`passesContrast` returns true exactly when the contrast ratio is at
least `T - 1e-3`, where `T` is 3.0 when `isLargeText` or `uiComponent`
is set and 4.5 otherwise. -/
theorem C6_passes_iff_threshold (fg bg : String) (f b : RGB) (o : ContrastOptions)
    (hf : hexToRgb fg = .ok f) (hb : hexToRgb bg = .ok b) :
    passesContrast fg bg o = .ok (passesContrastRGB f b o) ∧
      (passesContrastRGB f b o = true ↔
        (specRequiredThreshold o : ℝ) - 1e-3 ≤ contrastRatioRGB f b) := by
  refine ⟨passesContrast_ok fg bg f b o hf hb, ?_⟩
  rw [passesContrastRGB, decide_eq_true_eq, specRequiredThreshold_eq,
    show ((EPSILON : ℚ) : ℝ) = (1e-3 : ℝ) by norm_num [EPSILON]]

/-- CLAIM C6, witness: the characterization applied to black on white
with default options. -/
theorem C6_witness :
    passesContrastRGB ⟨0, 0, 0⟩ ⟨255, 255, 255⟩ {} = true ↔
      (specRequiredThreshold {} : ℝ) - 1e-3 ≤ contrastRatioRGB ⟨0, 0, 0⟩ ⟨255, 255, 255⟩ :=
  (C6_passes_iff_threshold "#000000" "#FFFFFF" ⟨0, 0, 0⟩ ⟨255, 255, 255⟩ {}
    (by rfl) (by rfl)).2


/-! ## Claims C7 and C10: the identical-color shortcut -/

theorem canonRGB_chrange (c : RGB) :
    (0 ≤ (canonRGB c).r ∧ (canonRGB c).r ≤ 255) ∧ (0 ≤ (canonRGB c).g ∧ (canonRGB c).g ≤ 255) ∧
      (0 ≤ (canonRGB c).b ∧ (canonRGB c).b ≤ 255) := by
  obtain ⟨a0, a1⟩ := jsRound_clamp_range c.r
  obtain ⟨b0, b1⟩ := jsRound_clamp_range c.g
  obtain ⟨c0, c1⟩ := jsRound_clamp_range c.b
  rw [canonRGB]
  refine ⟨⟨?_, ?_⟩, ⟨?_, ?_⟩, ⟨?_, ?_⟩⟩
  · show (0 : ℚ) ≤ ((jsRound (clamp255 c.r) : ℤ) : ℚ)
    exact_mod_cast a0
  · show ((jsRound (clamp255 c.r) : ℤ) : ℚ) ≤ 255
    exact_mod_cast a1
  · show (0 : ℚ) ≤ ((jsRound (clamp255 c.g) : ℤ) : ℚ)
    exact_mod_cast b0
  · show ((jsRound (clamp255 c.g) : ℤ) : ℚ) ≤ 255
    exact_mod_cast b1
  · show (0 : ℚ) ≤ ((jsRound (clamp255 c.b) : ℤ) : ℚ)
    exact_mod_cast c0
  · show ((jsRound (clamp255 c.b) : ℤ) : ℚ) ≤ 255
    exact_mod_cast c1

theorem lum_canon_nonneg (c : RGB) : 0 ≤ relativeLuminance (canonRGB c) :=
  relativeLuminance_nonneg _ (canonRGB_chrange c).1.1 (canonRGB_chrange c).2.1.1
    (canonRGB_chrange c).2.2.1

theorem lum_canon_le_one (c : RGB) : relativeLuminance (canonRGB c) ≤ 1 :=
  relativeLuminance_le_one _ (canonRGB_chrange c).1.1 (canonRGB_chrange c).1.2
    (canonRGB_chrange c).2.1.1 (canonRGB_chrange c).2.1.2 (canonRGB_chrange c).2.2.1
    (canonRGB_chrange c).2.2.2

/-- CLAIM C7 (confirmed): for two inputs denoting the identical color,
under any options (the required threshold, 3 or 4.5, always exceeds 1),
`snapToPassingColor` returns immediately with ratio exactly 1,
`clamped = true`, the canonicalized inputs otherwise unchanged, and the
`adjusted` and `iterations` fields absent; no adjustment search runs. -/
theorem C7_identical_shortcut (fg bg : String) (f b : RGB) (o : SnapOptions)
    (hf : hexToRgb fg = .ok f) (hb : hexToRgb bg = .ok b) (hfb : f = b)
    (hT : 1 < requiredThreshold o.toContrastOptions) :
    snapToPassingColor fg bg o =
      .ok
        { fg := rgbToHex f, bg := rgbToHex b, ratio := 1, clamped := some true } := by
  subst hfb
  have h1 : contrastRatioHexed f f = 1 := by
    rw [contrastRatioHexed]
    exact contrastRatioRGB_self _ (lum_canon_nonneg f)
  have hno : ¬((requiredThreshold o.toContrastOptions : ℝ) - (EPSILON : ℝ) ≤
      contrastRatioHexed f f) := by
    rw [h1]
    rcases requiredThreshold_eq o.toContrastOptions with h | h <;> rw [h] <;>
      norm_num [EPSILON]
  rw [snapToPassingColor_ok fg bg f f o hf hb, snapCore_shortcut f f o hno h1 hT, h1]

/-- CLAIM C7, witness: the spec test
`snapToPassingColor('#FFFFFF','#FFFFFF')`. -/
theorem C7_witness :
    snapToPassingColor "#FFFFFF" "#FFFFFF" {} =
      .ok
        { fg := rgbToHex ⟨255, 255, 255⟩, bg := rgbToHex ⟨255, 255, 255⟩, ratio := 1,
          clamped := some true } :=
  C7_identical_shortcut "#FFFFFF" "#FFFFFF" ⟨255, 255, 255⟩ ⟨255, 255, 255⟩ {} (by rfl) (by rfl)
    rfl (by norm_num [requiredThreshold, NORMAL_TEXT_THRESHOLD, LARGE_TEXT_THRESHOLD])

/-- CLAIM C10 (confirmed): the shortcut branch tests the computed ratio,
not byte equality of the colors, so it fires on every pair whose parsed
colors have exactly equal relative luminance (contrast ratio exactly 1),
returning `clamped = true` with ratio 1 and no `adjusted`/`iterations`,
and no adjustment search runs. -/
theorem C10_ratio_one_shortcut (fg bg : String) (f b : RGB) (o : SnapOptions)
    (hf : hexToRgb fg = .ok f) (hb : hexToRgb bg = .ok b) (hne : fg ≠ bg)
    (hlum : relativeLuminance (canonRGB f) = relativeLuminance (canonRGB b))
    (hT : 1 < requiredThreshold o.toContrastOptions) :
    snapToPassingColor fg bg o =
      .ok
        { fg := rgbToHex f, bg := rgbToHex b, ratio := 1, clamped := some true } := by
  have h1 : contrastRatioHexed f b = 1 := by
    rw [contrastRatioHexed]
    exact contrastRatioRGB_eq_one_of_lum_eq _ _ hlum (lum_canon_nonneg f)
  have hno : ¬((requiredThreshold o.toContrastOptions : ℝ) - (EPSILON : ℝ) ≤
      contrastRatioHexed f b) := by
    rw [h1]
    rcases requiredThreshold_eq o.toContrastOptions with h | h <;> rw [h] <;>
      norm_num [EPSILON]
  rw [snapToPassingColor_ok fg bg f b o hf hb, snapCore_shortcut f b o hno h1 hT, h1]

/-- CLAIM C10, witness: two distinct input strings denoting the same
color (ratio exactly 1) take the shortcut. -/
theorem C10_witness :
    snapToPassingColor "#FFF" "#FFFFFF" {} =
      .ok
        { fg := rgbToHex ⟨255, 255, 255⟩, bg := rgbToHex ⟨255, 255, 255⟩, ratio := 1,
          clamped := some true } :=
  C10_ratio_one_shortcut "#FFF" "#FFFFFF" ⟨255, 255, 255⟩ ⟨255, 255, 255⟩ {} (by rfl) (by rfl)
    (by decide) rfl
    (by norm_num [requiredThreshold, NORMAL_TEXT_THRESHOLD, LARGE_TEXT_THRESHOLD])

/-! ## Claim C5: algebraic properties of the contrast ratio -/

set_option maxHeartbeats 1000000 in
/-- CLAIM C5 (confirmed): for valid hex colors, the contrast ratio is
symmetric, equals exactly 1 on an identical pair, always lies in
[1, 21], the value 21 is attained by black versus white, and 21 is
attained only by black versus white. -/
theorem C5_ratio_algebra (a b : String) (fa fb : RGB)
    (ha : hexToRgb a = .ok fa) (hb : hexToRgb b = .ok fb) :
    contrastRatio a b = .ok (contrastRatioRGB fa fb) ∧
    contrastRatioRGB fa fb = contrastRatioRGB fb fa ∧
    contrastRatioRGB fa fa = 1 ∧
    1 ≤ contrastRatioRGB fa fb ∧ contrastRatioRGB fa fb ≤ 21 ∧
    contrastRatioRGB ⟨0, 0, 0⟩ ⟨255, 255, 255⟩ = 21 ∧
    (contrastRatioRGB fa fb = 21 →
      (fa = ⟨0, 0, 0⟩ ∧ fb = ⟨255, 255, 255⟩) ∨ (fa = ⟨255, 255, 255⟩ ∧ fb = ⟨0, 0, 0⟩)) := by
  obtain ⟨⟨nr, hnr, er⟩, ⟨ng, hng, eg⟩, ⟨nb2, hnb, eb⟩⟩ := hexToRgb_range a fa ha
  obtain ⟨⟨mr, hmr, fr⟩, ⟨mg, hmg, fgg⟩, ⟨mb, hmb, fbb⟩⟩ := hexToRgb_range b fb hb
  have hfa0 : 0 ≤ fa.r ∧ 0 ≤ fa.g ∧ 0 ≤ fa.b := by
    rw [er, eg, eb]
    exact ⟨by positivity, by positivity, by positivity⟩
  have hfa1 : fa.r ≤ 255 ∧ fa.g ≤ 255 ∧ fa.b ≤ 255 := by
    rw [er, eg, eb]
    exact ⟨by exact_mod_cast hnr, by exact_mod_cast hng, by exact_mod_cast hnb⟩
  have hfb0 : 0 ≤ fb.r ∧ 0 ≤ fb.g ∧ 0 ≤ fb.b := by
    rw [fr, fgg, fbb]
    exact ⟨by positivity, by positivity, by positivity⟩
  have hfb1 : fb.r ≤ 255 ∧ fb.g ≤ 255 ∧ fb.b ≤ 255 := by
    rw [fr, fgg, fbb]
    exact ⟨by exact_mod_cast hmr, by exact_mod_cast hmg, by exact_mod_cast hmb⟩
  have hLa0 := relativeLuminance_nonneg fa hfa0.1 hfa0.2.1 hfa0.2.2
  have hLa1 := relativeLuminance_le_one fa hfa0.1 hfa1.1 hfa0.2.1 hfa1.2.1 hfa0.2.2 hfa1.2.2
  have hLb0 := relativeLuminance_nonneg fb hfb0.1 hfb0.2.1 hfb0.2.2
  have hLb1 := relativeLuminance_le_one fb hfb0.1 hfb1.1 hfb0.2.1 hfb1.2.1 hfb0.2.2 hfb1.2.2
  have hbw : contrastRatioRGB ⟨0, 0, 0⟩ ⟨255, 255, 255⟩ = 21 := by
    rw [contrastRatioRGB, relativeLuminance_black, relativeLuminance_white,
      max_eq_right (by norm_num : (0 : ℝ) ≤ 1), min_eq_left (by norm_num : (0 : ℝ) ≤ 1)]
    norm_num
  refine ⟨contrastRatio_ok a b fa fb ha hb, contrastRatioRGB_comm fa fb,
    contrastRatioRGB_self fa hLa0, contrastRatioRGB_ge_one fa fb hLa0 hLb0,
    contrastRatioRGB_le_21 fa fb hLa0 hLa1 hLb0 hLb1, hbw, ?_⟩
  intro h21
  rcases le_total (relativeLuminance fb) (relativeLuminance fa) with hba | hab
  · rw [contrastRatioRGB_eq_of_lums hba] at h21
    rw [div_eq_iff (ne_of_gt (by linarith : (0 : ℝ) < relativeLuminance fb + 0.05))] at h21
    have e1 : relativeLuminance fa = 1 := by nlinarith
    have e0 : relativeLuminance fb = 0 := by nlinarith
    right
    exact ⟨(relativeLuminance_eq_one_iff fa hfa0.1 hfa1.1 hfa0.2.1 hfa1.2.1 hfa0.2.2
        hfa1.2.2).mp e1,
      (relativeLuminance_eq_zero_iff fb hfb0.1 hfb0.2.1 hfb0.2.2).mp e0⟩
  · rw [contrastRatioRGB_comm fa fb, contrastRatioRGB_eq_of_lums hab] at h21
    rw [div_eq_iff (ne_of_gt (by linarith : (0 : ℝ) < relativeLuminance fa + 0.05))] at h21
    have e1 : relativeLuminance fb = 1 := by nlinarith
    have e0 : relativeLuminance fa = 0 := by nlinarith
    left
    exact ⟨(relativeLuminance_eq_zero_iff fa hfa0.1 hfa0.2.1 hfa0.2.2).mp e0,
      (relativeLuminance_eq_one_iff fb hfb0.1 hfb1.1 hfb0.2.1 hfb1.2.1 hfb0.2.2
        hfb1.2.2).mp e1⟩

/-- CLAIM C5, witness: the properties at black and white. -/
theorem C5_witness :
    contrastRatio "#000000" "#FFFFFF" =
      .ok (contrastRatioRGB ⟨0, 0, 0⟩ ⟨255, 255, 255⟩) ∧
    contrastRatioRGB ⟨0, 0, 0⟩ ⟨255, 255, 255⟩ = 21 :=
  ⟨(C5_ratio_algebra "#000000" "#FFFFFF" ⟨0, 0, 0⟩ ⟨255, 255, 255⟩ (by rfl) (by rfl)).1,
    (C5_ratio_algebra "#000000" "#FFFFFF" ⟨0, 0, 0⟩ ⟨255, 255, 255⟩ (by rfl)
      (by rfl)).2.2.2.2.2.1⟩

/-! ## Claim C9: already-passing pairs and idempotence -/

/-- CLAIM C9 (confirmed): an already-passing pair is returned unchanged
up to hex canonicalization, with its ratio and none of the `clamped`,
`adjusted`, `iterations` fields; re-running the snap on the returned
pair yields the identical result. -/
theorem C9_idempotent_on_passing (fg bg : String) (f b : RGB) (o : SnapOptions)
    (hf : hexToRgb fg = .ok f) (hb : hexToRgb bg = .ok b)
    (hpass : (requiredThreshold o.toContrastOptions : ℝ) - (EPSILON : ℝ) ≤
      contrastRatioHexed f b) :
    snapToPassingColor fg bg o =
      .ok
        { fg := rgbToHex f, bg := rgbToHex b, ratio := contrastRatioHexed f b } ∧
    snapToPassingColor (rgbToHex f) (rgbToHex b) o =
      .ok
        { fg := rgbToHex f, bg := rgbToHex b, ratio := contrastRatioHexed f b } := by
  constructor
  · rw [snapToPassingColor_ok fg bg f b o hf hb, snapCore_pass f b o hpass]
  · have hf2 : hexToRgb (rgbToHex f) = .ok f := by
      rw [hexToRgb_rgbToHex, canonRGB_hexToRgb fg f hf]
    have hb2 : hexToRgb (rgbToHex b) = .ok b := by
      rw [hexToRgb_rgbToHex, canonRGB_hexToRgb bg b hb]
    rw [snapToPassingColor_ok _ _ f b o hf2 hb2, snapCore_pass f b o hpass]

/-- CLAIM C9, witness: black on white already passes and snapping is
idempotent there. -/
theorem C9_witness :
    snapToPassingColor "#000000" "#FFFFFF" {} =
      .ok
        { fg := rgbToHex ⟨0, 0, 0⟩, bg := rgbToHex ⟨255, 255, 255⟩,
          ratio := contrastRatioHexed ⟨0, 0, 0⟩ ⟨255, 255, 255⟩ } ∧
    snapToPassingColor (rgbToHex ⟨0, 0, 0⟩) (rgbToHex ⟨255, 255, 255⟩) {} =
      .ok
        { fg := rgbToHex ⟨0, 0, 0⟩, bg := rgbToHex ⟨255, 255, 255⟩,
          ratio := contrastRatioHexed ⟨0, 0, 0⟩ ⟨255, 255, 255⟩ } := by
  have hcanon0 : canonRGB ⟨0, 0, 0⟩ = (⟨0, 0, 0⟩ : RGB) := by
    norm_num [canonRGB, clamp255, qmax, qmin, jsRound]
  have hcanon255 : canonRGB ⟨255, 255, 255⟩ = (⟨255, 255, 255⟩ : RGB) := by
    norm_num [canonRGB, clamp255, qmax, qmin, jsRound]
  have h21 : contrastRatioHexed ⟨0, 0, 0⟩ ⟨255, 255, 255⟩ = 21 := by
    rw [contrastRatioHexed, hcanon0, hcanon255, contrastRatioRGB, relativeLuminance_black,
      relativeLuminance_white, max_eq_right (by norm_num : (0 : ℝ) ≤ 1),
      min_eq_left (by norm_num : (0 : ℝ) ≤ 1)]
    norm_num
  exact C9_idempotent_on_passing "#000000" "#FFFFFF" ⟨0, 0, 0⟩ ⟨255, 255, 255⟩ {} (by rfl)
    (by rfl)
    (by rw [h21]
        rcases requiredThreshold_eq ({} : SnapOptions).toContrastOptions with h | h <;>
          rw [h] <;> norm_num [EPSILON])


/-! ## Claim C1: a non-clamped snap result passes -/

/-- CLAIM C1 (confirmed): whenever `snapToPassingColor` succeeds on
valid hex inputs and the result is not marked `clamped`, the returned
pair satisfies `passesContrast` under the same options: the threshold
and the epsilon rule used for the final verdict are the ones the search
used for its candidates. -/
theorem C1_snap_result_passes (fg bg : String) (o : SnapOptions) (f b : RGB) (R : SnapResult)
    (hf : hexToRgb fg = .ok f) (hb : hexToRgb bg = .ok b)
    (h : snapToPassingColor fg bg o = .ok R) (hnc : R.clamped ≠ some true) :
    passesContrast R.fg R.bg o.toContrastOptions = .ok true := by
  rw [snapToPassingColor_ok fg bg f b o hf hb] at h
  injection h with h
  by_cases hpass : (requiredThreshold o.toContrastOptions : ℝ) - (EPSILON : ℝ) ≤
      contrastRatioHexed f b
  · rw [snapCore_pass f b o hpass] at h
    subst h
    rw [passesContrast_ok _ _ (canonRGB f) (canonRGB b) _ (hexToRgb_rgbToHex f)
      (hexToRgb_rgbToHex b)]
    rw [contrastRatioHexed] at hpass
    rw [passesContrastRGB]
    rw [decide_eq_true hpass]
  · by_cases hshort : contrastRatioHexed f b = 1 ∧ 1 < requiredThreshold o.toContrastOptions
    · rw [snapCore_shortcut f b o hpass hshort.1 hshort.2] at h
      subst h
      exact absurd rfl hnc
    · rcases hcb : chooseBest o f b (requiredThreshold o.toContrastOptions) with - | best
      · rw [snapCore_clamped f b o hpass hshort hcb] at h
        subst h
        exact absurd rfl hnc
      · rw [snapCore_choose f b o best hpass hshort hcb] at h
        subst h
        obtain ⟨hcand, hge⟩ := sortedPassing_mem f b _ best
          (tieZone_subset_sorted f b _ best (chooseBest_mem o f b _ best hcb))
        have hratio := snapCandidates_ratio f b _ best.toCandidate hcand
        rw [passesContrast_ok _ _ (canonRGB (cond best.path.isFg best.rgb f))
          (canonRGB (cond best.path.isFg b best.rgb)) _ (hexToRgb_rgbToHex _)
          (hexToRgb_rgbToHex _)]
        rw [passesContrastRGB]
        have : (requiredThreshold o.toContrastOptions : ℝ) - (EPSILON : ℝ) ≤
            contrastRatioRGB (canonRGB (cond best.path.isFg best.rgb f))
              (canonRGB (cond best.path.isFg b best.rgb)) := by
          rw [← contrastRatioHexed, ← hratio]
          exact hge
        rw [decide_eq_true this]

/-- CLAIM C1, witness: black on white is returned without `clamped` and
the result passes. -/
theorem C1_witness :
    passesContrast (rgbToHex ⟨0, 0, 0⟩) (rgbToHex ⟨255, 255, 255⟩) ({} : SnapOptions).toContrastOptions = .ok true := by
  have hcanon0 : canonRGB ⟨0, 0, 0⟩ = (⟨0, 0, 0⟩ : RGB) := by
    norm_num [canonRGB, clamp255, qmax, qmin, jsRound]
  have hcanon255 : canonRGB ⟨255, 255, 255⟩ = (⟨255, 255, 255⟩ : RGB) := by
    norm_num [canonRGB, clamp255, qmax, qmin, jsRound]
  have h21 : contrastRatioHexed ⟨0, 0, 0⟩ ⟨255, 255, 255⟩ = 21 := by
    rw [contrastRatioHexed, hcanon0, hcanon255, contrastRatioRGB, relativeLuminance_black,
      relativeLuminance_white, max_eq_right (by norm_num : (0 : ℝ) ≤ 1),
      min_eq_left (by norm_num : (0 : ℝ) ≤ 1)]
    norm_num
  have hpass : (requiredThreshold ({} : SnapOptions).toContrastOptions : ℝ) - (EPSILON : ℝ) ≤
      contrastRatioHexed ⟨0, 0, 0⟩ ⟨255, 255, 255⟩ := by
    rw [h21]
    rcases requiredThreshold_eq ({} : SnapOptions).toContrastOptions with h | h <;> rw [h] <;>
      norm_num [EPSILON]
  exact C1_snap_result_passes "#000000" "#FFFFFF" {} ⟨0, 0, 0⟩ ⟨255, 255, 255⟩ _
    (by rfl) (by rfl)
    (by rw [snapToPassingColor_ok _ _ ⟨0, 0, 0⟩ ⟨255, 255, 255⟩ {} (by rfl) (by rfl),
          snapCore_pass _ _ _ hpass])
    (by intro hcl
        simp at hcl)

/-! ## Claim C8: only the adjusted side changes; output is canonical -/

/-- The canonical output format: a hash and six uppercase hex digits. -/
def isCanonicalHex (s : String) : Bool :=
  match s.data with
  | '#' :: rest => decide (rest.length = 6) && rest.all isHexDigitU
  | _ => false

theorem rgbToHex_canonical (c : RGB) : isCanonicalHex (rgbToHex c) = true := by
  obtain ⟨a0, a1⟩ := jsRound_clamp_range c.r
  obtain ⟨b0, b1⟩ := jsRound_clamp_range c.g
  obtain ⟨c0, c1⟩ := jsRound_clamp_range c.b
  have hdig : ∀ v : ℕ, v ≤ 255 → v / 16 ≤ 15 ∧ v % 16 ≤ 15 := by
    intro v hv
    omega
  have hr255 : (jsRound (clamp255 c.r)).toNat ≤ 255 := by omega
  have hg255 : (jsRound (clamp255 c.g)).toNat ≤ 255 := by omega
  have hb255 : (jsRound (clamp255 c.b)).toNat ≤ 255 := by omega
  rw [rgbToHex, toHexByte, toHexByte, toHexByte, isCanonicalHex]
  show (decide (List.length _ = 6) && List.all _ isHexDigitU) = true
  simp only [List.length_cons, List.length_append, List.length_nil, List.all_cons,
    List.all_append, List.all_nil, Bool.and_eq_true, decide_eq_true_eq,
    hexDigitChar_isHex _ (hdig _ hr255).1, hexDigitChar_isHex _ (hdig _ hr255).2,
    hexDigitChar_isHex _ (hdig _ hg255).1, hexDigitChar_isHex _ (hdig _ hg255).2,
    hexDigitChar_isHex _ (hdig _ hb255).1, hexDigitChar_isHex _ (hdig _ hb255).2]
  norm_num

/-- CLAIM C8 (confirmed): in every successful snap, when `adjusted`
names a side, only that side can differ from the canonicalized input and
the other returned side is the canonical hex form of the corresponding
input, unchanged; when `adjusted` is absent both sides are the
canonicalized inputs; and both returned strings are always `#` plus six
uppercase hex digits. -/
theorem C8_only_adjusted_side_changes (fg bg : String) (o : SnapOptions) (f b : RGB)
    (R : SnapResult) (hf : hexToRgb fg = .ok f) (hb : hexToRgb bg = .ok b)
    (h : snapToPassingColor fg bg o = .ok R) :
    (R.adjusted = some Side.fg → R.bg = rgbToHex b) ∧
    (R.adjusted = some Side.bg → R.fg = rgbToHex f) ∧
    (R.adjusted = none → R.fg = rgbToHex f ∧ R.bg = rgbToHex b) ∧
    isCanonicalHex R.fg = true ∧ isCanonicalHex R.bg = true := by
  rw [snapToPassingColor_ok fg bg f b o hf hb] at h
  injection h with h
  by_cases hpass : (requiredThreshold o.toContrastOptions : ℝ) - (EPSILON : ℝ) ≤
      contrastRatioHexed f b
  · rw [snapCore_pass f b o hpass] at h
    subst h
    exact ⟨fun hx => by simp at hx, fun hx => by simp at hx, fun _ => ⟨rfl, rfl⟩,
      rgbToHex_canonical f, rgbToHex_canonical b⟩
  · by_cases hshort : contrastRatioHexed f b = 1 ∧ 1 < requiredThreshold o.toContrastOptions
    · rw [snapCore_shortcut f b o hpass hshort.1 hshort.2] at h
      subst h
      exact ⟨fun hx => by simp at hx, fun hx => by simp at hx, fun _ => ⟨rfl, rfl⟩,
        rgbToHex_canonical f, rgbToHex_canonical b⟩
    · rcases hcb : chooseBest o f b (requiredThreshold o.toContrastOptions) with - | best
      · rw [snapCore_clamped f b o hpass hshort hcb] at h
        subst h
        refine ⟨?_, ?_, ?_, rgbToHex_canonical _, rgbToHex_canonical _⟩
        · intro hx
          cases hpf : (bestByRatio
              (snapCandidates f b (requiredThreshold o.toContrastOptions))).path.isFg
          · simp only [hpf, cond_false] at hx
            simp at hx
          · simp only [hpf, cond_true]
        · intro hx
          cases hpf : (bestByRatio
              (snapCandidates f b (requiredThreshold o.toContrastOptions))).path.isFg
          · simp only [hpf, cond_false]
          · simp only [hpf, cond_true] at hx
            simp at hx
        · intro hx
          simp at hx
      · rw [snapCore_choose f b o best hpass hshort hcb] at h
        subst h
        refine ⟨?_, ?_, ?_, rgbToHex_canonical _, rgbToHex_canonical _⟩
        · intro hx
          cases hpf : best.path.isFg
          · simp only [hpf, cond_false] at hx
            simp at hx
          · simp only [hpf, cond_true]
        · intro hx
          cases hpf : best.path.isFg
          · simp only [hpf, cond_false]
          · simp only [hpf, cond_true] at hx
            simp at hx
        · intro hx
          simp at hx

/-- CLAIM C8, witness: the characterization applied to black on white,
where no side is adjusted and both outputs are canonical. -/
theorem C8_witness :
    isCanonicalHex (rgbToHex (⟨0, 0, 0⟩ : RGB)) = true ∧
      isCanonicalHex (rgbToHex (⟨255, 255, 255⟩ : RGB)) = true := by
  have hcanon0 : canonRGB ⟨0, 0, 0⟩ = (⟨0, 0, 0⟩ : RGB) := by
    norm_num [canonRGB, clamp255, qmax, qmin, jsRound]
  have hcanon255 : canonRGB ⟨255, 255, 255⟩ = (⟨255, 255, 255⟩ : RGB) := by
    norm_num [canonRGB, clamp255, qmax, qmin, jsRound]
  have h21 : contrastRatioHexed ⟨0, 0, 0⟩ ⟨255, 255, 255⟩ = 21 := by
    rw [contrastRatioHexed, hcanon0, hcanon255, contrastRatioRGB, relativeLuminance_black,
      relativeLuminance_white, max_eq_right (by norm_num : (0 : ℝ) ≤ 1),
      min_eq_left (by norm_num : (0 : ℝ) ≤ 1)]
    norm_num
  have hpass : (requiredThreshold ({} : SnapOptions).toContrastOptions : ℝ) - (EPSILON : ℝ) ≤
      contrastRatioHexed ⟨0, 0, 0⟩ ⟨255, 255, 255⟩ := by
    rw [h21]
    rcases requiredThreshold_eq ({} : SnapOptions).toContrastOptions with h | h <;> rw [h] <;>
      norm_num [EPSILON]
  have h := C8_only_adjusted_side_changes "#000000" "#FFFFFF" {} ⟨0, 0, 0⟩ ⟨255, 255, 255⟩
    { fg := rgbToHex ⟨0, 0, 0⟩, bg := rgbToHex ⟨255, 255, 255⟩,
      ratio := contrastRatioHexed ⟨0, 0, 0⟩ ⟨255, 255, 255⟩ }
    (by rfl) (by rfl)
    (by rw [snapToPassingColor_ok _ _ ⟨0, 0, 0⟩ ⟨255, 255, 255⟩ {} (by rfl) (by rfl),
      snapCore_pass _ _ _ hpass])
  exact ⟨h.2.2.2.1, h.2.2.2.2⟩

/-! ## Claim C2: the midpoint test of the binary search and the epsilon
rule -/

/-- Two-sided bound on the gamma branch of `srgbChannel` from rational
fifth-root bounds on the companded base. -/
theorem srgbChannel_bounds (c p q : ℚ) (hp : 0 ≤ p) (hq : 0 ≤ q)
    (hclin : ¬(c ≤ 0.03928)) (h1 : p ^ 5 ≤ (c + 0.055) / 1.055)
    (h2 : (c + 0.055) / 1.055 ≤ q ^ 5) :
    ((p : ℝ)) ^ (12 : ℕ) ≤ srgbChannel c ∧ srgbChannel c ≤ ((q : ℝ)) ^ (12 : ℕ) := by
  rw [srgbChannel, if_neg hclin]
  have hb : (0 : ℚ) ≤ (c + 0.055) / 1.055 := by
    rw [not_le] at hclin
    positivity
  exact ⟨le_rpow24 _ _ hp h1, rpow24_le _ _ hq hb h2⟩

/-- Luminance bounds for the gray with channel value 189. -/
theorem c2lum189 :
    ((4726301037/5000000000 : ℚ) : ℝ) ^ (12 : ℕ) ≤ relativeLuminance ⟨189, 189, 189⟩ ∧
      relativeLuminance ⟨189, 189, 189⟩ ≤ ((378104083/400000000 : ℚ) : ℝ) ^ (12 : ℕ) := by
  rw [show (⟨189, 189, 189⟩ : RGB) = ⟨(189 : ℚ), 189, 189⟩ from rfl, relativeLuminance_gray]
  exact srgbChannel_bounds _ _ _ (by norm_num) (by norm_num) (by norm_num) (by norm_num)
    (by norm_num)

/-- Luminance bounds for the gray with channel value 77. -/
theorem c2lum77 :
    ((8051440901/10000000000 : ℚ) : ℝ) ^ (12 : ℕ) ≤ relativeLuminance ⟨77, 77, 77⟩ ∧
      relativeLuminance ⟨77, 77, 77⟩ ≤ ((4025720451/5000000000 : ℚ) : ℝ) ^ (12 : ℕ) := by
  rw [show (⟨77, 77, 77⟩ : RGB) = ⟨(77 : ℚ), 77, 77⟩ from rfl, relativeLuminance_gray]
  exact srgbChannel_bounds _ _ _ (by norm_num) (by norm_num) (by norm_num) (by norm_num)
    (by norm_num)

/-- Luminance bounds for the gray with channel value 122. -/
theorem c2lum122 :
    ((1744999129/2000000000 : ℚ) : ℝ) ^ (12 : ℕ) ≤ relativeLuminance ⟨122, 122, 122⟩ ∧
      relativeLuminance ⟨122, 122, 122⟩ ≤ ((4362497823/5000000000 : ℚ) : ℝ) ^ (12 : ℕ) := by
  rw [show (⟨122, 122, 122⟩ : RGB) = ⟨(122 : ℚ), 122, 122⟩ from rfl, relativeLuminance_gray]
  exact srgbChannel_bounds _ _ _ (by norm_num) (by norm_num) (by norm_num) (by norm_num)
    (by norm_num)

/-- The ratio of the first-midpoint candidate of the lighten-foreground
search for `#7A7A7A` on `#4D4D4D` lies in the epsilon window
`[4.499, 4.5)`. -/
theorem c2window :
    (requiredThreshold {} : ℝ) - (EPSILON : ℝ) ≤ contrastRatioRGB ⟨189, 189, 189⟩ ⟨77, 77, 77⟩ ∧
      contrastRatioRGB ⟨189, 189, 189⟩ ⟨77, 77, 77⟩ < (requiredThreshold {} : ℝ) := by
  have hT : requiredThreshold {} = 4.5 := by
    norm_num [requiredThreshold, NORMAL_TEXT_THRESHOLD, LARGE_TEXT_THRESHOLD]
  have h189 := c2lum189
  have h77 := c2lum77
  have hn189 : 0 ≤ relativeLuminance ⟨189, 189, 189⟩ :=
    relativeLuminance_nonneg _ (by norm_num) (by norm_num) (by norm_num)
  have hn77 : 0 ≤ relativeLuminance ⟨77, 77, 77⟩ :=
    relativeLuminance_nonneg _ (by norm_num) (by norm_num) (by norm_num)
  rw [hT]
  constructor
  · rw [show ((4.5 : ℚ) : ℝ) - (EPSILON : ℝ) = ((4.499 : ℚ) : ℝ) by norm_num [EPSILON]]
    apply contrastRatioRGB_ge _ _ _ (by norm_num) hn189 hn77
    left
    have key : ((4.499 : ℚ) : ℝ) * (((4025720451/5000000000 : ℚ) : ℝ) ^ (12 : ℕ) + 0.05) ≤
        ((4726301037/5000000000 : ℚ) : ℝ) ^ (12 : ℕ) + 0.05 := by
      norm_num
    nlinarith [h189.1, h77.2]
  · apply contrastRatioRGB_lt _ _ _ hn189 hn77
    · have key : ((378104083/400000000 : ℚ) : ℝ) ^ (12 : ℕ) + 0.05 <
          ((4.5 : ℚ) : ℝ) * (((8051440901/10000000000 : ℚ) : ℝ) ^ (12 : ℕ) + 0.05) := by
        norm_num
      nlinarith [h189.2, h77.1]
    · have key : ((4025720451/5000000000 : ℚ) : ℝ) ^ (12 : ℕ) + 0.05 <
          ((4.5 : ℚ) : ℝ) * (((4726301037/5000000000 : ℚ) : ℝ) ^ (12 : ℕ) + 0.05) := by
        norm_num
      nlinarith [h77.2, h189.1]

/-- The current ratio of `#7A7A7A` on `#4D4D4D` is above 1 and below
`4.5 - 1e-3`, so the snap neither returns early nor takes the
identical-color shortcut and the four searches do run. -/
theorem c2cur_bounds :
    1 < contrastRatioRGB ⟨122, 122, 122⟩ ⟨77, 77, 77⟩ ∧
      contrastRatioRGB ⟨122, 122, 122⟩ ⟨77, 77, 77⟩ <
        (requiredThreshold {} : ℝ) - (EPSILON : ℝ) := by
  have h122 := c2lum122
  have h77 := c2lum77
  have hn122 : 0 ≤ relativeLuminance ⟨122, 122, 122⟩ :=
    relativeLuminance_nonneg _ (by norm_num) (by norm_num) (by norm_num)
  have hn77 : 0 ≤ relativeLuminance ⟨77, 77, 77⟩ :=
    relativeLuminance_nonneg _ (by norm_num) (by norm_num) (by norm_num)
  constructor
  · have hge : ((1.5 : ℚ) : ℝ) ≤ contrastRatioRGB ⟨122, 122, 122⟩ ⟨77, 77, 77⟩ := by
      apply contrastRatioRGB_ge _ _ _ (by norm_num) hn122 hn77
      left
      have key : ((1.5 : ℚ) : ℝ) * (((4025720451/5000000000 : ℚ) : ℝ) ^ (12 : ℕ) + 0.05) ≤
          ((1744999129/2000000000 : ℚ) : ℝ) ^ (12 : ℕ) + 0.05 := by
        norm_num
      nlinarith [h122.1, h77.2]
    calc (1 : ℝ) < ((1.5 : ℚ) : ℝ) := by norm_num
      _ ≤ _ := hge
  · rw [show (requiredThreshold {} : ℝ) - (EPSILON : ℝ) = ((4.499 : ℚ) : ℝ) by
      norm_num [requiredThreshold, NORMAL_TEXT_THRESHOLD, LARGE_TEXT_THRESHOLD, EPSILON]]
    apply contrastRatioRGB_lt _ _ _ hn122 hn77
    · have key : ((4362497823/5000000000 : ℚ) : ℝ) ^ (12 : ℕ) + 0.05 <
          ((4.499 : ℚ) : ℝ) * (((8051440901/10000000000 : ℚ) : ℝ) ^ (12 : ℕ) + 0.05) := by
        norm_num
      nlinarith [h122.2, h77.1]
    · have key : ((4025720451/5000000000 : ℚ) : ℝ) ^ (12 : ℕ) + 0.05 <
          ((4.499 : ℚ) : ℝ) * (((1744999129/2000000000 : ℚ) : ℝ) ^ (12 : ℕ) + 0.05) := by
        norm_num
      nlinarith [h77.2, h122.1]

theorem c2hsl122 : rgbToHsl ⟨122, 122, 122⟩ = ⟨0, 0, 2440/51⟩ := by
  norm_num [rgbToHsl, qmax, qmin]

theorem c2gray122 : hslToRgb ⟨0, 0, 2440/51⟩ = ⟨122, 122, 122⟩ := by
  norm_num [hslToRgb, jsRound]

theorem c2canon122 : canonRGB ⟨122, 122, 122⟩ = (⟨122, 122, 122⟩ : RGB) := by
  norm_num [canonRGB, clamp255, qmax, qmin, jsRound]

theorem c2canon77 : canonRGB ⟨77, 77, 77⟩ = (⟨77, 77, 77⟩ : RGB) := by
  norm_num [canonRGB, clamp255, qmax, qmin, jsRound]

theorem c2canon189 : canonRGB ⟨189, 189, 189⟩ = (⟨189, 189, 189⟩ : RGB) := by
  norm_num [canonRGB, clamp255, qmax, qmin, jsRound]

/-- The loop state the lighten-foreground search of `#7A7A7A` on
`#4D4D4D` starts from: interval `[2440/51, 100]`, best so far the
round-tripped input. -/
noncomputable def c2State : BSState :=
  ⟨2440/51, 100, ⟨122, 122, 122⟩, contrastRatioHexed ⟨122, 122, 122⟩ ⟨77, 77, 77⟩, 0, false⟩

/-- The first midpoint of that search has lightness `3770/51`, which
renders to the gray 189, so its test ratio is that gray's ratio against
the fixed background. -/
theorem c2ratio :
    testRatioOf (rgbToHsl ⟨122, 122, 122⟩) ⟨77, 77, 77⟩ true c2State =
      contrastRatioRGB ⟨189, 189, 189⟩ ⟨77, 77, 77⟩ := by
  have h1 : hslToRgb ⟨(rgbToHsl ⟨122, 122, 122⟩).h, (rgbToHsl ⟨122, 122, 122⟩).s,
      (c2State.minL + c2State.maxL) / 2⟩ = ⟨189, 189, 189⟩ := by
    rw [c2hsl122]
    norm_num [c2State, hslToRgb, jsRound]
  rw [testRatioOf]
  simp only [cond_true]
  rw [h1, contrastRatioHexed, c2canon189, c2canon77]

/-- Claim C2 as stated: whenever a midpoint of any of the four binary
searches has a test ratio inside the epsilon window
`[threshold - 1e-3, threshold)`, the step treats it as meeting the
threshold: it records the midpoint color as the new best and narrows
the interval toward the midpoint (the far bound moves to the
midpoint). -/
def ClaimC2 : Prop :=
  ∀ (o : ContrastOptions) (hsl : HSL) (other : RGB) (iF iL : Bool) (s : BSState),
    s.done = false →
    (requiredThreshold o : ℝ) - (EPSILON : ℝ) ≤ testRatioOf hsl other iF s →
    testRatioOf hsl other iF s < (requiredThreshold o : ℝ) →
    (bslStep hsl other (requiredThreshold o) iF iL s).bestRgb =
        hslToRgb ⟨hsl.h, hsl.s, (s.minL + s.maxL) / 2⟩ ∧
      cond iL (bslStep hsl other (requiredThreshold o) iF iL s).maxL
        (bslStep hsl other (requiredThreshold o) iF iL s).minL = (s.minL + s.maxL) / 2

/-- CLAIM C2, counterexample: the claim fails at the first iteration of
the lighten-foreground search for `#7A7A7A` on `#4D4D4D` with default
options.  That input parses, is neither already passing nor at ratio 1
(so the searches do run, from exactly the state `c2State`), and the
first midpoint's ratio lies in `[4.499, 4.5)`; yet the step discards
the midpoint, because the source compares `testRatio >= threshold` with
no epsilon at line 250. -/
theorem C2_counterexample :
    ¬ClaimC2 ∧
    hexToRgb "#7A7A7A" = .ok ⟨122, 122, 122⟩ ∧
    hexToRgb "#4D4D4D" = .ok ⟨77, 77, 77⟩ ∧
    ¬((requiredThreshold {} : ℝ) - (EPSILON : ℝ) ≤
      contrastRatioHexed ⟨122, 122, 122⟩ ⟨77, 77, 77⟩) ∧
    contrastRatioHexed ⟨122, 122, 122⟩ ⟨77, 77, 77⟩ ≠ 1 ∧
    bslInit (rgbToHsl ⟨122, 122, 122⟩) ⟨77, 77, 77⟩ true = c2State := by
  have hch : contrastRatioHexed ⟨122, 122, 122⟩ ⟨77, 77, 77⟩ =
      contrastRatioRGB ⟨122, 122, 122⟩ ⟨77, 77, 77⟩ := by
    rw [contrastRatioHexed, c2canon122, c2canon77]
  refine ⟨?_, by rfl, by rfl, ?_, ?_, ?_⟩
  · intro hcl
    have h2 := (hcl {} (rgbToHsl ⟨122, 122, 122⟩) ⟨77, 77, 77⟩ true true c2State rfl
      (by rw [c2ratio]; exact c2window.1) (by rw [c2ratio]; exact c2window.2)).2
    rw [bslStep_lt (rgbToHsl ⟨122, 122, 122⟩) ⟨77, 77, 77⟩ (requiredThreshold {}) true true
      c2State rfl (by rw [c2ratio]; exact c2window.2)] at h2
    simp only [cond_true] at h2
    rw [show c2State.maxL = 100 from rfl, show c2State.minL = 2440/51 from rfl] at h2
    norm_num at h2
  · rw [hch, not_le]
    exact c2cur_bounds.2
  · rw [hch]
    exact ne_of_gt c2cur_bounds.1
  · rw [bslInit, c2hsl122, c2gray122]
    rfl

set_option maxHeartbeats 400000 in
/-- CLAIM C2 (corrected): the midpoint comparison of
`binarySearchLightness` uses the plain `testRatio >= threshold`, not
the epsilon rule of `passesContrast`: a midpoint whose ratio lies in
`[threshold - 1e-3, threshold)` is rejected — the best is left
unchanged and the interval narrows away from the midpoint (the near
bound moves to the midpoint). -/
theorem C2_midpoint_amended (o : ContrastOptions) (hsl : HSL) (other : RGB) (iF iL : Bool)
    (s : BSState) (hd : s.done = false)
    (hlo : (requiredThreshold o : ℝ) - (EPSILON : ℝ) ≤ testRatioOf hsl other iF s)
    (hhi : testRatioOf hsl other iF s < (requiredThreshold o : ℝ)) :
    (bslStep hsl other (requiredThreshold o) iF iL s).bestRgb = s.bestRgb ∧
    (bslStep hsl other (requiredThreshold o) iF iL s).bestRatio = s.bestRatio ∧
    cond iL (bslStep hsl other (requiredThreshold o) iF iL s).minL
      (bslStep hsl other (requiredThreshold o) iF iL s).maxL = (s.minL + s.maxL) / 2 := by
  rw [bslStep_lt hsl other (requiredThreshold o) iF iL s hd hhi]
  cases iL <;> exact ⟨rfl, rfl, rfl⟩

/-- CLAIM C2, witness: the amended step behavior at the first iteration
of the lighten-foreground search for `#7A7A7A` on `#4D4D4D`. -/
theorem C2_witness :
    (bslStep (rgbToHsl ⟨122, 122, 122⟩) ⟨77, 77, 77⟩ (requiredThreshold {}) true true
        c2State).bestRgb = c2State.bestRgb ∧
    (bslStep (rgbToHsl ⟨122, 122, 122⟩) ⟨77, 77, 77⟩ (requiredThreshold {}) true true
        c2State).bestRatio = c2State.bestRatio ∧
    cond true (bslStep (rgbToHsl ⟨122, 122, 122⟩) ⟨77, 77, 77⟩ (requiredThreshold {}) true true
        c2State).minL
      (bslStep (rgbToHsl ⟨122, 122, 122⟩) ⟨77, 77, 77⟩ (requiredThreshold {}) true true
        c2State).maxL = (c2State.minL + c2State.maxL) / 2 :=
  C2_midpoint_amended {} (rgbToHsl ⟨122, 122, 122⟩) ⟨77, 77, 77⟩ true true c2State rfl
    (by rw [c2ratio]; exact c2window.1) (by rw [c2ratio]; exact c2window.2)

/-! ## Claim C3: the tie-break order.  Concrete trace of
`snapCore ⟨96, 93, 93⟩ ⟨94, 94, 94⟩ { uiComponent := true }`
(hex `#605D5D` on `#5E5E5E`, threshold 3). -/

theorem c3ch12 :
    ((3133932397/5000000000 : ℚ) : ℝ) ^ (12 : ℕ) ≤ srgbChannel (12/255) ∧
      srgbChannel (12/255) ≤ ((1253572959/2000000000 : ℚ) : ℝ) ^ (12 : ℕ) :=
  srgbChannel_bounds _ _ _ (by norm_num) (by norm_num) (by norm_num) (by norm_num) (by norm_num)

theorem c3ch13 :
    ((631530911/1000000000 : ℚ) : ℝ) ^ (12 : ℕ) ≤ srgbChannel (13/255) ∧
      srgbChannel (13/255) ≤ ((6315309111/10000000000 : ℚ) : ℝ) ^ (12 : ℕ) :=
  srgbChannel_bounds _ _ _ (by norm_num) (by norm_num) (by norm_num) (by norm_num) (by norm_num)

theorem c3ch14 :
    ((3180684559/5000000000 : ℚ) : ℝ) ^ (12 : ℕ) ≤ srgbChannel (14/255) ∧
      srgbChannel (14/255) ≤ ((6361369119/10000000000 : ℚ) : ℝ) ^ (12 : ℕ) :=
  srgbChannel_bounds _ _ _ (by norm_num) (by norm_num) (by norm_num) (by norm_num) (by norm_num)

theorem c3ch15 :
    ((1601533127/2500000000 : ℚ) : ℝ) ^ (12 : ℕ) ≤ srgbChannel (15/255) ∧
      srgbChannel (15/255) ≤ ((6406132509/10000000000 : ℚ) : ℝ) ^ (12 : ℕ) :=
  srgbChannel_bounds _ _ _ (by norm_num) (by norm_num) (by norm_num) (by norm_num) (by norm_num)

theorem c3ch17 :
    ((1623019877/2500000000 : ℚ) : ℝ) ^ (12 : ℕ) ≤ srgbChannel (17/255) ∧
      srgbChannel (17/255) ≤ ((6492079509/10000000000 : ℚ) : ℝ) ^ (12 : ℕ) :=
  srgbChannel_bounds _ _ _ (by norm_num) (by norm_num) (by norm_num) (by norm_num) (by norm_num)

theorem c3ch18 :
    ((3266700387/5000000000 : ℚ) : ℝ) ^ (12 : ℕ) ≤ srgbChannel (18/255) ∧
      srgbChannel (18/255) ≤ ((261336031/400000000 : ℚ) : ℝ) ^ (12 : ℕ) :=
  srgbChannel_bounds _ _ _ (by norm_num) (by norm_num) (by norm_num) (by norm_num) (by norm_num)

theorem c3ch23 :
    ((3362873181/5000000000 : ℚ) : ℝ) ^ (12 : ℕ) ≤ srgbChannel (23/255) ∧
      srgbChannel (23/255) ≤ ((6725746363/10000000000 : ℚ) : ℝ) ^ (12 : ℕ) :=
  srgbChannel_bounds _ _ _ (by norm_num) (by norm_num) (by norm_num) (by norm_num) (by norm_num)

theorem c3ch24 :
    ((3380845471/5000000000 : ℚ) : ℝ) ^ (12 : ℕ) ≤ srgbChannel (24/255) ∧
      srgbChannel (24/255) ≤ ((6761690943/10000000000 : ℚ) : ℝ) ^ (12 : ℕ) :=
  srgbChannel_bounds _ _ _ (by norm_num) (by norm_num) (by norm_num) (by norm_num) (by norm_num)

theorem c3ch47 :
    ((297305553/400000000 : ℚ) : ℝ) ^ (12 : ℕ) ≤ srgbChannel (47/255) ∧
      srgbChannel (47/255) ≤ ((3716319413/5000000000 : ℚ) : ℝ) ^ (12 : ℕ) :=
  srgbChannel_bounds _ _ _ (by norm_num) (by norm_num) (by norm_num) (by norm_num) (by norm_num)

theorem c3ch48 :
    ((7456840033/10000000000 : ℚ) : ℝ) ^ (12 : ℕ) ≤ srgbChannel (48/255) ∧
      srgbChannel (48/255) ≤ ((3728420017/5000000000 : ℚ) : ℝ) ^ (12 : ℕ) :=
  srgbChannel_bounds _ _ _ (by norm_num) (by norm_num) (by norm_num) (by norm_num) (by norm_num)

theorem c3ch93 :
    ((8316460311/10000000000 : ℚ) : ℝ) ^ (12 : ℕ) ≤ srgbChannel (93/255) ∧
      srgbChannel (93/255) ≤ ((1039557539/1250000000 : ℚ) : ℝ) ^ (12 : ℕ) :=
  srgbChannel_bounds _ _ _ (by norm_num) (by norm_num) (by norm_num) (by norm_num) (by norm_num)

theorem c3ch94 :
    ((1666388741/2000000000 : ℚ) : ℝ) ^ (12 : ℕ) ≤ srgbChannel (94/255) ∧
      srgbChannel (94/255) ≤ ((4165971853/5000000000 : ℚ) : ℝ) ^ (12 : ℕ) :=
  srgbChannel_bounds _ _ _ (by norm_num) (by norm_num) (by norm_num) (by norm_num) (by norm_num)

theorem c3ch96 :
    ((209064241/250000000 : ℚ) : ℝ) ^ (12 : ℕ) ≤ srgbChannel (96/255) ∧
      srgbChannel (96/255) ≤ ((8362569641/10000000000 : ℚ) : ℝ) ^ (12 : ℕ) :=
  srgbChannel_bounds _ _ _ (by norm_num) (by norm_num) (by norm_num) (by norm_num) (by norm_num)

theorem c3ch173 :
    ((929868219/1000000000 : ℚ) : ℝ) ^ (12 : ℕ) ≤ srgbChannel (173/255) ∧
      srgbChannel (173/255) ≤ ((9298682191/10000000000 : ℚ) : ℝ) ^ (12 : ℕ) :=
  srgbChannel_bounds _ _ _ (by norm_num) (by norm_num) (by norm_num) (by norm_num) (by norm_num)

theorem c3ch175 :
    ((9318485233/10000000000 : ℚ) : ℝ) ^ (12 : ℕ) ≤ srgbChannel (175/255) ∧
      srgbChannel (175/255) ≤ ((4659242617/5000000000 : ℚ) : ℝ) ^ (12 : ℕ) :=
  srgbChannel_bounds _ _ _ (by norm_num) (by norm_num) (by norm_num) (by norm_num) (by norm_num)

theorem c3ch176 :
    ((4664161981/5000000000 : ℚ) : ℝ) ^ (12 : ℕ) ≤ srgbChannel (176/255) ∧
      srgbChannel (176/255) ≤ ((9328323963/10000000000 : ℚ) : ℝ) ^ (12 : ℕ) :=
  srgbChannel_bounds _ _ _ (by norm_num) (by norm_num) (by norm_num) (by norm_num) (by norm_num)

theorem c3ch177 :
    ((2334530339/2500000000 : ℚ) : ℝ) ^ (12 : ℕ) ≤ srgbChannel (177/255) ∧
      srgbChannel (177/255) ≤ ((9338121357/10000000000 : ℚ) : ℝ) ^ (12 : ℕ) :=
  srgbChannel_bounds _ _ _ (by norm_num) (by norm_num) (by norm_num) (by norm_num) (by norm_num)

theorem c3ch178 :
    ((4673938903/5000000000 : ℚ) : ℝ) ^ (12 : ℕ) ≤ srgbChannel (178/255) ∧
      srgbChannel (178/255) ≤ ((9347877807/10000000000 : ℚ) : ℝ) ^ (12 : ℕ) :=
  srgbChannel_bounds _ _ _ (by norm_num) (by norm_num) (by norm_num) (by norm_num) (by norm_num)

theorem c3ch179 :
    ((9357593693/10000000000 : ℚ) : ℝ) ^ (12 : ℕ) ≤ srgbChannel (179/255) ∧
      srgbChannel (179/255) ≤ ((4678796847/5000000000 : ℚ) : ℝ) ^ (12 : ℕ) :=
  srgbChannel_bounds _ _ _ (by norm_num) (by norm_num) (by norm_num) (by norm_num) (by norm_num)

theorem c3ch180 :
    ((1873453879/2000000000 : ℚ) : ℝ) ^ (12 : ℕ) ≤ srgbChannel (180/255) ∧
      srgbChannel (180/255) ≤ ((2341817349/2500000000 : ℚ) : ℝ) ^ (12 : ℕ) :=
  srgbChannel_bounds _ _ _ (by norm_num) (by norm_num) (by norm_num) (by norm_num) (by norm_num)

theorem c3ch181 :
    ((1875381057/2000000000 : ℚ) : ℝ) ^ (12 : ℕ) ≤ srgbChannel (181/255) ∧
      srgbChannel (181/255) ≤ ((4688452643/5000000000 : ℚ) : ℝ) ^ (12 : ℕ) :=
  srgbChannel_bounds _ _ _ (by norm_num) (by norm_num) (by norm_num) (by norm_num) (by norm_num)

theorem c3ch184 :
    ((4702788859/5000000000 : ℚ) : ℝ) ^ (12 : ℕ) ≤ srgbChannel (184/255) ∧
      srgbChannel (184/255) ≤ ((9405577719/10000000000 : ℚ) : ℝ) ^ (12 : ℕ) :=
  srgbChannel_bounds _ _ _ (by norm_num) (by norm_num) (by norm_num) (by norm_num) (by norm_num)

theorem c3ch185 :
    ((2353764493/2500000000 : ℚ) : ℝ) ^ (12 : ℕ) ≤ srgbChannel (185/255) ∧
      srgbChannel (185/255) ≤ ((9415057973/10000000000 : ℚ) : ℝ) ^ (12 : ℕ) :=
  srgbChannel_bounds _ _ _ (by norm_num) (by norm_num) (by norm_num) (by norm_num) (by norm_num)

theorem c3ch186 :
    ((1884900039/2000000000 : ℚ) : ℝ) ^ (12 : ℕ) ≤ srgbChannel (186/255) ∧
      srgbChannel (186/255) ≤ ((2356125049/2500000000 : ℚ) : ℝ) ^ (12 : ℕ) :=
  srgbChannel_bounds _ _ _ (by norm_num) (by norm_num) (by norm_num) (by norm_num) (by norm_num)

theorem c3ch194 :
    ((4749354447/5000000000 : ℚ) : ℝ) ^ (12 : ℕ) ≤ srgbChannel (194/255) ∧
      srgbChannel (194/255) ≤ ((1899741779/2000000000 : ℚ) : ℝ) ^ (12 : ℕ) :=
  srgbChannel_bounds _ _ _ (by norm_num) (by norm_num) (by norm_num) (by norm_num) (by norm_num)

theorem c3ch195 :
    ((9507823661/10000000000 : ℚ) : ℝ) ^ (12 : ℕ) ≤ srgbChannel (195/255) ∧
      srgbChannel (195/255) ≤ ((4753911831/5000000000 : ℚ) : ℝ) ^ (12 : ℕ) :=
  srgbChannel_bounds _ _ _ (by norm_num) (by norm_num) (by norm_num) (by norm_num) (by norm_num)

theorem c3ch196 :
    ((9516903609/10000000000 : ℚ) : ℝ) ^ (12 : ℕ) ≤ srgbChannel (196/255) ∧
      srgbChannel (196/255) ≤ ((951690361/1000000000 : ℚ) : ℝ) ^ (12 : ℕ) :=
  srgbChannel_bounds _ _ _ (by norm_num) (by norm_num) (by norm_num) (by norm_num) (by norm_num)

theorem c3ch214 :
    ((48373551/50000000 : ℚ) : ℝ) ^ (12 : ℕ) ≤ srgbChannel (214/255) ∧
      srgbChannel (214/255) ≤ ((9674710201/10000000000 : ℚ) : ℝ) ^ (12 : ℕ) :=
  srgbChannel_bounds _ _ _ (by norm_num) (by norm_num) (by norm_num) (by norm_num) (by norm_num)

theorem c3ch215 :
    ((9683181011/10000000000 : ℚ) : ℝ) ^ (12 : ℕ) ≤ srgbChannel (215/255) ∧
      srgbChannel (215/255) ≤ ((2420795253/2500000000 : ℚ) : ℝ) ^ (12 : ℕ) :=
  srgbChannel_bounds _ _ _ (by norm_num) (by norm_num) (by norm_num) (by norm_num) (by norm_num)

theorem c3ch216 :
    ((2422905571/2500000000 : ℚ) : ℝ) ^ (12 : ℕ) ≤ srgbChannel (216/255) ∧
      srgbChannel (216/255) ≤ ((1938324457/2000000000 : ℚ) : ℝ) ^ (12 : ℕ) :=
  srgbChannel_bounds _ _ _ (by norm_num) (by norm_num) (by norm_num) (by norm_num) (by norm_num)

theorem c3lum_12_12_12 :
    0.2126 * ((3133932397/5000000000 : ℚ) : ℝ) ^ (12 : ℕ) + 0.7152 * ((3133932397/5000000000 : ℚ) : ℝ) ^ (12 : ℕ) + 0.0722 * ((3133932397/5000000000 : ℚ) : ℝ) ^ (12 : ℕ) ≤
      relativeLuminance ⟨12, 12, 12⟩ ∧
    relativeLuminance ⟨12, 12, 12⟩ ≤
      0.2126 * ((1253572959/2000000000 : ℚ) : ℝ) ^ (12 : ℕ) + 0.7152 * ((1253572959/2000000000 : ℚ) : ℝ) ^ (12 : ℕ) + 0.0722 * ((1253572959/2000000000 : ℚ) : ℝ) ^ (12 : ℕ) := by
  have h12 := c3ch12
  constructor <;> (simp only [relativeLuminance]; linarith [h12.1, h12.2])

theorem c3lum_13_12_12 :
    0.2126 * ((631530911/1000000000 : ℚ) : ℝ) ^ (12 : ℕ) + 0.7152 * ((3133932397/5000000000 : ℚ) : ℝ) ^ (12 : ℕ) + 0.0722 * ((3133932397/5000000000 : ℚ) : ℝ) ^ (12 : ℕ) ≤
      relativeLuminance ⟨13, 12, 12⟩ ∧
    relativeLuminance ⟨13, 12, 12⟩ ≤
      0.2126 * ((6315309111/10000000000 : ℚ) : ℝ) ^ (12 : ℕ) + 0.7152 * ((1253572959/2000000000 : ℚ) : ℝ) ^ (12 : ℕ) + 0.0722 * ((1253572959/2000000000 : ℚ) : ℝ) ^ (12 : ℕ) := by
  have h13 := c3ch13
  have h12 := c3ch12
  constructor <;> (simp only [relativeLuminance]; linarith [h13.1, h13.2, h12.1, h12.2])

theorem c3lum_13_13_13 :
    0.2126 * ((631530911/1000000000 : ℚ) : ℝ) ^ (12 : ℕ) + 0.7152 * ((631530911/1000000000 : ℚ) : ℝ) ^ (12 : ℕ) + 0.0722 * ((631530911/1000000000 : ℚ) : ℝ) ^ (12 : ℕ) ≤
      relativeLuminance ⟨13, 13, 13⟩ ∧
    relativeLuminance ⟨13, 13, 13⟩ ≤
      0.2126 * ((6315309111/10000000000 : ℚ) : ℝ) ^ (12 : ℕ) + 0.7152 * ((6315309111/10000000000 : ℚ) : ℝ) ^ (12 : ℕ) + 0.0722 * ((6315309111/10000000000 : ℚ) : ℝ) ^ (12 : ℕ) := by
  have h13 := c3ch13
  constructor <;> (simp only [relativeLuminance]; linarith [h13.1, h13.2])

theorem c3lum_14_13_13 :
    0.2126 * ((3180684559/5000000000 : ℚ) : ℝ) ^ (12 : ℕ) + 0.7152 * ((631530911/1000000000 : ℚ) : ℝ) ^ (12 : ℕ) + 0.0722 * ((631530911/1000000000 : ℚ) : ℝ) ^ (12 : ℕ) ≤
      relativeLuminance ⟨14, 13, 13⟩ ∧
    relativeLuminance ⟨14, 13, 13⟩ ≤
      0.2126 * ((6361369119/10000000000 : ℚ) : ℝ) ^ (12 : ℕ) + 0.7152 * ((6315309111/10000000000 : ℚ) : ℝ) ^ (12 : ℕ) + 0.0722 * ((6315309111/10000000000 : ℚ) : ℝ) ^ (12 : ℕ) := by
  have h14 := c3ch14
  have h13 := c3ch13
  constructor <;> (simp only [relativeLuminance]; linarith [h14.1, h14.2, h13.1, h13.2])

theorem c3lum_15_15_15 :
    0.2126 * ((1601533127/2500000000 : ℚ) : ℝ) ^ (12 : ℕ) + 0.7152 * ((1601533127/2500000000 : ℚ) : ℝ) ^ (12 : ℕ) + 0.0722 * ((1601533127/2500000000 : ℚ) : ℝ) ^ (12 : ℕ) ≤
      relativeLuminance ⟨15, 15, 15⟩ ∧
    relativeLuminance ⟨15, 15, 15⟩ ≤
      0.2126 * ((6406132509/10000000000 : ℚ) : ℝ) ^ (12 : ℕ) + 0.7152 * ((6406132509/10000000000 : ℚ) : ℝ) ^ (12 : ℕ) + 0.0722 * ((6406132509/10000000000 : ℚ) : ℝ) ^ (12 : ℕ) := by
  have h15 := c3ch15
  constructor <;> (simp only [relativeLuminance]; linarith [h15.1, h15.2])

theorem c3lum_18_17_17 :
    0.2126 * ((3266700387/5000000000 : ℚ) : ℝ) ^ (12 : ℕ) + 0.7152 * ((1623019877/2500000000 : ℚ) : ℝ) ^ (12 : ℕ) + 0.0722 * ((1623019877/2500000000 : ℚ) : ℝ) ^ (12 : ℕ) ≤
      relativeLuminance ⟨18, 17, 17⟩ ∧
    relativeLuminance ⟨18, 17, 17⟩ ≤
      0.2126 * ((261336031/400000000 : ℚ) : ℝ) ^ (12 : ℕ) + 0.7152 * ((6492079509/10000000000 : ℚ) : ℝ) ^ (12 : ℕ) + 0.0722 * ((6492079509/10000000000 : ℚ) : ℝ) ^ (12 : ℕ) := by
  have h18 := c3ch18
  have h17 := c3ch17
  constructor <;> (simp only [relativeLuminance]; linarith [h18.1, h18.2, h17.1, h17.2])

theorem c3lum_18_18_18 :
    0.2126 * ((3266700387/5000000000 : ℚ) : ℝ) ^ (12 : ℕ) + 0.7152 * ((3266700387/5000000000 : ℚ) : ℝ) ^ (12 : ℕ) + 0.0722 * ((3266700387/5000000000 : ℚ) : ℝ) ^ (12 : ℕ) ≤
      relativeLuminance ⟨18, 18, 18⟩ ∧
    relativeLuminance ⟨18, 18, 18⟩ ≤
      0.2126 * ((261336031/400000000 : ℚ) : ℝ) ^ (12 : ℕ) + 0.7152 * ((261336031/400000000 : ℚ) : ℝ) ^ (12 : ℕ) + 0.0722 * ((261336031/400000000 : ℚ) : ℝ) ^ (12 : ℕ) := by
  have h18 := c3ch18
  constructor <;> (simp only [relativeLuminance]; linarith [h18.1, h18.2])

theorem c3lum_24_23_23 :
    0.2126 * ((3380845471/5000000000 : ℚ) : ℝ) ^ (12 : ℕ) + 0.7152 * ((3362873181/5000000000 : ℚ) : ℝ) ^ (12 : ℕ) + 0.0722 * ((3362873181/5000000000 : ℚ) : ℝ) ^ (12 : ℕ) ≤
      relativeLuminance ⟨24, 23, 23⟩ ∧
    relativeLuminance ⟨24, 23, 23⟩ ≤
      0.2126 * ((6761690943/10000000000 : ℚ) : ℝ) ^ (12 : ℕ) + 0.7152 * ((6725746363/10000000000 : ℚ) : ℝ) ^ (12 : ℕ) + 0.0722 * ((6725746363/10000000000 : ℚ) : ℝ) ^ (12 : ℕ) := by
  have h24 := c3ch24
  have h23 := c3ch23
  constructor <;> (simp only [relativeLuminance]; linarith [h24.1, h24.2, h23.1, h23.2])

theorem c3lum_24_24_24 :
    0.2126 * ((3380845471/5000000000 : ℚ) : ℝ) ^ (12 : ℕ) + 0.7152 * ((3380845471/5000000000 : ℚ) : ℝ) ^ (12 : ℕ) + 0.0722 * ((3380845471/5000000000 : ℚ) : ℝ) ^ (12 : ℕ) ≤
      relativeLuminance ⟨24, 24, 24⟩ ∧
    relativeLuminance ⟨24, 24, 24⟩ ≤
      0.2126 * ((6761690943/10000000000 : ℚ) : ℝ) ^ (12 : ℕ) + 0.7152 * ((6761690943/10000000000 : ℚ) : ℝ) ^ (12 : ℕ) + 0.0722 * ((6761690943/10000000000 : ℚ) : ℝ) ^ (12 : ℕ) := by
  have h24 := c3ch24
  constructor <;> (simp only [relativeLuminance]; linarith [h24.1, h24.2])

theorem c3lum_47_47_47 :
    0.2126 * ((297305553/400000000 : ℚ) : ℝ) ^ (12 : ℕ) + 0.7152 * ((297305553/400000000 : ℚ) : ℝ) ^ (12 : ℕ) + 0.0722 * ((297305553/400000000 : ℚ) : ℝ) ^ (12 : ℕ) ≤
      relativeLuminance ⟨47, 47, 47⟩ ∧
    relativeLuminance ⟨47, 47, 47⟩ ≤
      0.2126 * ((3716319413/5000000000 : ℚ) : ℝ) ^ (12 : ℕ) + 0.7152 * ((3716319413/5000000000 : ℚ) : ℝ) ^ (12 : ℕ) + 0.0722 * ((3716319413/5000000000 : ℚ) : ℝ) ^ (12 : ℕ) := by
  have h47 := c3ch47
  constructor <;> (simp only [relativeLuminance]; linarith [h47.1, h47.2])

theorem c3lum_48_47_47 :
    0.2126 * ((7456840033/10000000000 : ℚ) : ℝ) ^ (12 : ℕ) + 0.7152 * ((297305553/400000000 : ℚ) : ℝ) ^ (12 : ℕ) + 0.0722 * ((297305553/400000000 : ℚ) : ℝ) ^ (12 : ℕ) ≤
      relativeLuminance ⟨48, 47, 47⟩ ∧
    relativeLuminance ⟨48, 47, 47⟩ ≤
      0.2126 * ((3728420017/5000000000 : ℚ) : ℝ) ^ (12 : ℕ) + 0.7152 * ((3716319413/5000000000 : ℚ) : ℝ) ^ (12 : ℕ) + 0.0722 * ((3716319413/5000000000 : ℚ) : ℝ) ^ (12 : ℕ) := by
  have h48 := c3ch48
  have h47 := c3ch47
  constructor <;> (simp only [relativeLuminance]; linarith [h48.1, h48.2, h47.1, h47.2])

theorem c3lum_94_94_94 :
    0.2126 * ((1666388741/2000000000 : ℚ) : ℝ) ^ (12 : ℕ) + 0.7152 * ((1666388741/2000000000 : ℚ) : ℝ) ^ (12 : ℕ) + 0.0722 * ((1666388741/2000000000 : ℚ) : ℝ) ^ (12 : ℕ) ≤
      relativeLuminance ⟨94, 94, 94⟩ ∧
    relativeLuminance ⟨94, 94, 94⟩ ≤
      0.2126 * ((4165971853/5000000000 : ℚ) : ℝ) ^ (12 : ℕ) + 0.7152 * ((4165971853/5000000000 : ℚ) : ℝ) ^ (12 : ℕ) + 0.0722 * ((4165971853/5000000000 : ℚ) : ℝ) ^ (12 : ℕ) := by
  have h94 := c3ch94
  constructor <;> (simp only [relativeLuminance]; linarith [h94.1, h94.2])

theorem c3lum_96_93_93 :
    0.2126 * ((209064241/250000000 : ℚ) : ℝ) ^ (12 : ℕ) + 0.7152 * ((8316460311/10000000000 : ℚ) : ℝ) ^ (12 : ℕ) + 0.0722 * ((8316460311/10000000000 : ℚ) : ℝ) ^ (12 : ℕ) ≤
      relativeLuminance ⟨96, 93, 93⟩ ∧
    relativeLuminance ⟨96, 93, 93⟩ ≤
      0.2126 * ((8362569641/10000000000 : ℚ) : ℝ) ^ (12 : ℕ) + 0.7152 * ((1039557539/1250000000 : ℚ) : ℝ) ^ (12 : ℕ) + 0.0722 * ((1039557539/1250000000 : ℚ) : ℝ) ^ (12 : ℕ) := by
  have h96 := c3ch96
  have h93 := c3ch93
  constructor <;> (simp only [relativeLuminance]; linarith [h96.1, h96.2, h93.1, h93.2])

theorem c3lum_175_175_175 :
    0.2126 * ((9318485233/10000000000 : ℚ) : ℝ) ^ (12 : ℕ) + 0.7152 * ((9318485233/10000000000 : ℚ) : ℝ) ^ (12 : ℕ) + 0.0722 * ((9318485233/10000000000 : ℚ) : ℝ) ^ (12 : ℕ) ≤
      relativeLuminance ⟨175, 175, 175⟩ ∧
    relativeLuminance ⟨175, 175, 175⟩ ≤
      0.2126 * ((4659242617/5000000000 : ℚ) : ℝ) ^ (12 : ℕ) + 0.7152 * ((4659242617/5000000000 : ℚ) : ℝ) ^ (12 : ℕ) + 0.0722 * ((4659242617/5000000000 : ℚ) : ℝ) ^ (12 : ℕ) := by
  have h175 := c3ch175
  constructor <;> (simp only [relativeLuminance]; linarith [h175.1, h175.2])

theorem c3lum_176_173_173 :
    0.2126 * ((4664161981/5000000000 : ℚ) : ℝ) ^ (12 : ℕ) + 0.7152 * ((929868219/1000000000 : ℚ) : ℝ) ^ (12 : ℕ) + 0.0722 * ((929868219/1000000000 : ℚ) : ℝ) ^ (12 : ℕ) ≤
      relativeLuminance ⟨176, 173, 173⟩ ∧
    relativeLuminance ⟨176, 173, 173⟩ ≤
      0.2126 * ((9328323963/10000000000 : ℚ) : ℝ) ^ (12 : ℕ) + 0.7152 * ((9298682191/10000000000 : ℚ) : ℝ) ^ (12 : ℕ) + 0.0722 * ((9298682191/10000000000 : ℚ) : ℝ) ^ (12 : ℕ) := by
  have h176 := c3ch176
  have h173 := c3ch173
  constructor <;> (simp only [relativeLuminance]; linarith [h176.1, h176.2, h173.1, h173.2])

theorem c3lum_176_176_176 :
    0.2126 * ((4664161981/5000000000 : ℚ) : ℝ) ^ (12 : ℕ) + 0.7152 * ((4664161981/5000000000 : ℚ) : ℝ) ^ (12 : ℕ) + 0.0722 * ((4664161981/5000000000 : ℚ) : ℝ) ^ (12 : ℕ) ≤
      relativeLuminance ⟨176, 176, 176⟩ ∧
    relativeLuminance ⟨176, 176, 176⟩ ≤
      0.2126 * ((9328323963/10000000000 : ℚ) : ℝ) ^ (12 : ℕ) + 0.7152 * ((9328323963/10000000000 : ℚ) : ℝ) ^ (12 : ℕ) + 0.0722 * ((9328323963/10000000000 : ℚ) : ℝ) ^ (12 : ℕ) := by
  have h176 := c3ch176
  constructor <;> (simp only [relativeLuminance]; linarith [h176.1, h176.2])

theorem c3lum_177_175_175 :
    0.2126 * ((2334530339/2500000000 : ℚ) : ℝ) ^ (12 : ℕ) + 0.7152 * ((9318485233/10000000000 : ℚ) : ℝ) ^ (12 : ℕ) + 0.0722 * ((9318485233/10000000000 : ℚ) : ℝ) ^ (12 : ℕ) ≤
      relativeLuminance ⟨177, 175, 175⟩ ∧
    relativeLuminance ⟨177, 175, 175⟩ ≤
      0.2126 * ((9338121357/10000000000 : ℚ) : ℝ) ^ (12 : ℕ) + 0.7152 * ((4659242617/5000000000 : ℚ) : ℝ) ^ (12 : ℕ) + 0.0722 * ((4659242617/5000000000 : ℚ) : ℝ) ^ (12 : ℕ) := by
  have h177 := c3ch177
  have h175 := c3ch175
  constructor <;> (simp only [relativeLuminance]; linarith [h177.1, h177.2, h175.1, h175.2])

theorem c3lum_177_177_177 :
    0.2126 * ((2334530339/2500000000 : ℚ) : ℝ) ^ (12 : ℕ) + 0.7152 * ((2334530339/2500000000 : ℚ) : ℝ) ^ (12 : ℕ) + 0.0722 * ((2334530339/2500000000 : ℚ) : ℝ) ^ (12 : ℕ) ≤
      relativeLuminance ⟨177, 177, 177⟩ ∧
    relativeLuminance ⟨177, 177, 177⟩ ≤
      0.2126 * ((9338121357/10000000000 : ℚ) : ℝ) ^ (12 : ℕ) + 0.7152 * ((9338121357/10000000000 : ℚ) : ℝ) ^ (12 : ℕ) + 0.0722 * ((9338121357/10000000000 : ℚ) : ℝ) ^ (12 : ℕ) := by
  have h177 := c3ch177
  constructor <;> (simp only [relativeLuminance]; linarith [h177.1, h177.2])

theorem c3lum_178_176_176 :
    0.2126 * ((4673938903/5000000000 : ℚ) : ℝ) ^ (12 : ℕ) + 0.7152 * ((4664161981/5000000000 : ℚ) : ℝ) ^ (12 : ℕ) + 0.0722 * ((4664161981/5000000000 : ℚ) : ℝ) ^ (12 : ℕ) ≤
      relativeLuminance ⟨178, 176, 176⟩ ∧
    relativeLuminance ⟨178, 176, 176⟩ ≤
      0.2126 * ((9347877807/10000000000 : ℚ) : ℝ) ^ (12 : ℕ) + 0.7152 * ((9328323963/10000000000 : ℚ) : ℝ) ^ (12 : ℕ) + 0.0722 * ((9328323963/10000000000 : ℚ) : ℝ) ^ (12 : ℕ) := by
  have h178 := c3ch178
  have h176 := c3ch176
  constructor <;> (simp only [relativeLuminance]; linarith [h178.1, h178.2, h176.1, h176.2])

theorem c3lum_180_180_180 :
    0.2126 * ((1873453879/2000000000 : ℚ) : ℝ) ^ (12 : ℕ) + 0.7152 * ((1873453879/2000000000 : ℚ) : ℝ) ^ (12 : ℕ) + 0.0722 * ((1873453879/2000000000 : ℚ) : ℝ) ^ (12 : ℕ) ≤
      relativeLuminance ⟨180, 180, 180⟩ ∧
    relativeLuminance ⟨180, 180, 180⟩ ≤
      0.2126 * ((2341817349/2500000000 : ℚ) : ℝ) ^ (12 : ℕ) + 0.7152 * ((2341817349/2500000000 : ℚ) : ℝ) ^ (12 : ℕ) + 0.0722 * ((2341817349/2500000000 : ℚ) : ℝ) ^ (12 : ℕ) := by
  have h180 := c3ch180
  constructor <;> (simp only [relativeLuminance]; linarith [h180.1, h180.2])

theorem c3lum_181_179_179 :
    0.2126 * ((1875381057/2000000000 : ℚ) : ℝ) ^ (12 : ℕ) + 0.7152 * ((9357593693/10000000000 : ℚ) : ℝ) ^ (12 : ℕ) + 0.0722 * ((9357593693/10000000000 : ℚ) : ℝ) ^ (12 : ℕ) ≤
      relativeLuminance ⟨181, 179, 179⟩ ∧
    relativeLuminance ⟨181, 179, 179⟩ ≤
      0.2126 * ((4688452643/5000000000 : ℚ) : ℝ) ^ (12 : ℕ) + 0.7152 * ((4678796847/5000000000 : ℚ) : ℝ) ^ (12 : ℕ) + 0.0722 * ((4678796847/5000000000 : ℚ) : ℝ) ^ (12 : ℕ) := by
  have h181 := c3ch181
  have h179 := c3ch179
  constructor <;> (simp only [relativeLuminance]; linarith [h181.1, h181.2, h179.1, h179.2])

theorem c3lum_185_185_185 :
    0.2126 * ((2353764493/2500000000 : ℚ) : ℝ) ^ (12 : ℕ) + 0.7152 * ((2353764493/2500000000 : ℚ) : ℝ) ^ (12 : ℕ) + 0.0722 * ((2353764493/2500000000 : ℚ) : ℝ) ^ (12 : ℕ) ≤
      relativeLuminance ⟨185, 185, 185⟩ ∧
    relativeLuminance ⟨185, 185, 185⟩ ≤
      0.2126 * ((9415057973/10000000000 : ℚ) : ℝ) ^ (12 : ℕ) + 0.7152 * ((9415057973/10000000000 : ℚ) : ℝ) ^ (12 : ℕ) + 0.0722 * ((9415057973/10000000000 : ℚ) : ℝ) ^ (12 : ℕ) := by
  have h185 := c3ch185
  constructor <;> (simp only [relativeLuminance]; linarith [h185.1, h185.2])

theorem c3lum_186_184_184 :
    0.2126 * ((1884900039/2000000000 : ℚ) : ℝ) ^ (12 : ℕ) + 0.7152 * ((4702788859/5000000000 : ℚ) : ℝ) ^ (12 : ℕ) + 0.0722 * ((4702788859/5000000000 : ℚ) : ℝ) ^ (12 : ℕ) ≤
      relativeLuminance ⟨186, 184, 184⟩ ∧
    relativeLuminance ⟨186, 184, 184⟩ ≤
      0.2126 * ((2356125049/2500000000 : ℚ) : ℝ) ^ (12 : ℕ) + 0.7152 * ((9405577719/10000000000 : ℚ) : ℝ) ^ (12 : ℕ) + 0.0722 * ((9405577719/10000000000 : ℚ) : ℝ) ^ (12 : ℕ) := by
  have h186 := c3ch186
  have h184 := c3ch184
  constructor <;> (simp only [relativeLuminance]; linarith [h186.1, h186.2, h184.1, h184.2])

theorem c3lum_195_195_195 :
    0.2126 * ((9507823661/10000000000 : ℚ) : ℝ) ^ (12 : ℕ) + 0.7152 * ((9507823661/10000000000 : ℚ) : ℝ) ^ (12 : ℕ) + 0.0722 * ((9507823661/10000000000 : ℚ) : ℝ) ^ (12 : ℕ) ≤
      relativeLuminance ⟨195, 195, 195⟩ ∧
    relativeLuminance ⟨195, 195, 195⟩ ≤
      0.2126 * ((4753911831/5000000000 : ℚ) : ℝ) ^ (12 : ℕ) + 0.7152 * ((4753911831/5000000000 : ℚ) : ℝ) ^ (12 : ℕ) + 0.0722 * ((4753911831/5000000000 : ℚ) : ℝ) ^ (12 : ℕ) := by
  have h195 := c3ch195
  constructor <;> (simp only [relativeLuminance]; linarith [h195.1, h195.2])

theorem c3lum_196_194_194 :
    0.2126 * ((9516903609/10000000000 : ℚ) : ℝ) ^ (12 : ℕ) + 0.7152 * ((4749354447/5000000000 : ℚ) : ℝ) ^ (12 : ℕ) + 0.0722 * ((4749354447/5000000000 : ℚ) : ℝ) ^ (12 : ℕ) ≤
      relativeLuminance ⟨196, 194, 194⟩ ∧
    relativeLuminance ⟨196, 194, 194⟩ ≤
      0.2126 * ((951690361/1000000000 : ℚ) : ℝ) ^ (12 : ℕ) + 0.7152 * ((1899741779/2000000000 : ℚ) : ℝ) ^ (12 : ℕ) + 0.0722 * ((1899741779/2000000000 : ℚ) : ℝ) ^ (12 : ℕ) := by
  have h196 := c3ch196
  have h194 := c3ch194
  constructor <;> (simp only [relativeLuminance]; linarith [h196.1, h196.2, h194.1, h194.2])

theorem c3lum_215_215_215 :
    0.2126 * ((9683181011/10000000000 : ℚ) : ℝ) ^ (12 : ℕ) + 0.7152 * ((9683181011/10000000000 : ℚ) : ℝ) ^ (12 : ℕ) + 0.0722 * ((9683181011/10000000000 : ℚ) : ℝ) ^ (12 : ℕ) ≤
      relativeLuminance ⟨215, 215, 215⟩ ∧
    relativeLuminance ⟨215, 215, 215⟩ ≤
      0.2126 * ((2420795253/2500000000 : ℚ) : ℝ) ^ (12 : ℕ) + 0.7152 * ((2420795253/2500000000 : ℚ) : ℝ) ^ (12 : ℕ) + 0.0722 * ((2420795253/2500000000 : ℚ) : ℝ) ^ (12 : ℕ) := by
  have h215 := c3ch215
  constructor <;> (simp only [relativeLuminance]; linarith [h215.1, h215.2])

theorem c3lum_216_214_214 :
    0.2126 * ((2422905571/2500000000 : ℚ) : ℝ) ^ (12 : ℕ) + 0.7152 * ((48373551/50000000 : ℚ) : ℝ) ^ (12 : ℕ) + 0.0722 * ((48373551/50000000 : ℚ) : ℝ) ^ (12 : ℕ) ≤
      relativeLuminance ⟨216, 214, 214⟩ ∧
    relativeLuminance ⟨216, 214, 214⟩ ≤
      0.2126 * ((1938324457/2000000000 : ℚ) : ℝ) ^ (12 : ℕ) + 0.7152 * ((9674710201/10000000000 : ℚ) : ℝ) ^ (12 : ℕ) + 0.0722 * ((9674710201/10000000000 : ℚ) : ℝ) ^ (12 : ℕ) := by
  have h216 := c3ch216
  have h214 := c3ch214
  constructor <;> (simp only [relativeLuminance]; linarith [h216.1, h216.2, h214.1, h214.2])

theorem c3c_A1 :
    contrastRatioRGB ⟨176, 173, 173⟩ ⟨94, 94, 94⟩ < ((3 : ℚ) : ℝ) := by
  rw [show ((3 : ℚ) : ℝ) = (3 : ℝ) by norm_num]
  have hA := c3lum_176_173_173
  have hB := c3lum_94_94_94
  apply contrastRatioRGB_lt _ _ _
    (relativeLuminance_nonneg _ (by norm_num) (by norm_num) (by norm_num))
    (relativeLuminance_nonneg _ (by norm_num) (by norm_num) (by norm_num))
  · have key : 0.2126 * ((9328323963/10000000000 : ℚ) : ℝ) ^ (12 : ℕ) + 0.7152 * ((9298682191/10000000000 : ℚ) : ℝ) ^ (12 : ℕ) + 0.0722 * ((9298682191/10000000000 : ℚ) : ℝ) ^ (12 : ℕ) + 0.05 <
        (3 : ℝ) * (0.2126 * ((1666388741/2000000000 : ℚ) : ℝ) ^ (12 : ℕ) + 0.7152 * ((1666388741/2000000000 : ℚ) : ℝ) ^ (12 : ℕ) + 0.0722 * ((1666388741/2000000000 : ℚ) : ℝ) ^ (12 : ℕ) + 0.05) := by
      norm_num
    linarith [hA.2, hB.1, key]
  · have key : 0.2126 * ((4165971853/5000000000 : ℚ) : ℝ) ^ (12 : ℕ) + 0.7152 * ((4165971853/5000000000 : ℚ) : ℝ) ^ (12 : ℕ) + 0.0722 * ((4165971853/5000000000 : ℚ) : ℝ) ^ (12 : ℕ) + 0.05 <
        (3 : ℝ) * (0.2126 * ((4664161981/5000000000 : ℚ) : ℝ) ^ (12 : ℕ) + 0.7152 * ((929868219/1000000000 : ℚ) : ℝ) ^ (12 : ℕ) + 0.0722 * ((929868219/1000000000 : ℚ) : ℝ) ^ (12 : ℕ) + 0.05) := by
      norm_num
    linarith [hB.2, hA.1, key]

theorem c3c_A2 :
    ((3 : ℚ) : ℝ) ≤ contrastRatioRGB ⟨216, 214, 214⟩ ⟨94, 94, 94⟩ := by
  rw [show ((3 : ℚ) : ℝ) = (3 : ℝ) by norm_num]
  have hA := c3lum_216_214_214
  have hB := c3lum_94_94_94
  apply contrastRatioRGB_ge _ _ _ (by norm_num)
    (relativeLuminance_nonneg _ (by norm_num) (by norm_num) (by norm_num))
    (relativeLuminance_nonneg _ (by norm_num) (by norm_num) (by norm_num))
  left
  have key : (3 : ℝ) * (0.2126 * ((4165971853/5000000000 : ℚ) : ℝ) ^ (12 : ℕ) + 0.7152 * ((4165971853/5000000000 : ℚ) : ℝ) ^ (12 : ℕ) + 0.0722 * ((4165971853/5000000000 : ℚ) : ℝ) ^ (12 : ℕ) + 0.05) ≤
        0.2126 * ((2422905571/2500000000 : ℚ) : ℝ) ^ (12 : ℕ) + 0.7152 * ((48373551/50000000 : ℚ) : ℝ) ^ (12 : ℕ) + 0.0722 * ((48373551/50000000 : ℚ) : ℝ) ^ (12 : ℕ) + 0.05 := by
    norm_num
  linarith [hA.1, hB.2, key]

theorem c3c_A3 :
    ((3 : ℚ) : ℝ) ≤ contrastRatioRGB ⟨196, 194, 194⟩ ⟨94, 94, 94⟩ := by
  rw [show ((3 : ℚ) : ℝ) = (3 : ℝ) by norm_num]
  have hA := c3lum_196_194_194
  have hB := c3lum_94_94_94
  apply contrastRatioRGB_ge _ _ _ (by norm_num)
    (relativeLuminance_nonneg _ (by norm_num) (by norm_num) (by norm_num))
    (relativeLuminance_nonneg _ (by norm_num) (by norm_num) (by norm_num))
  left
  have key : (3 : ℝ) * (0.2126 * ((4165971853/5000000000 : ℚ) : ℝ) ^ (12 : ℕ) + 0.7152 * ((4165971853/5000000000 : ℚ) : ℝ) ^ (12 : ℕ) + 0.0722 * ((4165971853/5000000000 : ℚ) : ℝ) ^ (12 : ℕ) + 0.05) ≤
        0.2126 * ((9516903609/10000000000 : ℚ) : ℝ) ^ (12 : ℕ) + 0.7152 * ((4749354447/5000000000 : ℚ) : ℝ) ^ (12 : ℕ) + 0.0722 * ((4749354447/5000000000 : ℚ) : ℝ) ^ (12 : ℕ) + 0.05 := by
    norm_num
  linarith [hA.1, hB.2, key]

theorem c3c_A4 :
    ((3 : ℚ) : ℝ) ≤ contrastRatioRGB ⟨186, 184, 184⟩ ⟨94, 94, 94⟩ := by
  rw [show ((3 : ℚ) : ℝ) = (3 : ℝ) by norm_num]
  have hA := c3lum_186_184_184
  have hB := c3lum_94_94_94
  apply contrastRatioRGB_ge _ _ _ (by norm_num)
    (relativeLuminance_nonneg _ (by norm_num) (by norm_num) (by norm_num))
    (relativeLuminance_nonneg _ (by norm_num) (by norm_num) (by norm_num))
  left
  have key : (3 : ℝ) * (0.2126 * ((4165971853/5000000000 : ℚ) : ℝ) ^ (12 : ℕ) + 0.7152 * ((4165971853/5000000000 : ℚ) : ℝ) ^ (12 : ℕ) + 0.0722 * ((4165971853/5000000000 : ℚ) : ℝ) ^ (12 : ℕ) + 0.05) ≤
        0.2126 * ((1884900039/2000000000 : ℚ) : ℝ) ^ (12 : ℕ) + 0.7152 * ((4702788859/5000000000 : ℚ) : ℝ) ^ (12 : ℕ) + 0.0722 * ((4702788859/5000000000 : ℚ) : ℝ) ^ (12 : ℕ) + 0.05 := by
    norm_num
  linarith [hA.1, hB.2, key]

theorem c3c_A5 :
    ((3 : ℚ) : ℝ) ≤ contrastRatioRGB ⟨181, 179, 179⟩ ⟨94, 94, 94⟩ := by
  rw [show ((3 : ℚ) : ℝ) = (3 : ℝ) by norm_num]
  have hA := c3lum_181_179_179
  have hB := c3lum_94_94_94
  apply contrastRatioRGB_ge _ _ _ (by norm_num)
    (relativeLuminance_nonneg _ (by norm_num) (by norm_num) (by norm_num))
    (relativeLuminance_nonneg _ (by norm_num) (by norm_num) (by norm_num))
  left
  have key : (3 : ℝ) * (0.2126 * ((4165971853/5000000000 : ℚ) : ℝ) ^ (12 : ℕ) + 0.7152 * ((4165971853/5000000000 : ℚ) : ℝ) ^ (12 : ℕ) + 0.0722 * ((4165971853/5000000000 : ℚ) : ℝ) ^ (12 : ℕ) + 0.05) ≤
        0.2126 * ((1875381057/2000000000 : ℚ) : ℝ) ^ (12 : ℕ) + 0.7152 * ((9357593693/10000000000 : ℚ) : ℝ) ^ (12 : ℕ) + 0.0722 * ((9357593693/10000000000 : ℚ) : ℝ) ^ (12 : ℕ) + 0.05 := by
    norm_num
  linarith [hA.1, hB.2, key]

theorem c3c_A6 :
    ((3 : ℚ) : ℝ) ≤ contrastRatioRGB ⟨178, 176, 176⟩ ⟨94, 94, 94⟩ := by
  rw [show ((3 : ℚ) : ℝ) = (3 : ℝ) by norm_num]
  have hA := c3lum_178_176_176
  have hB := c3lum_94_94_94
  apply contrastRatioRGB_ge _ _ _ (by norm_num)
    (relativeLuminance_nonneg _ (by norm_num) (by norm_num) (by norm_num))
    (relativeLuminance_nonneg _ (by norm_num) (by norm_num) (by norm_num))
  left
  have key : (3 : ℝ) * (0.2126 * ((4165971853/5000000000 : ℚ) : ℝ) ^ (12 : ℕ) + 0.7152 * ((4165971853/5000000000 : ℚ) : ℝ) ^ (12 : ℕ) + 0.0722 * ((4165971853/5000000000 : ℚ) : ℝ) ^ (12 : ℕ) + 0.05) ≤
        0.2126 * ((4673938903/5000000000 : ℚ) : ℝ) ^ (12 : ℕ) + 0.7152 * ((4664161981/5000000000 : ℚ) : ℝ) ^ (12 : ℕ) + 0.0722 * ((4664161981/5000000000 : ℚ) : ℝ) ^ (12 : ℕ) + 0.05 := by
    norm_num
  linarith [hA.1, hB.2, key]

theorem c3c_A7 :
    contrastRatioRGB ⟨177, 175, 175⟩ ⟨94, 94, 94⟩ < ((3 : ℚ) : ℝ) := by
  rw [show ((3 : ℚ) : ℝ) = (3 : ℝ) by norm_num]
  have hA := c3lum_177_175_175
  have hB := c3lum_94_94_94
  apply contrastRatioRGB_lt _ _ _
    (relativeLuminance_nonneg _ (by norm_num) (by norm_num) (by norm_num))
    (relativeLuminance_nonneg _ (by norm_num) (by norm_num) (by norm_num))
  · have key : 0.2126 * ((9338121357/10000000000 : ℚ) : ℝ) ^ (12 : ℕ) + 0.7152 * ((4659242617/5000000000 : ℚ) : ℝ) ^ (12 : ℕ) + 0.0722 * ((4659242617/5000000000 : ℚ) : ℝ) ^ (12 : ℕ) + 0.05 <
        (3 : ℝ) * (0.2126 * ((1666388741/2000000000 : ℚ) : ℝ) ^ (12 : ℕ) + 0.7152 * ((1666388741/2000000000 : ℚ) : ℝ) ^ (12 : ℕ) + 0.0722 * ((1666388741/2000000000 : ℚ) : ℝ) ^ (12 : ℕ) + 0.05) := by
      norm_num
    linarith [hA.2, hB.1, key]
  · have key : 0.2126 * ((4165971853/5000000000 : ℚ) : ℝ) ^ (12 : ℕ) + 0.7152 * ((4165971853/5000000000 : ℚ) : ℝ) ^ (12 : ℕ) + 0.0722 * ((4165971853/5000000000 : ℚ) : ℝ) ^ (12 : ℕ) + 0.05 <
        (3 : ℝ) * (0.2126 * ((2334530339/2500000000 : ℚ) : ℝ) ^ (12 : ℕ) + 0.7152 * ((9318485233/10000000000 : ℚ) : ℝ) ^ (12 : ℕ) + 0.0722 * ((9318485233/10000000000 : ℚ) : ℝ) ^ (12 : ℕ) + 0.05) := by
      norm_num
    linarith [hB.2, hA.1, key]

theorem c3c_B1 :
    contrastRatioRGB ⟨48, 47, 47⟩ ⟨94, 94, 94⟩ < ((3 : ℚ) : ℝ) := by
  rw [show ((3 : ℚ) : ℝ) = (3 : ℝ) by norm_num]
  have hA := c3lum_48_47_47
  have hB := c3lum_94_94_94
  apply contrastRatioRGB_lt _ _ _
    (relativeLuminance_nonneg _ (by norm_num) (by norm_num) (by norm_num))
    (relativeLuminance_nonneg _ (by norm_num) (by norm_num) (by norm_num))
  · have key : 0.2126 * ((3728420017/5000000000 : ℚ) : ℝ) ^ (12 : ℕ) + 0.7152 * ((3716319413/5000000000 : ℚ) : ℝ) ^ (12 : ℕ) + 0.0722 * ((3716319413/5000000000 : ℚ) : ℝ) ^ (12 : ℕ) + 0.05 <
        (3 : ℝ) * (0.2126 * ((1666388741/2000000000 : ℚ) : ℝ) ^ (12 : ℕ) + 0.7152 * ((1666388741/2000000000 : ℚ) : ℝ) ^ (12 : ℕ) + 0.0722 * ((1666388741/2000000000 : ℚ) : ℝ) ^ (12 : ℕ) + 0.05) := by
      norm_num
    linarith [hA.2, hB.1, key]
  · have key : 0.2126 * ((4165971853/5000000000 : ℚ) : ℝ) ^ (12 : ℕ) + 0.7152 * ((4165971853/5000000000 : ℚ) : ℝ) ^ (12 : ℕ) + 0.0722 * ((4165971853/5000000000 : ℚ) : ℝ) ^ (12 : ℕ) + 0.05 <
        (3 : ℝ) * (0.2126 * ((7456840033/10000000000 : ℚ) : ℝ) ^ (12 : ℕ) + 0.7152 * ((297305553/400000000 : ℚ) : ℝ) ^ (12 : ℕ) + 0.0722 * ((297305553/400000000 : ℚ) : ℝ) ^ (12 : ℕ) + 0.05) := by
      norm_num
    linarith [hB.2, hA.1, key]

theorem c3c_B2 :
    contrastRatioRGB ⟨24, 23, 23⟩ ⟨94, 94, 94⟩ < ((3 : ℚ) : ℝ) := by
  rw [show ((3 : ℚ) : ℝ) = (3 : ℝ) by norm_num]
  have hA := c3lum_24_23_23
  have hB := c3lum_94_94_94
  apply contrastRatioRGB_lt _ _ _
    (relativeLuminance_nonneg _ (by norm_num) (by norm_num) (by norm_num))
    (relativeLuminance_nonneg _ (by norm_num) (by norm_num) (by norm_num))
  · have key : 0.2126 * ((6761690943/10000000000 : ℚ) : ℝ) ^ (12 : ℕ) + 0.7152 * ((6725746363/10000000000 : ℚ) : ℝ) ^ (12 : ℕ) + 0.0722 * ((6725746363/10000000000 : ℚ) : ℝ) ^ (12 : ℕ) + 0.05 <
        (3 : ℝ) * (0.2126 * ((1666388741/2000000000 : ℚ) : ℝ) ^ (12 : ℕ) + 0.7152 * ((1666388741/2000000000 : ℚ) : ℝ) ^ (12 : ℕ) + 0.0722 * ((1666388741/2000000000 : ℚ) : ℝ) ^ (12 : ℕ) + 0.05) := by
      norm_num
    linarith [hA.2, hB.1, key]
  · have key : 0.2126 * ((4165971853/5000000000 : ℚ) : ℝ) ^ (12 : ℕ) + 0.7152 * ((4165971853/5000000000 : ℚ) : ℝ) ^ (12 : ℕ) + 0.0722 * ((4165971853/5000000000 : ℚ) : ℝ) ^ (12 : ℕ) + 0.05 <
        (3 : ℝ) * (0.2126 * ((3380845471/5000000000 : ℚ) : ℝ) ^ (12 : ℕ) + 0.7152 * ((3362873181/5000000000 : ℚ) : ℝ) ^ (12 : ℕ) + 0.0722 * ((3362873181/5000000000 : ℚ) : ℝ) ^ (12 : ℕ) + 0.05) := by
      norm_num
    linarith [hB.2, hA.1, key]

theorem c3c_B3 :
    ((3 : ℚ) : ℝ) ≤ contrastRatioRGB ⟨12, 12, 12⟩ ⟨94, 94, 94⟩ := by
  rw [show ((3 : ℚ) : ℝ) = (3 : ℝ) by norm_num]
  have hA := c3lum_12_12_12
  have hB := c3lum_94_94_94
  apply contrastRatioRGB_ge _ _ _ (by norm_num)
    (relativeLuminance_nonneg _ (by norm_num) (by norm_num) (by norm_num))
    (relativeLuminance_nonneg _ (by norm_num) (by norm_num) (by norm_num))
  right
  have key : (3 : ℝ) * (0.2126 * ((1253572959/2000000000 : ℚ) : ℝ) ^ (12 : ℕ) + 0.7152 * ((1253572959/2000000000 : ℚ) : ℝ) ^ (12 : ℕ) + 0.0722 * ((1253572959/2000000000 : ℚ) : ℝ) ^ (12 : ℕ) + 0.05) ≤
        0.2126 * ((1666388741/2000000000 : ℚ) : ℝ) ^ (12 : ℕ) + 0.7152 * ((1666388741/2000000000 : ℚ) : ℝ) ^ (12 : ℕ) + 0.0722 * ((1666388741/2000000000 : ℚ) : ℝ) ^ (12 : ℕ) + 0.05 := by
    norm_num
  linarith [hA.2, hB.1, key]

theorem c3c_B4 :
    contrastRatioRGB ⟨18, 17, 17⟩ ⟨94, 94, 94⟩ < ((3 : ℚ) : ℝ) := by
  rw [show ((3 : ℚ) : ℝ) = (3 : ℝ) by norm_num]
  have hA := c3lum_18_17_17
  have hB := c3lum_94_94_94
  apply contrastRatioRGB_lt _ _ _
    (relativeLuminance_nonneg _ (by norm_num) (by norm_num) (by norm_num))
    (relativeLuminance_nonneg _ (by norm_num) (by norm_num) (by norm_num))
  · have key : 0.2126 * ((261336031/400000000 : ℚ) : ℝ) ^ (12 : ℕ) + 0.7152 * ((6492079509/10000000000 : ℚ) : ℝ) ^ (12 : ℕ) + 0.0722 * ((6492079509/10000000000 : ℚ) : ℝ) ^ (12 : ℕ) + 0.05 <
        (3 : ℝ) * (0.2126 * ((1666388741/2000000000 : ℚ) : ℝ) ^ (12 : ℕ) + 0.7152 * ((1666388741/2000000000 : ℚ) : ℝ) ^ (12 : ℕ) + 0.0722 * ((1666388741/2000000000 : ℚ) : ℝ) ^ (12 : ℕ) + 0.05) := by
      norm_num
    linarith [hA.2, hB.1, key]
  · have key : 0.2126 * ((4165971853/5000000000 : ℚ) : ℝ) ^ (12 : ℕ) + 0.7152 * ((4165971853/5000000000 : ℚ) : ℝ) ^ (12 : ℕ) + 0.0722 * ((4165971853/5000000000 : ℚ) : ℝ) ^ (12 : ℕ) + 0.05 <
        (3 : ℝ) * (0.2126 * ((3266700387/5000000000 : ℚ) : ℝ) ^ (12 : ℕ) + 0.7152 * ((1623019877/2500000000 : ℚ) : ℝ) ^ (12 : ℕ) + 0.0722 * ((1623019877/2500000000 : ℚ) : ℝ) ^ (12 : ℕ) + 0.05) := by
      norm_num
    linarith [hB.2, hA.1, key]

theorem c3c_B5 :
    contrastRatioRGB ⟨15, 15, 15⟩ ⟨94, 94, 94⟩ < ((3 : ℚ) : ℝ) := by
  rw [show ((3 : ℚ) : ℝ) = (3 : ℝ) by norm_num]
  have hA := c3lum_15_15_15
  have hB := c3lum_94_94_94
  apply contrastRatioRGB_lt _ _ _
    (relativeLuminance_nonneg _ (by norm_num) (by norm_num) (by norm_num))
    (relativeLuminance_nonneg _ (by norm_num) (by norm_num) (by norm_num))
  · have key : 0.2126 * ((6406132509/10000000000 : ℚ) : ℝ) ^ (12 : ℕ) + 0.7152 * ((6406132509/10000000000 : ℚ) : ℝ) ^ (12 : ℕ) + 0.0722 * ((6406132509/10000000000 : ℚ) : ℝ) ^ (12 : ℕ) + 0.05 <
        (3 : ℝ) * (0.2126 * ((1666388741/2000000000 : ℚ) : ℝ) ^ (12 : ℕ) + 0.7152 * ((1666388741/2000000000 : ℚ) : ℝ) ^ (12 : ℕ) + 0.0722 * ((1666388741/2000000000 : ℚ) : ℝ) ^ (12 : ℕ) + 0.05) := by
      norm_num
    linarith [hA.2, hB.1, key]
  · have key : 0.2126 * ((4165971853/5000000000 : ℚ) : ℝ) ^ (12 : ℕ) + 0.7152 * ((4165971853/5000000000 : ℚ) : ℝ) ^ (12 : ℕ) + 0.0722 * ((4165971853/5000000000 : ℚ) : ℝ) ^ (12 : ℕ) + 0.05 <
        (3 : ℝ) * (0.2126 * ((1601533127/2500000000 : ℚ) : ℝ) ^ (12 : ℕ) + 0.7152 * ((1601533127/2500000000 : ℚ) : ℝ) ^ (12 : ℕ) + 0.0722 * ((1601533127/2500000000 : ℚ) : ℝ) ^ (12 : ℕ) + 0.05) := by
      norm_num
    linarith [hB.2, hA.1, key]

theorem c3c_B6 :
    contrastRatioRGB ⟨14, 13, 13⟩ ⟨94, 94, 94⟩ < ((3 : ℚ) : ℝ) := by
  rw [show ((3 : ℚ) : ℝ) = (3 : ℝ) by norm_num]
  have hA := c3lum_14_13_13
  have hB := c3lum_94_94_94
  apply contrastRatioRGB_lt _ _ _
    (relativeLuminance_nonneg _ (by norm_num) (by norm_num) (by norm_num))
    (relativeLuminance_nonneg _ (by norm_num) (by norm_num) (by norm_num))
  · have key : 0.2126 * ((6361369119/10000000000 : ℚ) : ℝ) ^ (12 : ℕ) + 0.7152 * ((6315309111/10000000000 : ℚ) : ℝ) ^ (12 : ℕ) + 0.0722 * ((6315309111/10000000000 : ℚ) : ℝ) ^ (12 : ℕ) + 0.05 <
        (3 : ℝ) * (0.2126 * ((1666388741/2000000000 : ℚ) : ℝ) ^ (12 : ℕ) + 0.7152 * ((1666388741/2000000000 : ℚ) : ℝ) ^ (12 : ℕ) + 0.0722 * ((1666388741/2000000000 : ℚ) : ℝ) ^ (12 : ℕ) + 0.05) := by
      norm_num
    linarith [hA.2, hB.1, key]
  · have key : 0.2126 * ((4165971853/5000000000 : ℚ) : ℝ) ^ (12 : ℕ) + 0.7152 * ((4165971853/5000000000 : ℚ) : ℝ) ^ (12 : ℕ) + 0.0722 * ((4165971853/5000000000 : ℚ) : ℝ) ^ (12 : ℕ) + 0.05 <
        (3 : ℝ) * (0.2126 * ((3180684559/5000000000 : ℚ) : ℝ) ^ (12 : ℕ) + 0.7152 * ((631530911/1000000000 : ℚ) : ℝ) ^ (12 : ℕ) + 0.0722 * ((631530911/1000000000 : ℚ) : ℝ) ^ (12 : ℕ) + 0.05) := by
      norm_num
    linarith [hB.2, hA.1, key]

theorem c3c_B7 :
    ((3 : ℚ) : ℝ) ≤ contrastRatioRGB ⟨13, 12, 12⟩ ⟨94, 94, 94⟩ := by
  rw [show ((3 : ℚ) : ℝ) = (3 : ℝ) by norm_num]
  have hA := c3lum_13_12_12
  have hB := c3lum_94_94_94
  apply contrastRatioRGB_ge _ _ _ (by norm_num)
    (relativeLuminance_nonneg _ (by norm_num) (by norm_num) (by norm_num))
    (relativeLuminance_nonneg _ (by norm_num) (by norm_num) (by norm_num))
  right
  have key : (3 : ℝ) * (0.2126 * ((6315309111/10000000000 : ℚ) : ℝ) ^ (12 : ℕ) + 0.7152 * ((1253572959/2000000000 : ℚ) : ℝ) ^ (12 : ℕ) + 0.0722 * ((1253572959/2000000000 : ℚ) : ℝ) ^ (12 : ℕ) + 0.05) ≤
        0.2126 * ((1666388741/2000000000 : ℚ) : ℝ) ^ (12 : ℕ) + 0.7152 * ((1666388741/2000000000 : ℚ) : ℝ) ^ (12 : ℕ) + 0.0722 * ((1666388741/2000000000 : ℚ) : ℝ) ^ (12 : ℕ) + 0.05 := by
    norm_num
  linarith [hA.2, hB.1, key]

theorem c3c_C1 :
    contrastRatioRGB ⟨96, 93, 93⟩ ⟨47, 47, 47⟩ < ((3 : ℚ) : ℝ) := by
  rw [show ((3 : ℚ) : ℝ) = (3 : ℝ) by norm_num]
  have hA := c3lum_96_93_93
  have hB := c3lum_47_47_47
  apply contrastRatioRGB_lt _ _ _
    (relativeLuminance_nonneg _ (by norm_num) (by norm_num) (by norm_num))
    (relativeLuminance_nonneg _ (by norm_num) (by norm_num) (by norm_num))
  · have key : 0.2126 * ((8362569641/10000000000 : ℚ) : ℝ) ^ (12 : ℕ) + 0.7152 * ((1039557539/1250000000 : ℚ) : ℝ) ^ (12 : ℕ) + 0.0722 * ((1039557539/1250000000 : ℚ) : ℝ) ^ (12 : ℕ) + 0.05 <
        (3 : ℝ) * (0.2126 * ((297305553/400000000 : ℚ) : ℝ) ^ (12 : ℕ) + 0.7152 * ((297305553/400000000 : ℚ) : ℝ) ^ (12 : ℕ) + 0.0722 * ((297305553/400000000 : ℚ) : ℝ) ^ (12 : ℕ) + 0.05) := by
      norm_num
    linarith [hA.2, hB.1, key]
  · have key : 0.2126 * ((3716319413/5000000000 : ℚ) : ℝ) ^ (12 : ℕ) + 0.7152 * ((3716319413/5000000000 : ℚ) : ℝ) ^ (12 : ℕ) + 0.0722 * ((3716319413/5000000000 : ℚ) : ℝ) ^ (12 : ℕ) + 0.05 <
        (3 : ℝ) * (0.2126 * ((209064241/250000000 : ℚ) : ℝ) ^ (12 : ℕ) + 0.7152 * ((8316460311/10000000000 : ℚ) : ℝ) ^ (12 : ℕ) + 0.0722 * ((8316460311/10000000000 : ℚ) : ℝ) ^ (12 : ℕ) + 0.05) := by
      norm_num
    linarith [hB.2, hA.1, key]

theorem c3c_C2 :
    contrastRatioRGB ⟨96, 93, 93⟩ ⟨24, 24, 24⟩ < ((3 : ℚ) : ℝ) := by
  rw [show ((3 : ℚ) : ℝ) = (3 : ℝ) by norm_num]
  have hA := c3lum_96_93_93
  have hB := c3lum_24_24_24
  apply contrastRatioRGB_lt _ _ _
    (relativeLuminance_nonneg _ (by norm_num) (by norm_num) (by norm_num))
    (relativeLuminance_nonneg _ (by norm_num) (by norm_num) (by norm_num))
  · have key : 0.2126 * ((8362569641/10000000000 : ℚ) : ℝ) ^ (12 : ℕ) + 0.7152 * ((1039557539/1250000000 : ℚ) : ℝ) ^ (12 : ℕ) + 0.0722 * ((1039557539/1250000000 : ℚ) : ℝ) ^ (12 : ℕ) + 0.05 <
        (3 : ℝ) * (0.2126 * ((3380845471/5000000000 : ℚ) : ℝ) ^ (12 : ℕ) + 0.7152 * ((3380845471/5000000000 : ℚ) : ℝ) ^ (12 : ℕ) + 0.0722 * ((3380845471/5000000000 : ℚ) : ℝ) ^ (12 : ℕ) + 0.05) := by
      norm_num
    linarith [hA.2, hB.1, key]
  · have key : 0.2126 * ((6761690943/10000000000 : ℚ) : ℝ) ^ (12 : ℕ) + 0.7152 * ((6761690943/10000000000 : ℚ) : ℝ) ^ (12 : ℕ) + 0.0722 * ((6761690943/10000000000 : ℚ) : ℝ) ^ (12 : ℕ) + 0.05 <
        (3 : ℝ) * (0.2126 * ((209064241/250000000 : ℚ) : ℝ) ^ (12 : ℕ) + 0.7152 * ((8316460311/10000000000 : ℚ) : ℝ) ^ (12 : ℕ) + 0.0722 * ((8316460311/10000000000 : ℚ) : ℝ) ^ (12 : ℕ) + 0.05) := by
      norm_num
    linarith [hB.2, hA.1, key]

theorem c3c_C3 :
    ((3 : ℚ) : ℝ) ≤ contrastRatioRGB ⟨96, 93, 93⟩ ⟨12, 12, 12⟩ := by
  rw [show ((3 : ℚ) : ℝ) = (3 : ℝ) by norm_num]
  have hA := c3lum_96_93_93
  have hB := c3lum_12_12_12
  apply contrastRatioRGB_ge _ _ _ (by norm_num)
    (relativeLuminance_nonneg _ (by norm_num) (by norm_num) (by norm_num))
    (relativeLuminance_nonneg _ (by norm_num) (by norm_num) (by norm_num))
  left
  have key : (3 : ℝ) * (0.2126 * ((1253572959/2000000000 : ℚ) : ℝ) ^ (12 : ℕ) + 0.7152 * ((1253572959/2000000000 : ℚ) : ℝ) ^ (12 : ℕ) + 0.0722 * ((1253572959/2000000000 : ℚ) : ℝ) ^ (12 : ℕ) + 0.05) ≤
        0.2126 * ((209064241/250000000 : ℚ) : ℝ) ^ (12 : ℕ) + 0.7152 * ((8316460311/10000000000 : ℚ) : ℝ) ^ (12 : ℕ) + 0.0722 * ((8316460311/10000000000 : ℚ) : ℝ) ^ (12 : ℕ) + 0.05 := by
    norm_num
  linarith [hA.1, hB.2, key]

theorem c3c_C4 :
    contrastRatioRGB ⟨96, 93, 93⟩ ⟨18, 18, 18⟩ < ((3 : ℚ) : ℝ) := by
  rw [show ((3 : ℚ) : ℝ) = (3 : ℝ) by norm_num]
  have hA := c3lum_96_93_93
  have hB := c3lum_18_18_18
  apply contrastRatioRGB_lt _ _ _
    (relativeLuminance_nonneg _ (by norm_num) (by norm_num) (by norm_num))
    (relativeLuminance_nonneg _ (by norm_num) (by norm_num) (by norm_num))
  · have key : 0.2126 * ((8362569641/10000000000 : ℚ) : ℝ) ^ (12 : ℕ) + 0.7152 * ((1039557539/1250000000 : ℚ) : ℝ) ^ (12 : ℕ) + 0.0722 * ((1039557539/1250000000 : ℚ) : ℝ) ^ (12 : ℕ) + 0.05 <
        (3 : ℝ) * (0.2126 * ((3266700387/5000000000 : ℚ) : ℝ) ^ (12 : ℕ) + 0.7152 * ((3266700387/5000000000 : ℚ) : ℝ) ^ (12 : ℕ) + 0.0722 * ((3266700387/5000000000 : ℚ) : ℝ) ^ (12 : ℕ) + 0.05) := by
      norm_num
    linarith [hA.2, hB.1, key]
  · have key : 0.2126 * ((261336031/400000000 : ℚ) : ℝ) ^ (12 : ℕ) + 0.7152 * ((261336031/400000000 : ℚ) : ℝ) ^ (12 : ℕ) + 0.0722 * ((261336031/400000000 : ℚ) : ℝ) ^ (12 : ℕ) + 0.05 <
        (3 : ℝ) * (0.2126 * ((209064241/250000000 : ℚ) : ℝ) ^ (12 : ℕ) + 0.7152 * ((8316460311/10000000000 : ℚ) : ℝ) ^ (12 : ℕ) + 0.0722 * ((8316460311/10000000000 : ℚ) : ℝ) ^ (12 : ℕ) + 0.05) := by
      norm_num
    linarith [hB.2, hA.1, key]

theorem c3c_C5 :
    contrastRatioRGB ⟨96, 93, 93⟩ ⟨15, 15, 15⟩ < ((3 : ℚ) : ℝ) := by
  rw [show ((3 : ℚ) : ℝ) = (3 : ℝ) by norm_num]
  have hA := c3lum_96_93_93
  have hB := c3lum_15_15_15
  apply contrastRatioRGB_lt _ _ _
    (relativeLuminance_nonneg _ (by norm_num) (by norm_num) (by norm_num))
    (relativeLuminance_nonneg _ (by norm_num) (by norm_num) (by norm_num))
  · have key : 0.2126 * ((8362569641/10000000000 : ℚ) : ℝ) ^ (12 : ℕ) + 0.7152 * ((1039557539/1250000000 : ℚ) : ℝ) ^ (12 : ℕ) + 0.0722 * ((1039557539/1250000000 : ℚ) : ℝ) ^ (12 : ℕ) + 0.05 <
        (3 : ℝ) * (0.2126 * ((1601533127/2500000000 : ℚ) : ℝ) ^ (12 : ℕ) + 0.7152 * ((1601533127/2500000000 : ℚ) : ℝ) ^ (12 : ℕ) + 0.0722 * ((1601533127/2500000000 : ℚ) : ℝ) ^ (12 : ℕ) + 0.05) := by
      norm_num
    linarith [hA.2, hB.1, key]
  · have key : 0.2126 * ((6406132509/10000000000 : ℚ) : ℝ) ^ (12 : ℕ) + 0.7152 * ((6406132509/10000000000 : ℚ) : ℝ) ^ (12 : ℕ) + 0.0722 * ((6406132509/10000000000 : ℚ) : ℝ) ^ (12 : ℕ) + 0.05 <
        (3 : ℝ) * (0.2126 * ((209064241/250000000 : ℚ) : ℝ) ^ (12 : ℕ) + 0.7152 * ((8316460311/10000000000 : ℚ) : ℝ) ^ (12 : ℕ) + 0.0722 * ((8316460311/10000000000 : ℚ) : ℝ) ^ (12 : ℕ) + 0.05) := by
      norm_num
    linarith [hB.2, hA.1, key]

theorem c3c_C6 :
    contrastRatioRGB ⟨96, 93, 93⟩ ⟨13, 13, 13⟩ < ((3 : ℚ) : ℝ) := by
  rw [show ((3 : ℚ) : ℝ) = (3 : ℝ) by norm_num]
  have hA := c3lum_96_93_93
  have hB := c3lum_13_13_13
  apply contrastRatioRGB_lt _ _ _
    (relativeLuminance_nonneg _ (by norm_num) (by norm_num) (by norm_num))
    (relativeLuminance_nonneg _ (by norm_num) (by norm_num) (by norm_num))
  · have key : 0.2126 * ((8362569641/10000000000 : ℚ) : ℝ) ^ (12 : ℕ) + 0.7152 * ((1039557539/1250000000 : ℚ) : ℝ) ^ (12 : ℕ) + 0.0722 * ((1039557539/1250000000 : ℚ) : ℝ) ^ (12 : ℕ) + 0.05 <
        (3 : ℝ) * (0.2126 * ((631530911/1000000000 : ℚ) : ℝ) ^ (12 : ℕ) + 0.7152 * ((631530911/1000000000 : ℚ) : ℝ) ^ (12 : ℕ) + 0.0722 * ((631530911/1000000000 : ℚ) : ℝ) ^ (12 : ℕ) + 0.05) := by
      norm_num
    linarith [hA.2, hB.1, key]
  · have key : 0.2126 * ((6315309111/10000000000 : ℚ) : ℝ) ^ (12 : ℕ) + 0.7152 * ((6315309111/10000000000 : ℚ) : ℝ) ^ (12 : ℕ) + 0.0722 * ((6315309111/10000000000 : ℚ) : ℝ) ^ (12 : ℕ) + 0.05 <
        (3 : ℝ) * (0.2126 * ((209064241/250000000 : ℚ) : ℝ) ^ (12 : ℕ) + 0.7152 * ((8316460311/10000000000 : ℚ) : ℝ) ^ (12 : ℕ) + 0.0722 * ((8316460311/10000000000 : ℚ) : ℝ) ^ (12 : ℕ) + 0.05) := by
      norm_num
    linarith [hB.2, hA.1, key]

theorem c3c_C7 :
    ((3 : ℚ) : ℝ) ≤ contrastRatioRGB ⟨96, 93, 93⟩ ⟨12, 12, 12⟩ := by
  rw [show ((3 : ℚ) : ℝ) = (3 : ℝ) by norm_num]
  have hA := c3lum_96_93_93
  have hB := c3lum_12_12_12
  apply contrastRatioRGB_ge _ _ _ (by norm_num)
    (relativeLuminance_nonneg _ (by norm_num) (by norm_num) (by norm_num))
    (relativeLuminance_nonneg _ (by norm_num) (by norm_num) (by norm_num))
  left
  have key : (3 : ℝ) * (0.2126 * ((1253572959/2000000000 : ℚ) : ℝ) ^ (12 : ℕ) + 0.7152 * ((1253572959/2000000000 : ℚ) : ℝ) ^ (12 : ℕ) + 0.0722 * ((1253572959/2000000000 : ℚ) : ℝ) ^ (12 : ℕ) + 0.05) ≤
        0.2126 * ((209064241/250000000 : ℚ) : ℝ) ^ (12 : ℕ) + 0.7152 * ((8316460311/10000000000 : ℚ) : ℝ) ^ (12 : ℕ) + 0.0722 * ((8316460311/10000000000 : ℚ) : ℝ) ^ (12 : ℕ) + 0.05 := by
    norm_num
  linarith [hA.1, hB.2, key]

theorem c3c_D1 :
    contrastRatioRGB ⟨96, 93, 93⟩ ⟨175, 175, 175⟩ < ((3 : ℚ) : ℝ) := by
  rw [show ((3 : ℚ) : ℝ) = (3 : ℝ) by norm_num]
  have hA := c3lum_96_93_93
  have hB := c3lum_175_175_175
  apply contrastRatioRGB_lt _ _ _
    (relativeLuminance_nonneg _ (by norm_num) (by norm_num) (by norm_num))
    (relativeLuminance_nonneg _ (by norm_num) (by norm_num) (by norm_num))
  · have key : 0.2126 * ((8362569641/10000000000 : ℚ) : ℝ) ^ (12 : ℕ) + 0.7152 * ((1039557539/1250000000 : ℚ) : ℝ) ^ (12 : ℕ) + 0.0722 * ((1039557539/1250000000 : ℚ) : ℝ) ^ (12 : ℕ) + 0.05 <
        (3 : ℝ) * (0.2126 * ((9318485233/10000000000 : ℚ) : ℝ) ^ (12 : ℕ) + 0.7152 * ((9318485233/10000000000 : ℚ) : ℝ) ^ (12 : ℕ) + 0.0722 * ((9318485233/10000000000 : ℚ) : ℝ) ^ (12 : ℕ) + 0.05) := by
      norm_num
    linarith [hA.2, hB.1, key]
  · have key : 0.2126 * ((4659242617/5000000000 : ℚ) : ℝ) ^ (12 : ℕ) + 0.7152 * ((4659242617/5000000000 : ℚ) : ℝ) ^ (12 : ℕ) + 0.0722 * ((4659242617/5000000000 : ℚ) : ℝ) ^ (12 : ℕ) + 0.05 <
        (3 : ℝ) * (0.2126 * ((209064241/250000000 : ℚ) : ℝ) ^ (12 : ℕ) + 0.7152 * ((8316460311/10000000000 : ℚ) : ℝ) ^ (12 : ℕ) + 0.0722 * ((8316460311/10000000000 : ℚ) : ℝ) ^ (12 : ℕ) + 0.05) := by
      norm_num
    linarith [hB.2, hA.1, key]

theorem c3c_D2 :
    ((3 : ℚ) : ℝ) ≤ contrastRatioRGB ⟨96, 93, 93⟩ ⟨215, 215, 215⟩ := by
  rw [show ((3 : ℚ) : ℝ) = (3 : ℝ) by norm_num]
  have hA := c3lum_96_93_93
  have hB := c3lum_215_215_215
  apply contrastRatioRGB_ge _ _ _ (by norm_num)
    (relativeLuminance_nonneg _ (by norm_num) (by norm_num) (by norm_num))
    (relativeLuminance_nonneg _ (by norm_num) (by norm_num) (by norm_num))
  right
  have key : (3 : ℝ) * (0.2126 * ((8362569641/10000000000 : ℚ) : ℝ) ^ (12 : ℕ) + 0.7152 * ((1039557539/1250000000 : ℚ) : ℝ) ^ (12 : ℕ) + 0.0722 * ((1039557539/1250000000 : ℚ) : ℝ) ^ (12 : ℕ) + 0.05) ≤
        0.2126 * ((9683181011/10000000000 : ℚ) : ℝ) ^ (12 : ℕ) + 0.7152 * ((9683181011/10000000000 : ℚ) : ℝ) ^ (12 : ℕ) + 0.0722 * ((9683181011/10000000000 : ℚ) : ℝ) ^ (12 : ℕ) + 0.05 := by
    norm_num
  linarith [hA.2, hB.1, key]

theorem c3c_D3 :
    ((3 : ℚ) : ℝ) ≤ contrastRatioRGB ⟨96, 93, 93⟩ ⟨195, 195, 195⟩ := by
  rw [show ((3 : ℚ) : ℝ) = (3 : ℝ) by norm_num]
  have hA := c3lum_96_93_93
  have hB := c3lum_195_195_195
  apply contrastRatioRGB_ge _ _ _ (by norm_num)
    (relativeLuminance_nonneg _ (by norm_num) (by norm_num) (by norm_num))
    (relativeLuminance_nonneg _ (by norm_num) (by norm_num) (by norm_num))
  right
  have key : (3 : ℝ) * (0.2126 * ((8362569641/10000000000 : ℚ) : ℝ) ^ (12 : ℕ) + 0.7152 * ((1039557539/1250000000 : ℚ) : ℝ) ^ (12 : ℕ) + 0.0722 * ((1039557539/1250000000 : ℚ) : ℝ) ^ (12 : ℕ) + 0.05) ≤
        0.2126 * ((9507823661/10000000000 : ℚ) : ℝ) ^ (12 : ℕ) + 0.7152 * ((9507823661/10000000000 : ℚ) : ℝ) ^ (12 : ℕ) + 0.0722 * ((9507823661/10000000000 : ℚ) : ℝ) ^ (12 : ℕ) + 0.05 := by
    norm_num
  linarith [hA.2, hB.1, key]

theorem c3c_D4 :
    ((3 : ℚ) : ℝ) ≤ contrastRatioRGB ⟨96, 93, 93⟩ ⟨185, 185, 185⟩ := by
  rw [show ((3 : ℚ) : ℝ) = (3 : ℝ) by norm_num]
  have hA := c3lum_96_93_93
  have hB := c3lum_185_185_185
  apply contrastRatioRGB_ge _ _ _ (by norm_num)
    (relativeLuminance_nonneg _ (by norm_num) (by norm_num) (by norm_num))
    (relativeLuminance_nonneg _ (by norm_num) (by norm_num) (by norm_num))
  right
  have key : (3 : ℝ) * (0.2126 * ((8362569641/10000000000 : ℚ) : ℝ) ^ (12 : ℕ) + 0.7152 * ((1039557539/1250000000 : ℚ) : ℝ) ^ (12 : ℕ) + 0.0722 * ((1039557539/1250000000 : ℚ) : ℝ) ^ (12 : ℕ) + 0.05) ≤
        0.2126 * ((2353764493/2500000000 : ℚ) : ℝ) ^ (12 : ℕ) + 0.7152 * ((2353764493/2500000000 : ℚ) : ℝ) ^ (12 : ℕ) + 0.0722 * ((2353764493/2500000000 : ℚ) : ℝ) ^ (12 : ℕ) + 0.05 := by
    norm_num
  linarith [hA.2, hB.1, key]

theorem c3c_D5 :
    ((3 : ℚ) : ℝ) ≤ contrastRatioRGB ⟨96, 93, 93⟩ ⟨180, 180, 180⟩ := by
  rw [show ((3 : ℚ) : ℝ) = (3 : ℝ) by norm_num]
  have hA := c3lum_96_93_93
  have hB := c3lum_180_180_180
  apply contrastRatioRGB_ge _ _ _ (by norm_num)
    (relativeLuminance_nonneg _ (by norm_num) (by norm_num) (by norm_num))
    (relativeLuminance_nonneg _ (by norm_num) (by norm_num) (by norm_num))
  right
  have key : (3 : ℝ) * (0.2126 * ((8362569641/10000000000 : ℚ) : ℝ) ^ (12 : ℕ) + 0.7152 * ((1039557539/1250000000 : ℚ) : ℝ) ^ (12 : ℕ) + 0.0722 * ((1039557539/1250000000 : ℚ) : ℝ) ^ (12 : ℕ) + 0.05) ≤
        0.2126 * ((1873453879/2000000000 : ℚ) : ℝ) ^ (12 : ℕ) + 0.7152 * ((1873453879/2000000000 : ℚ) : ℝ) ^ (12 : ℕ) + 0.0722 * ((1873453879/2000000000 : ℚ) : ℝ) ^ (12 : ℕ) + 0.05 := by
    norm_num
  linarith [hA.2, hB.1, key]

theorem c3c_D6 :
    ((3 : ℚ) : ℝ) ≤ contrastRatioRGB ⟨96, 93, 93⟩ ⟨177, 177, 177⟩ := by
  rw [show ((3 : ℚ) : ℝ) = (3 : ℝ) by norm_num]
  have hA := c3lum_96_93_93
  have hB := c3lum_177_177_177
  apply contrastRatioRGB_ge _ _ _ (by norm_num)
    (relativeLuminance_nonneg _ (by norm_num) (by norm_num) (by norm_num))
    (relativeLuminance_nonneg _ (by norm_num) (by norm_num) (by norm_num))
  right
  have key : (3 : ℝ) * (0.2126 * ((8362569641/10000000000 : ℚ) : ℝ) ^ (12 : ℕ) + 0.7152 * ((1039557539/1250000000 : ℚ) : ℝ) ^ (12 : ℕ) + 0.0722 * ((1039557539/1250000000 : ℚ) : ℝ) ^ (12 : ℕ) + 0.05) ≤
        0.2126 * ((2334530339/2500000000 : ℚ) : ℝ) ^ (12 : ℕ) + 0.7152 * ((2334530339/2500000000 : ℚ) : ℝ) ^ (12 : ℕ) + 0.0722 * ((2334530339/2500000000 : ℚ) : ℝ) ^ (12 : ℕ) + 0.05 := by
    norm_num
  linarith [hA.2, hB.1, key]

theorem c3c_D7 :
    ((3 : ℚ) : ℝ) ≤ contrastRatioRGB ⟨96, 93, 93⟩ ⟨176, 176, 176⟩ := by
  rw [show ((3 : ℚ) : ℝ) = (3 : ℝ) by norm_num]
  have hA := c3lum_96_93_93
  have hB := c3lum_176_176_176
  apply contrastRatioRGB_ge _ _ _ (by norm_num)
    (relativeLuminance_nonneg _ (by norm_num) (by norm_num) (by norm_num))
    (relativeLuminance_nonneg _ (by norm_num) (by norm_num) (by norm_num))
  right
  have key : (3 : ℝ) * (0.2126 * ((8362569641/10000000000 : ℚ) : ℝ) ^ (12 : ℕ) + 0.7152 * ((1039557539/1250000000 : ℚ) : ℝ) ^ (12 : ℕ) + 0.0722 * ((1039557539/1250000000 : ℚ) : ℝ) ^ (12 : ℕ) + 0.05) ≤
        0.2126 * ((4664161981/5000000000 : ℚ) : ℝ) ^ (12 : ℕ) + 0.7152 * ((4664161981/5000000000 : ℚ) : ℝ) ^ (12 : ℕ) + 0.0722 * ((4664161981/5000000000 : ℚ) : ℝ) ^ (12 : ℕ) + 0.05 := by
    norm_num
  linarith [hA.2, hB.1, key]

theorem c3f_A :
    ((3 : ℚ) : ℝ) - (EPSILON : ℝ) ≤ contrastRatioRGB ⟨178, 176, 176⟩ ⟨94, 94, 94⟩ := by
  rw [show ((3 : ℚ) : ℝ) - (EPSILON : ℝ) = (2.999 : ℝ) by norm_num [EPSILON]]
  have hA := c3lum_178_176_176
  have hB := c3lum_94_94_94
  apply contrastRatioRGB_ge _ _ _ (by norm_num)
    (relativeLuminance_nonneg _ (by norm_num) (by norm_num) (by norm_num))
    (relativeLuminance_nonneg _ (by norm_num) (by norm_num) (by norm_num))
  left
  have key : (2.999 : ℝ) * (0.2126 * ((4165971853/5000000000 : ℚ) : ℝ) ^ (12 : ℕ) + 0.7152 * ((4165971853/5000000000 : ℚ) : ℝ) ^ (12 : ℕ) + 0.0722 * ((4165971853/5000000000 : ℚ) : ℝ) ^ (12 : ℕ) + 0.05) ≤
        0.2126 * ((4673938903/5000000000 : ℚ) : ℝ) ^ (12 : ℕ) + 0.7152 * ((4664161981/5000000000 : ℚ) : ℝ) ^ (12 : ℕ) + 0.0722 * ((4664161981/5000000000 : ℚ) : ℝ) ^ (12 : ℕ) + 0.05 := by
    norm_num
  linarith [hA.1, hB.2, key]

theorem c3f_B :
    ((3 : ℚ) : ℝ) - (EPSILON : ℝ) ≤ contrastRatioRGB ⟨13, 12, 12⟩ ⟨94, 94, 94⟩ := by
  rw [show ((3 : ℚ) : ℝ) - (EPSILON : ℝ) = (2.999 : ℝ) by norm_num [EPSILON]]
  have hA := c3lum_13_12_12
  have hB := c3lum_94_94_94
  apply contrastRatioRGB_ge _ _ _ (by norm_num)
    (relativeLuminance_nonneg _ (by norm_num) (by norm_num) (by norm_num))
    (relativeLuminance_nonneg _ (by norm_num) (by norm_num) (by norm_num))
  right
  have key : (2.999 : ℝ) * (0.2126 * ((6315309111/10000000000 : ℚ) : ℝ) ^ (12 : ℕ) + 0.7152 * ((1253572959/2000000000 : ℚ) : ℝ) ^ (12 : ℕ) + 0.0722 * ((1253572959/2000000000 : ℚ) : ℝ) ^ (12 : ℕ) + 0.05) ≤
        0.2126 * ((1666388741/2000000000 : ℚ) : ℝ) ^ (12 : ℕ) + 0.7152 * ((1666388741/2000000000 : ℚ) : ℝ) ^ (12 : ℕ) + 0.0722 * ((1666388741/2000000000 : ℚ) : ℝ) ^ (12 : ℕ) + 0.05 := by
    norm_num
  linarith [hA.2, hB.1, key]

theorem c3f_C :
    ((3 : ℚ) : ℝ) - (EPSILON : ℝ) ≤ contrastRatioRGB ⟨96, 93, 93⟩ ⟨12, 12, 12⟩ := by
  rw [show ((3 : ℚ) : ℝ) - (EPSILON : ℝ) = (2.999 : ℝ) by norm_num [EPSILON]]
  have hA := c3lum_96_93_93
  have hB := c3lum_12_12_12
  apply contrastRatioRGB_ge _ _ _ (by norm_num)
    (relativeLuminance_nonneg _ (by norm_num) (by norm_num) (by norm_num))
    (relativeLuminance_nonneg _ (by norm_num) (by norm_num) (by norm_num))
  left
  have key : (2.999 : ℝ) * (0.2126 * ((1253572959/2000000000 : ℚ) : ℝ) ^ (12 : ℕ) + 0.7152 * ((1253572959/2000000000 : ℚ) : ℝ) ^ (12 : ℕ) + 0.0722 * ((1253572959/2000000000 : ℚ) : ℝ) ^ (12 : ℕ) + 0.05) ≤
        0.2126 * ((209064241/250000000 : ℚ) : ℝ) ^ (12 : ℕ) + 0.7152 * ((8316460311/10000000000 : ℚ) : ℝ) ^ (12 : ℕ) + 0.0722 * ((8316460311/10000000000 : ℚ) : ℝ) ^ (12 : ℕ) + 0.05 := by
    norm_num
  linarith [hA.1, hB.2, key]

theorem c3f_D :
    ((3 : ℚ) : ℝ) - (EPSILON : ℝ) ≤ contrastRatioRGB ⟨96, 93, 93⟩ ⟨176, 176, 176⟩ := by
  rw [show ((3 : ℚ) : ℝ) - (EPSILON : ℝ) = (2.999 : ℝ) by norm_num [EPSILON]]
  have hA := c3lum_96_93_93
  have hB := c3lum_176_176_176
  apply contrastRatioRGB_ge _ _ _ (by norm_num)
    (relativeLuminance_nonneg _ (by norm_num) (by norm_num) (by norm_num))
    (relativeLuminance_nonneg _ (by norm_num) (by norm_num) (by norm_num))
  right
  have key : (2.999 : ℝ) * (0.2126 * ((8362569641/10000000000 : ℚ) : ℝ) ^ (12 : ℕ) + 0.7152 * ((1039557539/1250000000 : ℚ) : ℝ) ^ (12 : ℕ) + 0.0722 * ((1039557539/1250000000 : ℚ) : ℝ) ^ (12 : ℕ) + 0.05) ≤
        0.2126 * ((4664161981/5000000000 : ℚ) : ℝ) ^ (12 : ℕ) + 0.7152 * ((4664161981/5000000000 : ℚ) : ℝ) ^ (12 : ℕ) + 0.0722 * ((4664161981/5000000000 : ℚ) : ℝ) ^ (12 : ℕ) + 0.05 := by
    norm_num
  linarith [hA.2, hB.1, key]

theorem c3cur_lt :
    contrastRatioRGB ⟨96, 93, 93⟩ ⟨94, 94, 94⟩ < ((3 : ℚ) : ℝ) - (EPSILON : ℝ) := by
  rw [show ((3 : ℚ) : ℝ) - (EPSILON : ℝ) = (2.999 : ℝ) by norm_num [EPSILON]]
  have hA := c3lum_96_93_93
  have hB := c3lum_94_94_94
  apply contrastRatioRGB_lt _ _ _
    (relativeLuminance_nonneg _ (by norm_num) (by norm_num) (by norm_num))
    (relativeLuminance_nonneg _ (by norm_num) (by norm_num) (by norm_num))
  · have key : 0.2126 * ((8362569641/10000000000 : ℚ) : ℝ) ^ (12 : ℕ) + 0.7152 * ((1039557539/1250000000 : ℚ) : ℝ) ^ (12 : ℕ) + 0.0722 * ((1039557539/1250000000 : ℚ) : ℝ) ^ (12 : ℕ) + 0.05 <
        (2.999 : ℝ) * (0.2126 * ((1666388741/2000000000 : ℚ) : ℝ) ^ (12 : ℕ) + 0.7152 * ((1666388741/2000000000 : ℚ) : ℝ) ^ (12 : ℕ) + 0.0722 * ((1666388741/2000000000 : ℚ) : ℝ) ^ (12 : ℕ) + 0.05) := by
      norm_num
    linarith [hA.2, hB.1, key]
  · have key : 0.2126 * ((4165971853/5000000000 : ℚ) : ℝ) ^ (12 : ℕ) + 0.7152 * ((4165971853/5000000000 : ℚ) : ℝ) ^ (12 : ℕ) + 0.0722 * ((4165971853/5000000000 : ℚ) : ℝ) ^ (12 : ℕ) + 0.05 <
        (2.999 : ℝ) * (0.2126 * ((209064241/250000000 : ℚ) : ℝ) ^ (12 : ℕ) + 0.7152 * ((8316460311/10000000000 : ℚ) : ℝ) ^ (12 : ℕ) + 0.0722 * ((8316460311/10000000000 : ℚ) : ℝ) ^ (12 : ℕ) + 0.05) := by
      norm_num
    linarith [hB.2, hA.1, key]

theorem c3cur_gt1 : (1 : ℝ) < contrastRatioRGB ⟨96, 93, 93⟩ ⟨94, 94, 94⟩ := by
  have hA := c3lum_96_93_93
  have hB := c3lum_94_94_94
  have hge : (201/200 : ℝ) ≤ contrastRatioRGB ⟨96, 93, 93⟩ ⟨94, 94, 94⟩ := by
    apply contrastRatioRGB_ge _ _ _ (by norm_num)
      (relativeLuminance_nonneg _ (by norm_num) (by norm_num) (by norm_num))
      (relativeLuminance_nonneg _ (by norm_num) (by norm_num) (by norm_num))
    right
    have key : (201/200 : ℝ) * (0.2126 * ((8362569641/10000000000 : ℚ) : ℝ) ^ (12 : ℕ) + 0.7152 * ((1039557539/1250000000 : ℚ) : ℝ) ^ (12 : ℕ) + 0.0722 * ((1039557539/1250000000 : ℚ) : ℝ) ^ (12 : ℕ) + 0.05) ≤
        0.2126 * ((1666388741/2000000000 : ℚ) : ℝ) ^ (12 : ℕ) + 0.7152 * ((1666388741/2000000000 : ℚ) : ℝ) ^ (12 : ℕ) + 0.0722 * ((1666388741/2000000000 : ℚ) : ℝ) ^ (12 : ℕ) + 0.05 := by
      norm_num
    linarith [hA.2, hB.1, key]
  linarith

theorem c3r_A0 : hslToRgb ⟨0, 100/63, 630/17⟩ = ⟨96, 93, 93⟩ := by
  norm_num [hslToRgb, hue2rgb, jsRound]

theorem c3r_A1 : hslToRgb ⟨0, 100/63, (630/17 + 100) / 2⟩ = ⟨176, 173, 173⟩ := by
  norm_num [hslToRgb, hue2rgb, jsRound]

theorem c3r_A2 : hslToRgb ⟨0, 100/63, (1165/17 + 100) / 2⟩ = ⟨216, 214, 214⟩ := by
  norm_num [hslToRgb, hue2rgb, jsRound]

theorem c3r_A3 : hslToRgb ⟨0, 100/63, (1165/17 + 2865/34) / 2⟩ = ⟨196, 194, 194⟩ := by
  norm_num [hslToRgb, hue2rgb, jsRound]

theorem c3r_A4 : hslToRgb ⟨0, 100/63, (1165/17 + 5195/68) / 2⟩ = ⟨186, 184, 184⟩ := by
  norm_num [hslToRgb, hue2rgb, jsRound]

theorem c3r_A5 : hslToRgb ⟨0, 100/63, (1165/17 + 9855/136) / 2⟩ = ⟨181, 179, 179⟩ := by
  norm_num [hslToRgb, hue2rgb, jsRound]

theorem c3r_A6 : hslToRgb ⟨0, 100/63, (1165/17 + 19175/272) / 2⟩ = ⟨178, 176, 176⟩ := by
  norm_num [hslToRgb, hue2rgb, jsRound]

theorem c3r_A7 : hslToRgb ⟨0, 100/63, (1165/17 + 37815/544) / 2⟩ = ⟨177, 175, 175⟩ := by
  norm_num [hslToRgb, hue2rgb, jsRound]

theorem c3r_B0 : hslToRgb ⟨0, 100/63, 630/17⟩ = ⟨96, 93, 93⟩ := by
  norm_num [hslToRgb, hue2rgb, jsRound]

theorem c3r_B1 : hslToRgb ⟨0, 100/63, (0 + 630/17) / 2⟩ = ⟨48, 47, 47⟩ := by
  norm_num [hslToRgb, hue2rgb, jsRound]

theorem c3r_B2 : hslToRgb ⟨0, 100/63, (0 + 315/17) / 2⟩ = ⟨24, 23, 23⟩ := by
  norm_num [hslToRgb, hue2rgb, jsRound]

theorem c3r_B3 : hslToRgb ⟨0, 100/63, (0 + 315/34) / 2⟩ = ⟨12, 12, 12⟩ := by
  norm_num [hslToRgb, hue2rgb, jsRound]

theorem c3r_B4 : hslToRgb ⟨0, 100/63, (315/68 + 315/34) / 2⟩ = ⟨18, 17, 17⟩ := by
  norm_num [hslToRgb, hue2rgb, jsRound]

theorem c3r_B5 : hslToRgb ⟨0, 100/63, (315/68 + 945/136) / 2⟩ = ⟨15, 15, 15⟩ := by
  norm_num [hslToRgb, hue2rgb, jsRound]

theorem c3r_B6 : hslToRgb ⟨0, 100/63, (315/68 + 1575/272) / 2⟩ = ⟨14, 13, 13⟩ := by
  norm_num [hslToRgb, hue2rgb, jsRound]

theorem c3r_B7 : hslToRgb ⟨0, 100/63, (315/68 + 2835/544) / 2⟩ = ⟨13, 12, 12⟩ := by
  norm_num [hslToRgb, hue2rgb, jsRound]

theorem c3r_C0 : hslToRgb ⟨0, 0, 1880/51⟩ = ⟨94, 94, 94⟩ := by
  norm_num [hslToRgb, hue2rgb, jsRound]

theorem c3r_C1 : hslToRgb ⟨0, 0, (0 + 1880/51) / 2⟩ = ⟨47, 47, 47⟩ := by
  norm_num [hslToRgb, hue2rgb, jsRound]

theorem c3r_C2 : hslToRgb ⟨0, 0, (0 + 940/51) / 2⟩ = ⟨24, 24, 24⟩ := by
  norm_num [hslToRgb, hue2rgb, jsRound]

theorem c3r_C3 : hslToRgb ⟨0, 0, (0 + 470/51) / 2⟩ = ⟨12, 12, 12⟩ := by
  norm_num [hslToRgb, hue2rgb, jsRound]

theorem c3r_C4 : hslToRgb ⟨0, 0, (235/51 + 470/51) / 2⟩ = ⟨18, 18, 18⟩ := by
  norm_num [hslToRgb, hue2rgb, jsRound]

theorem c3r_C5 : hslToRgb ⟨0, 0, (235/51 + 235/34) / 2⟩ = ⟨15, 15, 15⟩ := by
  norm_num [hslToRgb, hue2rgb, jsRound]

theorem c3r_C6 : hslToRgb ⟨0, 0, (235/51 + 1175/204) / 2⟩ = ⟨13, 13, 13⟩ := by
  norm_num [hslToRgb, hue2rgb, jsRound]

theorem c3r_C7 : hslToRgb ⟨0, 0, (235/51 + 705/136) / 2⟩ = ⟨12, 12, 12⟩ := by
  norm_num [hslToRgb, hue2rgb, jsRound]

theorem c3r_D0 : hslToRgb ⟨0, 0, 1880/51⟩ = ⟨94, 94, 94⟩ := by
  norm_num [hslToRgb, hue2rgb, jsRound]

theorem c3r_D1 : hslToRgb ⟨0, 0, (1880/51 + 100) / 2⟩ = ⟨175, 175, 175⟩ := by
  norm_num [hslToRgb, hue2rgb, jsRound]

theorem c3r_D2 : hslToRgb ⟨0, 0, (3490/51 + 100) / 2⟩ = ⟨215, 215, 215⟩ := by
  norm_num [hslToRgb, hue2rgb, jsRound]

theorem c3r_D3 : hslToRgb ⟨0, 0, (3490/51 + 4295/51) / 2⟩ = ⟨195, 195, 195⟩ := by
  norm_num [hslToRgb, hue2rgb, jsRound]

theorem c3r_D4 : hslToRgb ⟨0, 0, (3490/51 + 2595/34) / 2⟩ = ⟨185, 185, 185⟩ := by
  norm_num [hslToRgb, hue2rgb, jsRound]

theorem c3r_D5 : hslToRgb ⟨0, 0, (3490/51 + 14765/204) / 2⟩ = ⟨180, 180, 180⟩ := by
  norm_num [hslToRgb, hue2rgb, jsRound]

theorem c3r_D6 : hslToRgb ⟨0, 0, (3490/51 + 9575/136) / 2⟩ = ⟨177, 177, 177⟩ := by
  norm_num [hslToRgb, hue2rgb, jsRound]

theorem c3r_D7 : hslToRgb ⟨0, 0, (3490/51 + 56645/816) / 2⟩ = ⟨176, 176, 176⟩ := by
  norm_num [hslToRgb, hue2rgb, jsRound]

theorem c3can_12_12_12 :
    canonRGB ⟨12, 12, 12⟩ = (⟨12, 12, 12⟩ : RGB) := by
  norm_num [canonRGB, clamp255, qmax, qmin, jsRound]

theorem c3can_13_12_12 :
    canonRGB ⟨13, 12, 12⟩ = (⟨13, 12, 12⟩ : RGB) := by
  norm_num [canonRGB, clamp255, qmax, qmin, jsRound]

theorem c3can_13_13_13 :
    canonRGB ⟨13, 13, 13⟩ = (⟨13, 13, 13⟩ : RGB) := by
  norm_num [canonRGB, clamp255, qmax, qmin, jsRound]

theorem c3can_14_13_13 :
    canonRGB ⟨14, 13, 13⟩ = (⟨14, 13, 13⟩ : RGB) := by
  norm_num [canonRGB, clamp255, qmax, qmin, jsRound]

theorem c3can_15_15_15 :
    canonRGB ⟨15, 15, 15⟩ = (⟨15, 15, 15⟩ : RGB) := by
  norm_num [canonRGB, clamp255, qmax, qmin, jsRound]

theorem c3can_18_17_17 :
    canonRGB ⟨18, 17, 17⟩ = (⟨18, 17, 17⟩ : RGB) := by
  norm_num [canonRGB, clamp255, qmax, qmin, jsRound]

theorem c3can_18_18_18 :
    canonRGB ⟨18, 18, 18⟩ = (⟨18, 18, 18⟩ : RGB) := by
  norm_num [canonRGB, clamp255, qmax, qmin, jsRound]

theorem c3can_24_23_23 :
    canonRGB ⟨24, 23, 23⟩ = (⟨24, 23, 23⟩ : RGB) := by
  norm_num [canonRGB, clamp255, qmax, qmin, jsRound]

theorem c3can_24_24_24 :
    canonRGB ⟨24, 24, 24⟩ = (⟨24, 24, 24⟩ : RGB) := by
  norm_num [canonRGB, clamp255, qmax, qmin, jsRound]

theorem c3can_47_47_47 :
    canonRGB ⟨47, 47, 47⟩ = (⟨47, 47, 47⟩ : RGB) := by
  norm_num [canonRGB, clamp255, qmax, qmin, jsRound]

theorem c3can_48_47_47 :
    canonRGB ⟨48, 47, 47⟩ = (⟨48, 47, 47⟩ : RGB) := by
  norm_num [canonRGB, clamp255, qmax, qmin, jsRound]

theorem c3can_94_94_94 :
    canonRGB ⟨94, 94, 94⟩ = (⟨94, 94, 94⟩ : RGB) := by
  norm_num [canonRGB, clamp255, qmax, qmin, jsRound]

theorem c3can_96_93_93 :
    canonRGB ⟨96, 93, 93⟩ = (⟨96, 93, 93⟩ : RGB) := by
  norm_num [canonRGB, clamp255, qmax, qmin, jsRound]

theorem c3can_175_175_175 :
    canonRGB ⟨175, 175, 175⟩ = (⟨175, 175, 175⟩ : RGB) := by
  norm_num [canonRGB, clamp255, qmax, qmin, jsRound]

theorem c3can_176_173_173 :
    canonRGB ⟨176, 173, 173⟩ = (⟨176, 173, 173⟩ : RGB) := by
  norm_num [canonRGB, clamp255, qmax, qmin, jsRound]

theorem c3can_176_176_176 :
    canonRGB ⟨176, 176, 176⟩ = (⟨176, 176, 176⟩ : RGB) := by
  norm_num [canonRGB, clamp255, qmax, qmin, jsRound]

theorem c3can_177_175_175 :
    canonRGB ⟨177, 175, 175⟩ = (⟨177, 175, 175⟩ : RGB) := by
  norm_num [canonRGB, clamp255, qmax, qmin, jsRound]

theorem c3can_177_177_177 :
    canonRGB ⟨177, 177, 177⟩ = (⟨177, 177, 177⟩ : RGB) := by
  norm_num [canonRGB, clamp255, qmax, qmin, jsRound]

theorem c3can_178_176_176 :
    canonRGB ⟨178, 176, 176⟩ = (⟨178, 176, 176⟩ : RGB) := by
  norm_num [canonRGB, clamp255, qmax, qmin, jsRound]

theorem c3can_180_180_180 :
    canonRGB ⟨180, 180, 180⟩ = (⟨180, 180, 180⟩ : RGB) := by
  norm_num [canonRGB, clamp255, qmax, qmin, jsRound]

theorem c3can_181_179_179 :
    canonRGB ⟨181, 179, 179⟩ = (⟨181, 179, 179⟩ : RGB) := by
  norm_num [canonRGB, clamp255, qmax, qmin, jsRound]

theorem c3can_185_185_185 :
    canonRGB ⟨185, 185, 185⟩ = (⟨185, 185, 185⟩ : RGB) := by
  norm_num [canonRGB, clamp255, qmax, qmin, jsRound]

theorem c3can_186_184_184 :
    canonRGB ⟨186, 184, 184⟩ = (⟨186, 184, 184⟩ : RGB) := by
  norm_num [canonRGB, clamp255, qmax, qmin, jsRound]

theorem c3can_195_195_195 :
    canonRGB ⟨195, 195, 195⟩ = (⟨195, 195, 195⟩ : RGB) := by
  norm_num [canonRGB, clamp255, qmax, qmin, jsRound]

theorem c3can_196_194_194 :
    canonRGB ⟨196, 194, 194⟩ = (⟨196, 194, 194⟩ : RGB) := by
  norm_num [canonRGB, clamp255, qmax, qmin, jsRound]

theorem c3can_215_215_215 :
    canonRGB ⟨215, 215, 215⟩ = (⟨215, 215, 215⟩ : RGB) := by
  norm_num [canonRGB, clamp255, qmax, qmin, jsRound]

theorem c3can_216_214_214 :
    canonRGB ⟨216, 214, 214⟩ = (⟨216, 214, 214⟩ : RGB) := by
  norm_num [canonRGB, clamp255, qmax, qmin, jsRound]

theorem c3s_A0 : bslRun ⟨0, 100/63, 630/17⟩ ⟨94, 94, 94⟩ 3 true true 0 =
    ⟨630/17, 100, ⟨96, 93, 93⟩,
      contrastRatioRGB ⟨96, 93, 93⟩ ⟨94, 94, 94⟩, 0, false⟩ := by
  rw [bslRun, bslInit, c3r_A0, contrastRatioHexed,
    c3can_96_93_93, c3can_94_94_94]
  rfl

theorem c3e_A1 : testRatioOf ⟨0, 100/63, 630/17⟩ ⟨94, 94, 94⟩ true
    ⟨630/17, 100, ⟨96, 93, 93⟩,
      contrastRatioRGB ⟨96, 93, 93⟩ ⟨94, 94, 94⟩, 0, false⟩ =
    contrastRatioRGB ⟨176, 173, 173⟩ ⟨94, 94, 94⟩ := by
  rw [testRatioOf]
  simp only [cond_true]
  rw [c3r_A1, contrastRatioHexed, c3can_176_173_173,
    c3can_94_94_94]

theorem c3s_A1 : bslRun ⟨0, 100/63, 630/17⟩ ⟨94, 94, 94⟩ 3 true true 1 =
    ⟨1165/17, 100, ⟨96, 93, 93⟩,
      contrastRatioRGB ⟨96, 93, 93⟩ ⟨94, 94, 94⟩, 1, false⟩ := by
  show bslRun ⟨0, 100/63, 630/17⟩ ⟨94, 94, 94⟩ 3 true true (0 + 1) = _
  rw [bslRun, c3s_A0,
    bslStep_lt ⟨0, 100/63, 630/17⟩ ⟨94, 94, 94⟩ 3 true true
      ⟨630/17, 100, ⟨96, 93, 93⟩,
      contrastRatioRGB ⟨96, 93, 93⟩ ⟨94, 94, 94⟩, 0, false⟩ rfl
      (by rw [c3e_A1]; exact c3c_A1)]
  simp only [cond_true, cond_false]
  norm_num [decide_eq_false_iff_not, decide_eq_true_eq, abs_of_nonneg]

theorem c3e_A2 : testRatioOf ⟨0, 100/63, 630/17⟩ ⟨94, 94, 94⟩ true
    ⟨1165/17, 100, ⟨96, 93, 93⟩,
      contrastRatioRGB ⟨96, 93, 93⟩ ⟨94, 94, 94⟩, 1, false⟩ =
    contrastRatioRGB ⟨216, 214, 214⟩ ⟨94, 94, 94⟩ := by
  rw [testRatioOf]
  simp only [cond_true]
  rw [c3r_A2, contrastRatioHexed, c3can_216_214_214,
    c3can_94_94_94]

theorem c3s_A2 : bslRun ⟨0, 100/63, 630/17⟩ ⟨94, 94, 94⟩ 3 true true 2 =
    ⟨1165/17, 2865/34, ⟨216, 214, 214⟩,
      contrastRatioRGB ⟨216, 214, 214⟩ ⟨94, 94, 94⟩, 2, false⟩ := by
  show bslRun ⟨0, 100/63, 630/17⟩ ⟨94, 94, 94⟩ 3 true true (1 + 1) = _
  rw [bslRun, c3s_A1,
    bslStep_ge ⟨0, 100/63, 630/17⟩ ⟨94, 94, 94⟩ 3 true true
      ⟨1165/17, 100, ⟨96, 93, 93⟩,
      contrastRatioRGB ⟨96, 93, 93⟩ ⟨94, 94, 94⟩, 1, false⟩ rfl
      (by rw [c3e_A2]; exact c3c_A2), c3e_A2]
  simp only [cond_true, cond_false]
  rw [c3r_A2]
  norm_num [decide_eq_false_iff_not, decide_eq_true_eq, abs_of_nonneg]

theorem c3e_A3 : testRatioOf ⟨0, 100/63, 630/17⟩ ⟨94, 94, 94⟩ true
    ⟨1165/17, 2865/34, ⟨216, 214, 214⟩,
      contrastRatioRGB ⟨216, 214, 214⟩ ⟨94, 94, 94⟩, 2, false⟩ =
    contrastRatioRGB ⟨196, 194, 194⟩ ⟨94, 94, 94⟩ := by
  rw [testRatioOf]
  simp only [cond_true]
  rw [c3r_A3, contrastRatioHexed, c3can_196_194_194,
    c3can_94_94_94]

theorem c3s_A3 : bslRun ⟨0, 100/63, 630/17⟩ ⟨94, 94, 94⟩ 3 true true 3 =
    ⟨1165/17, 5195/68, ⟨196, 194, 194⟩,
      contrastRatioRGB ⟨196, 194, 194⟩ ⟨94, 94, 94⟩, 3, false⟩ := by
  show bslRun ⟨0, 100/63, 630/17⟩ ⟨94, 94, 94⟩ 3 true true (2 + 1) = _
  rw [bslRun, c3s_A2,
    bslStep_ge ⟨0, 100/63, 630/17⟩ ⟨94, 94, 94⟩ 3 true true
      ⟨1165/17, 2865/34, ⟨216, 214, 214⟩,
      contrastRatioRGB ⟨216, 214, 214⟩ ⟨94, 94, 94⟩, 2, false⟩ rfl
      (by rw [c3e_A3]; exact c3c_A3), c3e_A3]
  simp only [cond_true, cond_false]
  rw [c3r_A3]
  norm_num [decide_eq_false_iff_not, decide_eq_true_eq, abs_of_nonneg]

theorem c3e_A4 : testRatioOf ⟨0, 100/63, 630/17⟩ ⟨94, 94, 94⟩ true
    ⟨1165/17, 5195/68, ⟨196, 194, 194⟩,
      contrastRatioRGB ⟨196, 194, 194⟩ ⟨94, 94, 94⟩, 3, false⟩ =
    contrastRatioRGB ⟨186, 184, 184⟩ ⟨94, 94, 94⟩ := by
  rw [testRatioOf]
  simp only [cond_true]
  rw [c3r_A4, contrastRatioHexed, c3can_186_184_184,
    c3can_94_94_94]

theorem c3s_A4 : bslRun ⟨0, 100/63, 630/17⟩ ⟨94, 94, 94⟩ 3 true true 4 =
    ⟨1165/17, 9855/136, ⟨186, 184, 184⟩,
      contrastRatioRGB ⟨186, 184, 184⟩ ⟨94, 94, 94⟩, 4, false⟩ := by
  show bslRun ⟨0, 100/63, 630/17⟩ ⟨94, 94, 94⟩ 3 true true (3 + 1) = _
  rw [bslRun, c3s_A3,
    bslStep_ge ⟨0, 100/63, 630/17⟩ ⟨94, 94, 94⟩ 3 true true
      ⟨1165/17, 5195/68, ⟨196, 194, 194⟩,
      contrastRatioRGB ⟨196, 194, 194⟩ ⟨94, 94, 94⟩, 3, false⟩ rfl
      (by rw [c3e_A4]; exact c3c_A4), c3e_A4]
  simp only [cond_true, cond_false]
  rw [c3r_A4]
  norm_num [decide_eq_false_iff_not, decide_eq_true_eq, abs_of_nonneg]

theorem c3e_A5 : testRatioOf ⟨0, 100/63, 630/17⟩ ⟨94, 94, 94⟩ true
    ⟨1165/17, 9855/136, ⟨186, 184, 184⟩,
      contrastRatioRGB ⟨186, 184, 184⟩ ⟨94, 94, 94⟩, 4, false⟩ =
    contrastRatioRGB ⟨181, 179, 179⟩ ⟨94, 94, 94⟩ := by
  rw [testRatioOf]
  simp only [cond_true]
  rw [c3r_A5, contrastRatioHexed, c3can_181_179_179,
    c3can_94_94_94]

theorem c3s_A5 : bslRun ⟨0, 100/63, 630/17⟩ ⟨94, 94, 94⟩ 3 true true 5 =
    ⟨1165/17, 19175/272, ⟨181, 179, 179⟩,
      contrastRatioRGB ⟨181, 179, 179⟩ ⟨94, 94, 94⟩, 5, false⟩ := by
  show bslRun ⟨0, 100/63, 630/17⟩ ⟨94, 94, 94⟩ 3 true true (4 + 1) = _
  rw [bslRun, c3s_A4,
    bslStep_ge ⟨0, 100/63, 630/17⟩ ⟨94, 94, 94⟩ 3 true true
      ⟨1165/17, 9855/136, ⟨186, 184, 184⟩,
      contrastRatioRGB ⟨186, 184, 184⟩ ⟨94, 94, 94⟩, 4, false⟩ rfl
      (by rw [c3e_A5]; exact c3c_A5), c3e_A5]
  simp only [cond_true, cond_false]
  rw [c3r_A5]
  norm_num [decide_eq_false_iff_not, decide_eq_true_eq, abs_of_nonneg]

theorem c3e_A6 : testRatioOf ⟨0, 100/63, 630/17⟩ ⟨94, 94, 94⟩ true
    ⟨1165/17, 19175/272, ⟨181, 179, 179⟩,
      contrastRatioRGB ⟨181, 179, 179⟩ ⟨94, 94, 94⟩, 5, false⟩ =
    contrastRatioRGB ⟨178, 176, 176⟩ ⟨94, 94, 94⟩ := by
  rw [testRatioOf]
  simp only [cond_true]
  rw [c3r_A6, contrastRatioHexed, c3can_178_176_176,
    c3can_94_94_94]

theorem c3s_A6 : bslRun ⟨0, 100/63, 630/17⟩ ⟨94, 94, 94⟩ 3 true true 6 =
    ⟨1165/17, 37815/544, ⟨178, 176, 176⟩,
      contrastRatioRGB ⟨178, 176, 176⟩ ⟨94, 94, 94⟩, 6, false⟩ := by
  show bslRun ⟨0, 100/63, 630/17⟩ ⟨94, 94, 94⟩ 3 true true (5 + 1) = _
  rw [bslRun, c3s_A5,
    bslStep_ge ⟨0, 100/63, 630/17⟩ ⟨94, 94, 94⟩ 3 true true
      ⟨1165/17, 19175/272, ⟨181, 179, 179⟩,
      contrastRatioRGB ⟨181, 179, 179⟩ ⟨94, 94, 94⟩, 5, false⟩ rfl
      (by rw [c3e_A6]; exact c3c_A6), c3e_A6]
  simp only [cond_true, cond_false]
  rw [c3r_A6]
  norm_num [decide_eq_false_iff_not, decide_eq_true_eq, abs_of_nonneg]

theorem c3e_A7 : testRatioOf ⟨0, 100/63, 630/17⟩ ⟨94, 94, 94⟩ true
    ⟨1165/17, 37815/544, ⟨178, 176, 176⟩,
      contrastRatioRGB ⟨178, 176, 176⟩ ⟨94, 94, 94⟩, 6, false⟩ =
    contrastRatioRGB ⟨177, 175, 175⟩ ⟨94, 94, 94⟩ := by
  rw [testRatioOf]
  simp only [cond_true]
  rw [c3r_A7, contrastRatioHexed, c3can_177_175_175,
    c3can_94_94_94]

theorem c3s_A7 : bslRun ⟨0, 100/63, 630/17⟩ ⟨94, 94, 94⟩ 3 true true 7 =
    ⟨75095/1088, 37815/544, ⟨178, 176, 176⟩,
      contrastRatioRGB ⟨178, 176, 176⟩ ⟨94, 94, 94⟩, 7, false⟩ := by
  show bslRun ⟨0, 100/63, 630/17⟩ ⟨94, 94, 94⟩ 3 true true (6 + 1) = _
  rw [bslRun, c3s_A6,
    bslStep_lt ⟨0, 100/63, 630/17⟩ ⟨94, 94, 94⟩ 3 true true
      ⟨1165/17, 37815/544, ⟨178, 176, 176⟩,
      contrastRatioRGB ⟨178, 176, 176⟩ ⟨94, 94, 94⟩, 6, false⟩ rfl
      (by rw [c3e_A7]; exact c3c_A7)]
  simp only [cond_true, cond_false]
  norm_num [decide_eq_false_iff_not, decide_eq_true_eq, abs_of_nonneg]

theorem c3bsl_A : binarySearchLightness ⟨0, 100/63, 630/17⟩ ⟨94, 94, 94⟩ 3 true true 7 =
    ⟨⟨178, 176, 176⟩, contrastRatioRGB ⟨178, 176, 176⟩ ⟨94, 94, 94⟩, 7⟩ := by
  rw [binarySearchLightness, c3s_A7]

theorem c3s_B0 : bslRun ⟨0, 100/63, 630/17⟩ ⟨94, 94, 94⟩ 3 true false 0 =
    ⟨0, 630/17, ⟨96, 93, 93⟩,
      contrastRatioRGB ⟨96, 93, 93⟩ ⟨94, 94, 94⟩, 0, false⟩ := by
  rw [bslRun, bslInit, c3r_B0, contrastRatioHexed,
    c3can_96_93_93, c3can_94_94_94]
  rfl

theorem c3e_B1 : testRatioOf ⟨0, 100/63, 630/17⟩ ⟨94, 94, 94⟩ true
    ⟨0, 630/17, ⟨96, 93, 93⟩,
      contrastRatioRGB ⟨96, 93, 93⟩ ⟨94, 94, 94⟩, 0, false⟩ =
    contrastRatioRGB ⟨48, 47, 47⟩ ⟨94, 94, 94⟩ := by
  rw [testRatioOf]
  simp only [cond_true]
  rw [c3r_B1, contrastRatioHexed, c3can_48_47_47,
    c3can_94_94_94]

theorem c3s_B1 : bslRun ⟨0, 100/63, 630/17⟩ ⟨94, 94, 94⟩ 3 true false 1 =
    ⟨0, 315/17, ⟨96, 93, 93⟩,
      contrastRatioRGB ⟨96, 93, 93⟩ ⟨94, 94, 94⟩, 1, false⟩ := by
  show bslRun ⟨0, 100/63, 630/17⟩ ⟨94, 94, 94⟩ 3 true false (0 + 1) = _
  rw [bslRun, c3s_B0,
    bslStep_lt ⟨0, 100/63, 630/17⟩ ⟨94, 94, 94⟩ 3 true false
      ⟨0, 630/17, ⟨96, 93, 93⟩,
      contrastRatioRGB ⟨96, 93, 93⟩ ⟨94, 94, 94⟩, 0, false⟩ rfl
      (by rw [c3e_B1]; exact c3c_B1)]
  simp only [cond_true, cond_false]
  norm_num [decide_eq_false_iff_not, decide_eq_true_eq, abs_of_nonneg]

theorem c3e_B2 : testRatioOf ⟨0, 100/63, 630/17⟩ ⟨94, 94, 94⟩ true
    ⟨0, 315/17, ⟨96, 93, 93⟩,
      contrastRatioRGB ⟨96, 93, 93⟩ ⟨94, 94, 94⟩, 1, false⟩ =
    contrastRatioRGB ⟨24, 23, 23⟩ ⟨94, 94, 94⟩ := by
  rw [testRatioOf]
  simp only [cond_true]
  rw [c3r_B2, contrastRatioHexed, c3can_24_23_23,
    c3can_94_94_94]

theorem c3s_B2 : bslRun ⟨0, 100/63, 630/17⟩ ⟨94, 94, 94⟩ 3 true false 2 =
    ⟨0, 315/34, ⟨96, 93, 93⟩,
      contrastRatioRGB ⟨96, 93, 93⟩ ⟨94, 94, 94⟩, 2, false⟩ := by
  show bslRun ⟨0, 100/63, 630/17⟩ ⟨94, 94, 94⟩ 3 true false (1 + 1) = _
  rw [bslRun, c3s_B1,
    bslStep_lt ⟨0, 100/63, 630/17⟩ ⟨94, 94, 94⟩ 3 true false
      ⟨0, 315/17, ⟨96, 93, 93⟩,
      contrastRatioRGB ⟨96, 93, 93⟩ ⟨94, 94, 94⟩, 1, false⟩ rfl
      (by rw [c3e_B2]; exact c3c_B2)]
  simp only [cond_true, cond_false]
  norm_num [decide_eq_false_iff_not, decide_eq_true_eq, abs_of_nonneg]

theorem c3e_B3 : testRatioOf ⟨0, 100/63, 630/17⟩ ⟨94, 94, 94⟩ true
    ⟨0, 315/34, ⟨96, 93, 93⟩,
      contrastRatioRGB ⟨96, 93, 93⟩ ⟨94, 94, 94⟩, 2, false⟩ =
    contrastRatioRGB ⟨12, 12, 12⟩ ⟨94, 94, 94⟩ := by
  rw [testRatioOf]
  simp only [cond_true]
  rw [c3r_B3, contrastRatioHexed, c3can_12_12_12,
    c3can_94_94_94]

theorem c3s_B3 : bslRun ⟨0, 100/63, 630/17⟩ ⟨94, 94, 94⟩ 3 true false 3 =
    ⟨315/68, 315/34, ⟨12, 12, 12⟩,
      contrastRatioRGB ⟨12, 12, 12⟩ ⟨94, 94, 94⟩, 3, false⟩ := by
  show bslRun ⟨0, 100/63, 630/17⟩ ⟨94, 94, 94⟩ 3 true false (2 + 1) = _
  rw [bslRun, c3s_B2,
    bslStep_ge ⟨0, 100/63, 630/17⟩ ⟨94, 94, 94⟩ 3 true false
      ⟨0, 315/34, ⟨96, 93, 93⟩,
      contrastRatioRGB ⟨96, 93, 93⟩ ⟨94, 94, 94⟩, 2, false⟩ rfl
      (by rw [c3e_B3]; exact c3c_B3), c3e_B3]
  simp only [cond_true, cond_false]
  rw [c3r_B3]
  norm_num [decide_eq_false_iff_not, decide_eq_true_eq, abs_of_nonneg]

theorem c3e_B4 : testRatioOf ⟨0, 100/63, 630/17⟩ ⟨94, 94, 94⟩ true
    ⟨315/68, 315/34, ⟨12, 12, 12⟩,
      contrastRatioRGB ⟨12, 12, 12⟩ ⟨94, 94, 94⟩, 3, false⟩ =
    contrastRatioRGB ⟨18, 17, 17⟩ ⟨94, 94, 94⟩ := by
  rw [testRatioOf]
  simp only [cond_true]
  rw [c3r_B4, contrastRatioHexed, c3can_18_17_17,
    c3can_94_94_94]

theorem c3s_B4 : bslRun ⟨0, 100/63, 630/17⟩ ⟨94, 94, 94⟩ 3 true false 4 =
    ⟨315/68, 945/136, ⟨12, 12, 12⟩,
      contrastRatioRGB ⟨12, 12, 12⟩ ⟨94, 94, 94⟩, 4, false⟩ := by
  show bslRun ⟨0, 100/63, 630/17⟩ ⟨94, 94, 94⟩ 3 true false (3 + 1) = _
  rw [bslRun, c3s_B3,
    bslStep_lt ⟨0, 100/63, 630/17⟩ ⟨94, 94, 94⟩ 3 true false
      ⟨315/68, 315/34, ⟨12, 12, 12⟩,
      contrastRatioRGB ⟨12, 12, 12⟩ ⟨94, 94, 94⟩, 3, false⟩ rfl
      (by rw [c3e_B4]; exact c3c_B4)]
  simp only [cond_true, cond_false]
  norm_num [decide_eq_false_iff_not, decide_eq_true_eq, abs_of_nonneg]

theorem c3e_B5 : testRatioOf ⟨0, 100/63, 630/17⟩ ⟨94, 94, 94⟩ true
    ⟨315/68, 945/136, ⟨12, 12, 12⟩,
      contrastRatioRGB ⟨12, 12, 12⟩ ⟨94, 94, 94⟩, 4, false⟩ =
    contrastRatioRGB ⟨15, 15, 15⟩ ⟨94, 94, 94⟩ := by
  rw [testRatioOf]
  simp only [cond_true]
  rw [c3r_B5, contrastRatioHexed, c3can_15_15_15,
    c3can_94_94_94]

theorem c3s_B5 : bslRun ⟨0, 100/63, 630/17⟩ ⟨94, 94, 94⟩ 3 true false 5 =
    ⟨315/68, 1575/272, ⟨12, 12, 12⟩,
      contrastRatioRGB ⟨12, 12, 12⟩ ⟨94, 94, 94⟩, 5, false⟩ := by
  show bslRun ⟨0, 100/63, 630/17⟩ ⟨94, 94, 94⟩ 3 true false (4 + 1) = _
  rw [bslRun, c3s_B4,
    bslStep_lt ⟨0, 100/63, 630/17⟩ ⟨94, 94, 94⟩ 3 true false
      ⟨315/68, 945/136, ⟨12, 12, 12⟩,
      contrastRatioRGB ⟨12, 12, 12⟩ ⟨94, 94, 94⟩, 4, false⟩ rfl
      (by rw [c3e_B5]; exact c3c_B5)]
  simp only [cond_true, cond_false]
  norm_num [decide_eq_false_iff_not, decide_eq_true_eq, abs_of_nonneg]

theorem c3e_B6 : testRatioOf ⟨0, 100/63, 630/17⟩ ⟨94, 94, 94⟩ true
    ⟨315/68, 1575/272, ⟨12, 12, 12⟩,
      contrastRatioRGB ⟨12, 12, 12⟩ ⟨94, 94, 94⟩, 5, false⟩ =
    contrastRatioRGB ⟨14, 13, 13⟩ ⟨94, 94, 94⟩ := by
  rw [testRatioOf]
  simp only [cond_true]
  rw [c3r_B6, contrastRatioHexed, c3can_14_13_13,
    c3can_94_94_94]

theorem c3s_B6 : bslRun ⟨0, 100/63, 630/17⟩ ⟨94, 94, 94⟩ 3 true false 6 =
    ⟨315/68, 2835/544, ⟨12, 12, 12⟩,
      contrastRatioRGB ⟨12, 12, 12⟩ ⟨94, 94, 94⟩, 6, false⟩ := by
  show bslRun ⟨0, 100/63, 630/17⟩ ⟨94, 94, 94⟩ 3 true false (5 + 1) = _
  rw [bslRun, c3s_B5,
    bslStep_lt ⟨0, 100/63, 630/17⟩ ⟨94, 94, 94⟩ 3 true false
      ⟨315/68, 1575/272, ⟨12, 12, 12⟩,
      contrastRatioRGB ⟨12, 12, 12⟩ ⟨94, 94, 94⟩, 5, false⟩ rfl
      (by rw [c3e_B6]; exact c3c_B6)]
  simp only [cond_true, cond_false]
  norm_num [decide_eq_false_iff_not, decide_eq_true_eq, abs_of_nonneg]

theorem c3e_B7 : testRatioOf ⟨0, 100/63, 630/17⟩ ⟨94, 94, 94⟩ true
    ⟨315/68, 2835/544, ⟨12, 12, 12⟩,
      contrastRatioRGB ⟨12, 12, 12⟩ ⟨94, 94, 94⟩, 6, false⟩ =
    contrastRatioRGB ⟨13, 12, 12⟩ ⟨94, 94, 94⟩ := by
  rw [testRatioOf]
  simp only [cond_true]
  rw [c3r_B7, contrastRatioHexed, c3can_13_12_12,
    c3can_94_94_94]

theorem c3s_B7 : bslRun ⟨0, 100/63, 630/17⟩ ⟨94, 94, 94⟩ 3 true false 7 =
    ⟨315/64, 2835/544, ⟨13, 12, 12⟩,
      contrastRatioRGB ⟨13, 12, 12⟩ ⟨94, 94, 94⟩, 7, false⟩ := by
  show bslRun ⟨0, 100/63, 630/17⟩ ⟨94, 94, 94⟩ 3 true false (6 + 1) = _
  rw [bslRun, c3s_B6,
    bslStep_ge ⟨0, 100/63, 630/17⟩ ⟨94, 94, 94⟩ 3 true false
      ⟨315/68, 2835/544, ⟨12, 12, 12⟩,
      contrastRatioRGB ⟨12, 12, 12⟩ ⟨94, 94, 94⟩, 6, false⟩ rfl
      (by rw [c3e_B7]; exact c3c_B7), c3e_B7]
  simp only [cond_true, cond_false]
  rw [c3r_B7]
  norm_num [decide_eq_false_iff_not, decide_eq_true_eq, abs_of_nonneg]

theorem c3bsl_B : binarySearchLightness ⟨0, 100/63, 630/17⟩ ⟨94, 94, 94⟩ 3 true false 7 =
    ⟨⟨13, 12, 12⟩, contrastRatioRGB ⟨13, 12, 12⟩ ⟨94, 94, 94⟩, 7⟩ := by
  rw [binarySearchLightness, c3s_B7]

theorem c3s_C0 : bslRun ⟨0, 0, 1880/51⟩ ⟨96, 93, 93⟩ 3 false false 0 =
    ⟨0, 1880/51, ⟨94, 94, 94⟩,
      contrastRatioRGB ⟨94, 94, 94⟩ ⟨96, 93, 93⟩, 0, false⟩ := by
  rw [bslRun, bslInit, c3r_C0, contrastRatioHexed,
    c3can_94_94_94, c3can_96_93_93]
  rfl

theorem c3e_C1 : testRatioOf ⟨0, 0, 1880/51⟩ ⟨96, 93, 93⟩ false
    ⟨0, 1880/51, ⟨94, 94, 94⟩,
      contrastRatioRGB ⟨94, 94, 94⟩ ⟨96, 93, 93⟩, 0, false⟩ =
    contrastRatioRGB ⟨96, 93, 93⟩ ⟨47, 47, 47⟩ := by
  rw [testRatioOf]
  simp only [cond_false]
  rw [c3r_C1, contrastRatioHexed, c3can_47_47_47,
    c3can_96_93_93]

theorem c3s_C1 : bslRun ⟨0, 0, 1880/51⟩ ⟨96, 93, 93⟩ 3 false false 1 =
    ⟨0, 940/51, ⟨94, 94, 94⟩,
      contrastRatioRGB ⟨94, 94, 94⟩ ⟨96, 93, 93⟩, 1, false⟩ := by
  show bslRun ⟨0, 0, 1880/51⟩ ⟨96, 93, 93⟩ 3 false false (0 + 1) = _
  rw [bslRun, c3s_C0,
    bslStep_lt ⟨0, 0, 1880/51⟩ ⟨96, 93, 93⟩ 3 false false
      ⟨0, 1880/51, ⟨94, 94, 94⟩,
      contrastRatioRGB ⟨94, 94, 94⟩ ⟨96, 93, 93⟩, 0, false⟩ rfl
      (by rw [c3e_C1]; exact c3c_C1)]
  simp only [cond_true, cond_false]
  norm_num [decide_eq_false_iff_not, decide_eq_true_eq, abs_of_nonneg]

theorem c3e_C2 : testRatioOf ⟨0, 0, 1880/51⟩ ⟨96, 93, 93⟩ false
    ⟨0, 940/51, ⟨94, 94, 94⟩,
      contrastRatioRGB ⟨94, 94, 94⟩ ⟨96, 93, 93⟩, 1, false⟩ =
    contrastRatioRGB ⟨96, 93, 93⟩ ⟨24, 24, 24⟩ := by
  rw [testRatioOf]
  simp only [cond_false]
  rw [c3r_C2, contrastRatioHexed, c3can_24_24_24,
    c3can_96_93_93]

theorem c3s_C2 : bslRun ⟨0, 0, 1880/51⟩ ⟨96, 93, 93⟩ 3 false false 2 =
    ⟨0, 470/51, ⟨94, 94, 94⟩,
      contrastRatioRGB ⟨94, 94, 94⟩ ⟨96, 93, 93⟩, 2, false⟩ := by
  show bslRun ⟨0, 0, 1880/51⟩ ⟨96, 93, 93⟩ 3 false false (1 + 1) = _
  rw [bslRun, c3s_C1,
    bslStep_lt ⟨0, 0, 1880/51⟩ ⟨96, 93, 93⟩ 3 false false
      ⟨0, 940/51, ⟨94, 94, 94⟩,
      contrastRatioRGB ⟨94, 94, 94⟩ ⟨96, 93, 93⟩, 1, false⟩ rfl
      (by rw [c3e_C2]; exact c3c_C2)]
  simp only [cond_true, cond_false]
  norm_num [decide_eq_false_iff_not, decide_eq_true_eq, abs_of_nonneg]

theorem c3e_C3 : testRatioOf ⟨0, 0, 1880/51⟩ ⟨96, 93, 93⟩ false
    ⟨0, 470/51, ⟨94, 94, 94⟩,
      contrastRatioRGB ⟨94, 94, 94⟩ ⟨96, 93, 93⟩, 2, false⟩ =
    contrastRatioRGB ⟨96, 93, 93⟩ ⟨12, 12, 12⟩ := by
  rw [testRatioOf]
  simp only [cond_false]
  rw [c3r_C3, contrastRatioHexed, c3can_12_12_12,
    c3can_96_93_93]

theorem c3s_C3 : bslRun ⟨0, 0, 1880/51⟩ ⟨96, 93, 93⟩ 3 false false 3 =
    ⟨235/51, 470/51, ⟨12, 12, 12⟩,
      contrastRatioRGB ⟨96, 93, 93⟩ ⟨12, 12, 12⟩, 3, false⟩ := by
  show bslRun ⟨0, 0, 1880/51⟩ ⟨96, 93, 93⟩ 3 false false (2 + 1) = _
  rw [bslRun, c3s_C2,
    bslStep_ge ⟨0, 0, 1880/51⟩ ⟨96, 93, 93⟩ 3 false false
      ⟨0, 470/51, ⟨94, 94, 94⟩,
      contrastRatioRGB ⟨94, 94, 94⟩ ⟨96, 93, 93⟩, 2, false⟩ rfl
      (by rw [c3e_C3]; exact c3c_C3), c3e_C3]
  simp only [cond_true, cond_false]
  rw [c3r_C3]
  norm_num [decide_eq_false_iff_not, decide_eq_true_eq, abs_of_nonneg]

theorem c3e_C4 : testRatioOf ⟨0, 0, 1880/51⟩ ⟨96, 93, 93⟩ false
    ⟨235/51, 470/51, ⟨12, 12, 12⟩,
      contrastRatioRGB ⟨96, 93, 93⟩ ⟨12, 12, 12⟩, 3, false⟩ =
    contrastRatioRGB ⟨96, 93, 93⟩ ⟨18, 18, 18⟩ := by
  rw [testRatioOf]
  simp only [cond_false]
  rw [c3r_C4, contrastRatioHexed, c3can_18_18_18,
    c3can_96_93_93]

theorem c3s_C4 : bslRun ⟨0, 0, 1880/51⟩ ⟨96, 93, 93⟩ 3 false false 4 =
    ⟨235/51, 235/34, ⟨12, 12, 12⟩,
      contrastRatioRGB ⟨96, 93, 93⟩ ⟨12, 12, 12⟩, 4, false⟩ := by
  show bslRun ⟨0, 0, 1880/51⟩ ⟨96, 93, 93⟩ 3 false false (3 + 1) = _
  rw [bslRun, c3s_C3,
    bslStep_lt ⟨0, 0, 1880/51⟩ ⟨96, 93, 93⟩ 3 false false
      ⟨235/51, 470/51, ⟨12, 12, 12⟩,
      contrastRatioRGB ⟨96, 93, 93⟩ ⟨12, 12, 12⟩, 3, false⟩ rfl
      (by rw [c3e_C4]; exact c3c_C4)]
  simp only [cond_true, cond_false]
  norm_num [decide_eq_false_iff_not, decide_eq_true_eq, abs_of_nonneg]

theorem c3e_C5 : testRatioOf ⟨0, 0, 1880/51⟩ ⟨96, 93, 93⟩ false
    ⟨235/51, 235/34, ⟨12, 12, 12⟩,
      contrastRatioRGB ⟨96, 93, 93⟩ ⟨12, 12, 12⟩, 4, false⟩ =
    contrastRatioRGB ⟨96, 93, 93⟩ ⟨15, 15, 15⟩ := by
  rw [testRatioOf]
  simp only [cond_false]
  rw [c3r_C5, contrastRatioHexed, c3can_15_15_15,
    c3can_96_93_93]

theorem c3s_C5 : bslRun ⟨0, 0, 1880/51⟩ ⟨96, 93, 93⟩ 3 false false 5 =
    ⟨235/51, 1175/204, ⟨12, 12, 12⟩,
      contrastRatioRGB ⟨96, 93, 93⟩ ⟨12, 12, 12⟩, 5, false⟩ := by
  show bslRun ⟨0, 0, 1880/51⟩ ⟨96, 93, 93⟩ 3 false false (4 + 1) = _
  rw [bslRun, c3s_C4,
    bslStep_lt ⟨0, 0, 1880/51⟩ ⟨96, 93, 93⟩ 3 false false
      ⟨235/51, 235/34, ⟨12, 12, 12⟩,
      contrastRatioRGB ⟨96, 93, 93⟩ ⟨12, 12, 12⟩, 4, false⟩ rfl
      (by rw [c3e_C5]; exact c3c_C5)]
  simp only [cond_true, cond_false]
  norm_num [decide_eq_false_iff_not, decide_eq_true_eq, abs_of_nonneg]

theorem c3e_C6 : testRatioOf ⟨0, 0, 1880/51⟩ ⟨96, 93, 93⟩ false
    ⟨235/51, 1175/204, ⟨12, 12, 12⟩,
      contrastRatioRGB ⟨96, 93, 93⟩ ⟨12, 12, 12⟩, 5, false⟩ =
    contrastRatioRGB ⟨96, 93, 93⟩ ⟨13, 13, 13⟩ := by
  rw [testRatioOf]
  simp only [cond_false]
  rw [c3r_C6, contrastRatioHexed, c3can_13_13_13,
    c3can_96_93_93]

theorem c3s_C6 : bslRun ⟨0, 0, 1880/51⟩ ⟨96, 93, 93⟩ 3 false false 6 =
    ⟨235/51, 705/136, ⟨12, 12, 12⟩,
      contrastRatioRGB ⟨96, 93, 93⟩ ⟨12, 12, 12⟩, 6, false⟩ := by
  show bslRun ⟨0, 0, 1880/51⟩ ⟨96, 93, 93⟩ 3 false false (5 + 1) = _
  rw [bslRun, c3s_C5,
    bslStep_lt ⟨0, 0, 1880/51⟩ ⟨96, 93, 93⟩ 3 false false
      ⟨235/51, 1175/204, ⟨12, 12, 12⟩,
      contrastRatioRGB ⟨96, 93, 93⟩ ⟨12, 12, 12⟩, 5, false⟩ rfl
      (by rw [c3e_C6]; exact c3c_C6)]
  simp only [cond_true, cond_false]
  norm_num [decide_eq_false_iff_not, decide_eq_true_eq, abs_of_nonneg]

theorem c3e_C7 : testRatioOf ⟨0, 0, 1880/51⟩ ⟨96, 93, 93⟩ false
    ⟨235/51, 705/136, ⟨12, 12, 12⟩,
      contrastRatioRGB ⟨96, 93, 93⟩ ⟨12, 12, 12⟩, 6, false⟩ =
    contrastRatioRGB ⟨96, 93, 93⟩ ⟨12, 12, 12⟩ := by
  rw [testRatioOf]
  simp only [cond_false]
  rw [c3r_C7, contrastRatioHexed, c3can_12_12_12,
    c3can_96_93_93]

theorem c3s_C7 : bslRun ⟨0, 0, 1880/51⟩ ⟨96, 93, 93⟩ 3 false false 7 =
    ⟨235/48, 705/136, ⟨12, 12, 12⟩,
      contrastRatioRGB ⟨96, 93, 93⟩ ⟨12, 12, 12⟩, 7, false⟩ := by
  show bslRun ⟨0, 0, 1880/51⟩ ⟨96, 93, 93⟩ 3 false false (6 + 1) = _
  rw [bslRun, c3s_C6,
    bslStep_ge ⟨0, 0, 1880/51⟩ ⟨96, 93, 93⟩ 3 false false
      ⟨235/51, 705/136, ⟨12, 12, 12⟩,
      contrastRatioRGB ⟨96, 93, 93⟩ ⟨12, 12, 12⟩, 6, false⟩ rfl
      (by rw [c3e_C7]; exact c3c_C7), c3e_C7]
  simp only [cond_true, cond_false]
  rw [c3r_C7]
  norm_num [decide_eq_false_iff_not, decide_eq_true_eq, abs_of_nonneg]

theorem c3bsl_C : binarySearchLightness ⟨0, 0, 1880/51⟩ ⟨96, 93, 93⟩ 3 false false 7 =
    ⟨⟨12, 12, 12⟩, contrastRatioRGB ⟨96, 93, 93⟩ ⟨12, 12, 12⟩, 7⟩ := by
  rw [binarySearchLightness, c3s_C7]

theorem c3s_D0 : bslRun ⟨0, 0, 1880/51⟩ ⟨96, 93, 93⟩ 3 false true 0 =
    ⟨1880/51, 100, ⟨94, 94, 94⟩,
      contrastRatioRGB ⟨94, 94, 94⟩ ⟨96, 93, 93⟩, 0, false⟩ := by
  rw [bslRun, bslInit, c3r_D0, contrastRatioHexed,
    c3can_94_94_94, c3can_96_93_93]
  rfl

theorem c3e_D1 : testRatioOf ⟨0, 0, 1880/51⟩ ⟨96, 93, 93⟩ false
    ⟨1880/51, 100, ⟨94, 94, 94⟩,
      contrastRatioRGB ⟨94, 94, 94⟩ ⟨96, 93, 93⟩, 0, false⟩ =
    contrastRatioRGB ⟨96, 93, 93⟩ ⟨175, 175, 175⟩ := by
  rw [testRatioOf]
  simp only [cond_false]
  rw [c3r_D1, contrastRatioHexed, c3can_175_175_175,
    c3can_96_93_93]

theorem c3s_D1 : bslRun ⟨0, 0, 1880/51⟩ ⟨96, 93, 93⟩ 3 false true 1 =
    ⟨3490/51, 100, ⟨94, 94, 94⟩,
      contrastRatioRGB ⟨94, 94, 94⟩ ⟨96, 93, 93⟩, 1, false⟩ := by
  show bslRun ⟨0, 0, 1880/51⟩ ⟨96, 93, 93⟩ 3 false true (0 + 1) = _
  rw [bslRun, c3s_D0,
    bslStep_lt ⟨0, 0, 1880/51⟩ ⟨96, 93, 93⟩ 3 false true
      ⟨1880/51, 100, ⟨94, 94, 94⟩,
      contrastRatioRGB ⟨94, 94, 94⟩ ⟨96, 93, 93⟩, 0, false⟩ rfl
      (by rw [c3e_D1]; exact c3c_D1)]
  simp only [cond_true, cond_false]
  norm_num [decide_eq_false_iff_not, decide_eq_true_eq, abs_of_nonneg]

theorem c3e_D2 : testRatioOf ⟨0, 0, 1880/51⟩ ⟨96, 93, 93⟩ false
    ⟨3490/51, 100, ⟨94, 94, 94⟩,
      contrastRatioRGB ⟨94, 94, 94⟩ ⟨96, 93, 93⟩, 1, false⟩ =
    contrastRatioRGB ⟨96, 93, 93⟩ ⟨215, 215, 215⟩ := by
  rw [testRatioOf]
  simp only [cond_false]
  rw [c3r_D2, contrastRatioHexed, c3can_215_215_215,
    c3can_96_93_93]

theorem c3s_D2 : bslRun ⟨0, 0, 1880/51⟩ ⟨96, 93, 93⟩ 3 false true 2 =
    ⟨3490/51, 4295/51, ⟨215, 215, 215⟩,
      contrastRatioRGB ⟨96, 93, 93⟩ ⟨215, 215, 215⟩, 2, false⟩ := by
  show bslRun ⟨0, 0, 1880/51⟩ ⟨96, 93, 93⟩ 3 false true (1 + 1) = _
  rw [bslRun, c3s_D1,
    bslStep_ge ⟨0, 0, 1880/51⟩ ⟨96, 93, 93⟩ 3 false true
      ⟨3490/51, 100, ⟨94, 94, 94⟩,
      contrastRatioRGB ⟨94, 94, 94⟩ ⟨96, 93, 93⟩, 1, false⟩ rfl
      (by rw [c3e_D2]; exact c3c_D2), c3e_D2]
  simp only [cond_true, cond_false]
  rw [c3r_D2]
  norm_num [decide_eq_false_iff_not, decide_eq_true_eq, abs_of_nonneg]

theorem c3e_D3 : testRatioOf ⟨0, 0, 1880/51⟩ ⟨96, 93, 93⟩ false
    ⟨3490/51, 4295/51, ⟨215, 215, 215⟩,
      contrastRatioRGB ⟨96, 93, 93⟩ ⟨215, 215, 215⟩, 2, false⟩ =
    contrastRatioRGB ⟨96, 93, 93⟩ ⟨195, 195, 195⟩ := by
  rw [testRatioOf]
  simp only [cond_false]
  rw [c3r_D3, contrastRatioHexed, c3can_195_195_195,
    c3can_96_93_93]

theorem c3s_D3 : bslRun ⟨0, 0, 1880/51⟩ ⟨96, 93, 93⟩ 3 false true 3 =
    ⟨3490/51, 2595/34, ⟨195, 195, 195⟩,
      contrastRatioRGB ⟨96, 93, 93⟩ ⟨195, 195, 195⟩, 3, false⟩ := by
  show bslRun ⟨0, 0, 1880/51⟩ ⟨96, 93, 93⟩ 3 false true (2 + 1) = _
  rw [bslRun, c3s_D2,
    bslStep_ge ⟨0, 0, 1880/51⟩ ⟨96, 93, 93⟩ 3 false true
      ⟨3490/51, 4295/51, ⟨215, 215, 215⟩,
      contrastRatioRGB ⟨96, 93, 93⟩ ⟨215, 215, 215⟩, 2, false⟩ rfl
      (by rw [c3e_D3]; exact c3c_D3), c3e_D3]
  simp only [cond_true, cond_false]
  rw [c3r_D3]
  norm_num [decide_eq_false_iff_not, decide_eq_true_eq, abs_of_nonneg]

theorem c3e_D4 : testRatioOf ⟨0, 0, 1880/51⟩ ⟨96, 93, 93⟩ false
    ⟨3490/51, 2595/34, ⟨195, 195, 195⟩,
      contrastRatioRGB ⟨96, 93, 93⟩ ⟨195, 195, 195⟩, 3, false⟩ =
    contrastRatioRGB ⟨96, 93, 93⟩ ⟨185, 185, 185⟩ := by
  rw [testRatioOf]
  simp only [cond_false]
  rw [c3r_D4, contrastRatioHexed, c3can_185_185_185,
    c3can_96_93_93]

theorem c3s_D4 : bslRun ⟨0, 0, 1880/51⟩ ⟨96, 93, 93⟩ 3 false true 4 =
    ⟨3490/51, 14765/204, ⟨185, 185, 185⟩,
      contrastRatioRGB ⟨96, 93, 93⟩ ⟨185, 185, 185⟩, 4, false⟩ := by
  show bslRun ⟨0, 0, 1880/51⟩ ⟨96, 93, 93⟩ 3 false true (3 + 1) = _
  rw [bslRun, c3s_D3,
    bslStep_ge ⟨0, 0, 1880/51⟩ ⟨96, 93, 93⟩ 3 false true
      ⟨3490/51, 2595/34, ⟨195, 195, 195⟩,
      contrastRatioRGB ⟨96, 93, 93⟩ ⟨195, 195, 195⟩, 3, false⟩ rfl
      (by rw [c3e_D4]; exact c3c_D4), c3e_D4]
  simp only [cond_true, cond_false]
  rw [c3r_D4]
  norm_num [decide_eq_false_iff_not, decide_eq_true_eq, abs_of_nonneg]

theorem c3e_D5 : testRatioOf ⟨0, 0, 1880/51⟩ ⟨96, 93, 93⟩ false
    ⟨3490/51, 14765/204, ⟨185, 185, 185⟩,
      contrastRatioRGB ⟨96, 93, 93⟩ ⟨185, 185, 185⟩, 4, false⟩ =
    contrastRatioRGB ⟨96, 93, 93⟩ ⟨180, 180, 180⟩ := by
  rw [testRatioOf]
  simp only [cond_false]
  rw [c3r_D5, contrastRatioHexed, c3can_180_180_180,
    c3can_96_93_93]

theorem c3s_D5 : bslRun ⟨0, 0, 1880/51⟩ ⟨96, 93, 93⟩ 3 false true 5 =
    ⟨3490/51, 9575/136, ⟨180, 180, 180⟩,
      contrastRatioRGB ⟨96, 93, 93⟩ ⟨180, 180, 180⟩, 5, false⟩ := by
  show bslRun ⟨0, 0, 1880/51⟩ ⟨96, 93, 93⟩ 3 false true (4 + 1) = _
  rw [bslRun, c3s_D4,
    bslStep_ge ⟨0, 0, 1880/51⟩ ⟨96, 93, 93⟩ 3 false true
      ⟨3490/51, 14765/204, ⟨185, 185, 185⟩,
      contrastRatioRGB ⟨96, 93, 93⟩ ⟨185, 185, 185⟩, 4, false⟩ rfl
      (by rw [c3e_D5]; exact c3c_D5), c3e_D5]
  simp only [cond_true, cond_false]
  rw [c3r_D5]
  norm_num [decide_eq_false_iff_not, decide_eq_true_eq, abs_of_nonneg]

theorem c3e_D6 : testRatioOf ⟨0, 0, 1880/51⟩ ⟨96, 93, 93⟩ false
    ⟨3490/51, 9575/136, ⟨180, 180, 180⟩,
      contrastRatioRGB ⟨96, 93, 93⟩ ⟨180, 180, 180⟩, 5, false⟩ =
    contrastRatioRGB ⟨96, 93, 93⟩ ⟨177, 177, 177⟩ := by
  rw [testRatioOf]
  simp only [cond_false]
  rw [c3r_D6, contrastRatioHexed, c3can_177_177_177,
    c3can_96_93_93]

theorem c3s_D6 : bslRun ⟨0, 0, 1880/51⟩ ⟨96, 93, 93⟩ 3 false true 6 =
    ⟨3490/51, 56645/816, ⟨177, 177, 177⟩,
      contrastRatioRGB ⟨96, 93, 93⟩ ⟨177, 177, 177⟩, 6, false⟩ := by
  show bslRun ⟨0, 0, 1880/51⟩ ⟨96, 93, 93⟩ 3 false true (5 + 1) = _
  rw [bslRun, c3s_D5,
    bslStep_ge ⟨0, 0, 1880/51⟩ ⟨96, 93, 93⟩ 3 false true
      ⟨3490/51, 9575/136, ⟨180, 180, 180⟩,
      contrastRatioRGB ⟨96, 93, 93⟩ ⟨180, 180, 180⟩, 5, false⟩ rfl
      (by rw [c3e_D6]; exact c3c_D6), c3e_D6]
  simp only [cond_true, cond_false]
  rw [c3r_D6]
  norm_num [decide_eq_false_iff_not, decide_eq_true_eq, abs_of_nonneg]

theorem c3e_D7 : testRatioOf ⟨0, 0, 1880/51⟩ ⟨96, 93, 93⟩ false
    ⟨3490/51, 56645/816, ⟨177, 177, 177⟩,
      contrastRatioRGB ⟨96, 93, 93⟩ ⟨177, 177, 177⟩, 6, false⟩ =
    contrastRatioRGB ⟨96, 93, 93⟩ ⟨176, 176, 176⟩ := by
  rw [testRatioOf]
  simp only [cond_false]
  rw [c3r_D7, contrastRatioHexed, c3can_176_176_176,
    c3can_96_93_93]

theorem c3s_D7 : bslRun ⟨0, 0, 1880/51⟩ ⟨96, 93, 93⟩ 3 false true 7 =
    ⟨3490/51, 37495/544, ⟨176, 176, 176⟩,
      contrastRatioRGB ⟨96, 93, 93⟩ ⟨176, 176, 176⟩, 7, false⟩ := by
  show bslRun ⟨0, 0, 1880/51⟩ ⟨96, 93, 93⟩ 3 false true (6 + 1) = _
  rw [bslRun, c3s_D6,
    bslStep_ge ⟨0, 0, 1880/51⟩ ⟨96, 93, 93⟩ 3 false true
      ⟨3490/51, 56645/816, ⟨177, 177, 177⟩,
      contrastRatioRGB ⟨96, 93, 93⟩ ⟨177, 177, 177⟩, 6, false⟩ rfl
      (by rw [c3e_D7]; exact c3c_D7), c3e_D7]
  simp only [cond_true, cond_false]
  rw [c3r_D7]
  norm_num [decide_eq_false_iff_not, decide_eq_true_eq, abs_of_nonneg]

theorem c3bsl_D : binarySearchLightness ⟨0, 0, 1880/51⟩ ⟨96, 93, 93⟩ 3 false true 7 =
    ⟨⟨176, 176, 176⟩, contrastRatioRGB ⟨96, 93, 93⟩ ⟨176, 176, 176⟩, 7⟩ := by
  rw [binarySearchLightness, c3s_D7]

/-! ### Assembling the C3 trace: candidates, sort, tie zone, selection -/

theorem c3abs_le (a b : ℚ) (h : a ≤ b) : |a - b| = b - a := by
  rw [abs_sub_comm, abs_of_nonneg (by linarith)]

theorem c3abs_ge (a b : ℚ) (h : b ≤ a) : |a - b| = a - b := by
  rw [abs_of_nonneg (by linarith)]

theorem c3fgHsl : rgbToHsl ⟨96, 93, 93⟩ = ⟨0, 100/63, 630/17⟩ := by
  norm_num [rgbToHsl, qmax, qmin]

theorem c3bgHsl : rgbToHsl ⟨94, 94, 94⟩ = ⟨0, 0, 1880/51⟩ := by
  norm_num [rgbToHsl, qmax, qmin]

theorem c3hsl_178_176_176 : rgbToHsl ⟨178, 176, 176⟩ = ⟨0, 50/39, 1180/17⟩ := by
  norm_num [rgbToHsl, qmax, qmin]

theorem c3hsl_13_12_12 : rgbToHsl ⟨13, 12, 12⟩ = ⟨0, 4, 250/51⟩ := by
  norm_num [rgbToHsl, qmax, qmin]

theorem c3hsl_12_12_12 : rgbToHsl ⟨12, 12, 12⟩ = ⟨0, 0, 80/17⟩ := by
  norm_num [rgbToHsl, qmax, qmin]

theorem c3hsl_176_176_176 : rgbToHsl ⟨176, 176, 176⟩ = ⟨0, 0, 3520/51⟩ := by
  norm_num [rgbToHsl, qmax, qmin]

/-- The four candidates of the trace, in canonical order. -/
theorem c3cands : snapCandidates ⟨96, 93, 93⟩ ⟨94, 94, 94⟩ 3 =
    [⟨⟨178, 176, 176⟩, contrastRatioRGB ⟨178, 176, 176⟩ ⟨94, 94, 94⟩, 7, .fgLighten⟩,
      ⟨⟨13, 12, 12⟩, contrastRatioRGB ⟨13, 12, 12⟩ ⟨94, 94, 94⟩, 7, .fgDarken⟩,
      ⟨⟨12, 12, 12⟩, contrastRatioRGB ⟨96, 93, 93⟩ ⟨12, 12, 12⟩, 7, .bgDarken⟩,
      ⟨⟨176, 176, 176⟩, contrastRatioRGB ⟨96, 93, 93⟩ ⟨176, 176, 176⟩, 7, .bgLighten⟩] := by
  simp only [snapCandidates]
  rw [c3fgHsl, c3bgHsl, c3bsl_A, c3bsl_B, c3bsl_C, c3bsl_D]

/-- All four candidates pass the epsilon-relaxed threshold. -/
theorem c3passing : passingCandidates ⟨96, 93, 93⟩ ⟨94, 94, 94⟩ 3 =
    [⟨⟨178, 176, 176⟩, contrastRatioRGB ⟨178, 176, 176⟩ ⟨94, 94, 94⟩, 7, .fgLighten⟩,
      ⟨⟨13, 12, 12⟩, contrastRatioRGB ⟨13, 12, 12⟩ ⟨94, 94, 94⟩, 7, .fgDarken⟩,
      ⟨⟨12, 12, 12⟩, contrastRatioRGB ⟨96, 93, 93⟩ ⟨12, 12, 12⟩, 7, .bgDarken⟩,
      ⟨⟨176, 176, 176⟩, contrastRatioRGB ⟨96, 93, 93⟩ ⟨176, 176, 176⟩, 7, .bgLighten⟩] := by
  rw [passingCandidates, c3cands]
  simp only [List.filter_cons, List.filter_nil]
  rw [decide_eq_true c3f_A, decide_eq_true c3f_B, decide_eq_true c3f_C, decide_eq_true c3f_D]
  simp

/-- The change annotations: `550/17` for lighten-fg and `1640/51` for
the other three. -/
theorem c3map :
    List.map (withChange ⟨0, 100/63, 630/17⟩ ⟨0, 0, 1880/51⟩)
      [⟨⟨178, 176, 176⟩, contrastRatioRGB ⟨178, 176, 176⟩ ⟨94, 94, 94⟩, 7, .fgLighten⟩,
        ⟨⟨13, 12, 12⟩, contrastRatioRGB ⟨13, 12, 12⟩ ⟨94, 94, 94⟩, 7, .fgDarken⟩,
        ⟨⟨12, 12, 12⟩, contrastRatioRGB ⟨96, 93, 93⟩ ⟨12, 12, 12⟩, 7, .bgDarken⟩,
        ⟨⟨176, 176, 176⟩, contrastRatioRGB ⟨96, 93, 93⟩ ⟨176, 176, 176⟩, 7, .bgLighten⟩] =
    [⟨⟨⟨178, 176, 176⟩, contrastRatioRGB ⟨178, 176, 176⟩ ⟨94, 94, 94⟩, 7, .fgLighten⟩, 550/17⟩,
      ⟨⟨⟨13, 12, 12⟩, contrastRatioRGB ⟨13, 12, 12⟩ ⟨94, 94, 94⟩, 7, .fgDarken⟩, 1640/51⟩,
      ⟨⟨⟨12, 12, 12⟩, contrastRatioRGB ⟨96, 93, 93⟩ ⟨12, 12, 12⟩, 7, .bgDarken⟩, 1640/51⟩,
      ⟨⟨⟨176, 176, 176⟩, contrastRatioRGB ⟨96, 93, 93⟩ ⟨176, 176, 176⟩, 7, .bgLighten⟩,
        1640/51⟩] := by
  simp only [List.map_cons, List.map_nil, withChange, AdjustPath.isFg, cond_true, cond_false]
  rw [c3hsl_178_176_176, c3hsl_13_12_12, c3hsl_12_12_12, c3hsl_176_176_176]
  norm_num [c3abs_le, c3abs_ge]

/-- The stable sort by change: the three `1640/51` candidates keep
their canonical relative order and precede lighten-fg. -/
theorem c3sorted : sortedPassing ⟨96, 93, 93⟩ ⟨94, 94, 94⟩ 3 =
    [⟨⟨⟨13, 12, 12⟩, contrastRatioRGB ⟨13, 12, 12⟩ ⟨94, 94, 94⟩, 7, .fgDarken⟩, 1640/51⟩,
      ⟨⟨⟨12, 12, 12⟩, contrastRatioRGB ⟨96, 93, 93⟩ ⟨12, 12, 12⟩, 7, .bgDarken⟩, 1640/51⟩,
      ⟨⟨⟨176, 176, 176⟩, contrastRatioRGB ⟨96, 93, 93⟩ ⟨176, 176, 176⟩, 7, .bgLighten⟩, 1640/51⟩,
      ⟨⟨⟨178, 176, 176⟩, contrastRatioRGB ⟨178, 176, 176⟩ ⟨94, 94, 94⟩, 7, .fgLighten⟩,
        550/17⟩] := by
  have h1 : insertByChange []
      ⟨⟨⟨178, 176, 176⟩, contrastRatioRGB ⟨178, 176, 176⟩ ⟨94, 94, 94⟩, 7, .fgLighten⟩, 550/17⟩ =
      [⟨⟨⟨178, 176, 176⟩, contrastRatioRGB ⟨178, 176, 176⟩ ⟨94, 94, 94⟩, 7, .fgLighten⟩,
        550/17⟩] := rfl
  have h2 : insertByChange
      [⟨⟨⟨178, 176, 176⟩, contrastRatioRGB ⟨178, 176, 176⟩ ⟨94, 94, 94⟩, 7, .fgLighten⟩, 550/17⟩]
      ⟨⟨⟨13, 12, 12⟩, contrastRatioRGB ⟨13, 12, 12⟩ ⟨94, 94, 94⟩, 7, .fgDarken⟩, 1640/51⟩ =
      [⟨⟨⟨13, 12, 12⟩, contrastRatioRGB ⟨13, 12, 12⟩ ⟨94, 94, 94⟩, 7, .fgDarken⟩, 1640/51⟩,
        ⟨⟨⟨178, 176, 176⟩, contrastRatioRGB ⟨178, 176, 176⟩ ⟨94, 94, 94⟩, 7, .fgLighten⟩,
          550/17⟩] := by
    rw [insertByChange, if_neg (by norm_num)]
  have h3 : insertByChange
      [⟨⟨⟨13, 12, 12⟩, contrastRatioRGB ⟨13, 12, 12⟩ ⟨94, 94, 94⟩, 7, .fgDarken⟩, 1640/51⟩,
        ⟨⟨⟨178, 176, 176⟩, contrastRatioRGB ⟨178, 176, 176⟩ ⟨94, 94, 94⟩, 7, .fgLighten⟩, 550/17⟩]
      ⟨⟨⟨12, 12, 12⟩, contrastRatioRGB ⟨96, 93, 93⟩ ⟨12, 12, 12⟩, 7, .bgDarken⟩, 1640/51⟩ =
      [⟨⟨⟨13, 12, 12⟩, contrastRatioRGB ⟨13, 12, 12⟩ ⟨94, 94, 94⟩, 7, .fgDarken⟩, 1640/51⟩,
        ⟨⟨⟨12, 12, 12⟩, contrastRatioRGB ⟨96, 93, 93⟩ ⟨12, 12, 12⟩, 7, .bgDarken⟩, 1640/51⟩,
        ⟨⟨⟨178, 176, 176⟩, contrastRatioRGB ⟨178, 176, 176⟩ ⟨94, 94, 94⟩, 7, .fgLighten⟩,
          550/17⟩] := by
    rw [insertByChange, if_pos (by norm_num), insertByChange, if_neg (by norm_num)]
  have h4 : insertByChange
      [⟨⟨⟨13, 12, 12⟩, contrastRatioRGB ⟨13, 12, 12⟩ ⟨94, 94, 94⟩, 7, .fgDarken⟩, 1640/51⟩,
        ⟨⟨⟨12, 12, 12⟩, contrastRatioRGB ⟨96, 93, 93⟩ ⟨12, 12, 12⟩, 7, .bgDarken⟩, 1640/51⟩,
        ⟨⟨⟨178, 176, 176⟩, contrastRatioRGB ⟨178, 176, 176⟩ ⟨94, 94, 94⟩, 7, .fgLighten⟩, 550/17⟩]
      ⟨⟨⟨176, 176, 176⟩, contrastRatioRGB ⟨96, 93, 93⟩ ⟨176, 176, 176⟩, 7, .bgLighten⟩, 1640/51⟩ =
      [⟨⟨⟨13, 12, 12⟩, contrastRatioRGB ⟨13, 12, 12⟩ ⟨94, 94, 94⟩, 7, .fgDarken⟩, 1640/51⟩,
        ⟨⟨⟨12, 12, 12⟩, contrastRatioRGB ⟨96, 93, 93⟩ ⟨12, 12, 12⟩, 7, .bgDarken⟩, 1640/51⟩,
        ⟨⟨⟨176, 176, 176⟩, contrastRatioRGB ⟨96, 93, 93⟩ ⟨176, 176, 176⟩, 7, .bgLighten⟩, 1640/51⟩,
        ⟨⟨⟨178, 176, 176⟩, contrastRatioRGB ⟨178, 176, 176⟩ ⟨94, 94, 94⟩, 7, .fgLighten⟩,
          550/17⟩] := by
    rw [insertByChange, if_pos (by norm_num), insertByChange, if_pos (by norm_num),
      insertByChange, if_neg (by norm_num)]
  rw [sortedPassing, c3fgHsl, c3bgHsl, c3passing, c3map, sortByChange, List.foldl_cons,
    List.foldl_cons, List.foldl_cons, List.foldl_cons, List.foldl_nil, h1, h2, h3, h4]

/-- The tie zone contains all four candidates (largest change gap is
`10/51 < 0.5`), in change-sorted order. -/
theorem c3tz : tieZone ⟨96, 93, 93⟩ ⟨94, 94, 94⟩ 3 =
    [⟨⟨⟨13, 12, 12⟩, contrastRatioRGB ⟨13, 12, 12⟩ ⟨94, 94, 94⟩, 7, .fgDarken⟩, 1640/51⟩,
      ⟨⟨⟨12, 12, 12⟩, contrastRatioRGB ⟨96, 93, 93⟩ ⟨12, 12, 12⟩, 7, .bgDarken⟩, 1640/51⟩,
      ⟨⟨⟨176, 176, 176⟩, contrastRatioRGB ⟨96, 93, 93⟩ ⟨176, 176, 176⟩, 7, .bgLighten⟩, 1640/51⟩,
      ⟨⟨⟨178, 176, 176⟩, contrastRatioRGB ⟨178, 176, 176⟩ ⟨94, 94, 94⟩, 7, .fgLighten⟩,
        550/17⟩] := by
  rw [tieZone_eq ⟨96, 93, 93⟩ ⟨94, 94, 94⟩ 3
    ⟨⟨⟨13, 12, 12⟩, contrastRatioRGB ⟨13, 12, 12⟩ ⟨94, 94, 94⟩, 7, .fgDarken⟩, 1640/51⟩
    [⟨⟨⟨12, 12, 12⟩, contrastRatioRGB ⟨96, 93, 93⟩ ⟨12, 12, 12⟩, 7, .bgDarken⟩, 1640/51⟩,
      ⟨⟨⟨176, 176, 176⟩, contrastRatioRGB ⟨96, 93, 93⟩ ⟨176, 176, 176⟩, 7, .bgLighten⟩, 1640/51⟩,
      ⟨⟨⟨178, 176, 176⟩, contrastRatioRGB ⟨178, 176, 176⟩ ⟨94, 94, 94⟩, 7, .fgLighten⟩, 550/17⟩]
    c3sorted]
  norm_num [List.filter_cons, List.filter_nil, decide_eq_true_eq, c3abs_le, c3abs_ge,
    abs_of_nonneg]

/-- The selection: the first change-sorted tie-zone member on the
foreground side is darken-fg, not the canonically first lighten-fg. -/
theorem c3choose : chooseBest { uiComponent := true } ⟨96, 93, 93⟩ ⟨94, 94, 94⟩ 3 =
    some ⟨⟨⟨13, 12, 12⟩, contrastRatioRGB ⟨13, 12, 12⟩ ⟨94, 94, 94⟩, 7, .fgDarken⟩,
      1640/51⟩ := by
  simp only [chooseBest, c3sorted, c3tz]
  norm_num [List.find?, AdjustPath.isFg, List.length_cons, Option.getD_some]

theorem c3T : requiredThreshold ({ uiComponent := true } : SnapOptions).toContrastOptions = 3 := by
  norm_num [requiredThreshold, LARGE_TEXT_THRESHOLD, NORMAL_TEXT_THRESHOLD]

/-- The end-to-end run: `#605D5D` on `#5E5E5E` as a UI component snaps
by darkening the foreground to the darken-fg candidate `(13, 12, 12)`. -/
theorem c3snap : snapToPassingColor "#605D5D" "#5E5E5E" { uiComponent := true } =
    .ok
      { fg := rgbToHex ⟨13, 12, 12⟩, bg := rgbToHex ⟨94, 94, 94⟩,
        ratio := contrastRatioHexed ⟨13, 12, 12⟩ ⟨94, 94, 94⟩, clamped := some false,
        adjusted := some Side.fg, iterations := some 7 } := by
  have hch : contrastRatioHexed ⟨96, 93, 93⟩ ⟨94, 94, 94⟩ =
      contrastRatioRGB ⟨96, 93, 93⟩ ⟨94, 94, 94⟩ := by
    rw [contrastRatioHexed, c3can_96_93_93, c3can_94_94_94]
  have hpassn : ¬((requiredThreshold ({ uiComponent := true } : SnapOptions).toContrastOptions : ℝ)
      - (EPSILON : ℝ) ≤ contrastRatioHexed ⟨96, 93, 93⟩ ⟨94, 94, 94⟩) := by
    rw [not_le, hch, c3T]
    exact c3cur_lt
  have hshortn : ¬(contrastRatioHexed ⟨96, 93, 93⟩ ⟨94, 94, 94⟩ = 1 ∧
      1 < requiredThreshold ({ uiComponent := true } : SnapOptions).toContrastOptions) := by
    intro h
    rw [hch] at h
    exact absurd h.1 (ne_of_gt c3cur_gt1)
  have hcb : chooseBest { uiComponent := true } ⟨96, 93, 93⟩ ⟨94, 94, 94⟩
      (requiredThreshold ({ uiComponent := true } : SnapOptions).toContrastOptions) =
      some ⟨⟨⟨13, 12, 12⟩, contrastRatioRGB ⟨13, 12, 12⟩ ⟨94, 94, 94⟩, 7, .fgDarken⟩,
        1640/51⟩ := by
    rw [c3T]
    exact c3choose
  rw [snapToPassingColor_ok _ _ ⟨96, 93, 93⟩ ⟨94, 94, 94⟩ _ (by rfl) (by rfl),
    snapCore_choose ⟨96, 93, 93⟩ ⟨94, 94, 94⟩ { uiComponent := true }
      ⟨⟨⟨13, 12, 12⟩, contrastRatioRGB ⟨13, 12, 12⟩ ⟨94, 94, 94⟩, 7, .fgDarken⟩, 1640/51⟩
      hpassn hshortn hcb]
  rfl

/-! ## Claim C3: the tie-break order -/

/-- The canonical evaluation order of the four adjustment paths
(specification §6.2): lighten-fg, darken-fg, darken-bg, lighten-bg.
Specification-side definition, used to state the claim. -/
def canonicalRank : AdjustPath → ℕ
  | .fgLighten => 0
  | .fgDarken => 1
  | .bgDarken => 2
  | .bgLighten => 3

/-- Which side the options prefer (specification §6.5): the foreground
unless only `preferBackgroundAdjust` is set.  Specification-side
definition, used to state the claim. -/
def preferFg (o : SnapOptions) : Bool :=
  o.preferForegroundAdjust || !o.preferBackgroundAdjust

/-- Claim C3 as stated: with more than one tie-zone member and at least
one member on the preferred side, the selected candidate is the
canonically first tie-zone member of the preferred side — it is on that
side, and no tie-zone member of that side has a smaller canonical
rank. -/
def ClaimC3 : Prop :=
  ∀ (o : SnapOptions) (f b : RGB) (T : ℚ) (c : CandW),
    1 < (tieZone f b T).length →
    (∃ d ∈ tieZone f b T, d.path.isFg = preferFg o) →
    chooseBest o f b T = some c →
    c.path.isFg = preferFg o ∧
      ∀ d ∈ tieZone f b T, d.path.isFg = preferFg o →
        canonicalRank c.path ≤ canonicalRank d.path

/-- CLAIM C3, counterexample: `#605D5D` on `#5E5E5E` as a UI component
(threshold 3).  All four candidates pass and sit in the tie zone, whose
change-sorted order is darken-fg, darken-bg, lighten-bg, lighten-fg.
The default preference is the foreground side and the canonically first
foreground member is lighten-fg (rank 0), but the code picks the first
foreground member of the change-sorted list — darken-fg — so the claim
fails, and the end-to-end run darkens the foreground. -/
theorem C3_counterexample :
    ¬ClaimC3 ∧
    hexToRgb "#605D5D" = .ok ⟨96, 93, 93⟩ ∧
    hexToRgb "#5E5E5E" = .ok ⟨94, 94, 94⟩ ∧
    requiredThreshold ({ uiComponent := true } : SnapOptions).toContrastOptions = 3 ∧
    tieZone ⟨96, 93, 93⟩ ⟨94, 94, 94⟩ 3 =
      [⟨⟨⟨13, 12, 12⟩, contrastRatioRGB ⟨13, 12, 12⟩ ⟨94, 94, 94⟩, 7, .fgDarken⟩, 1640/51⟩,
        ⟨⟨⟨12, 12, 12⟩, contrastRatioRGB ⟨96, 93, 93⟩ ⟨12, 12, 12⟩, 7, .bgDarken⟩, 1640/51⟩,
        ⟨⟨⟨176, 176, 176⟩, contrastRatioRGB ⟨96, 93, 93⟩ ⟨176, 176, 176⟩, 7, .bgLighten⟩,
          1640/51⟩,
        ⟨⟨⟨178, 176, 176⟩, contrastRatioRGB ⟨178, 176, 176⟩ ⟨94, 94, 94⟩, 7, .fgLighten⟩,
          550/17⟩] ∧
    snapToPassingColor "#605D5D" "#5E5E5E" { uiComponent := true } =
      .ok
        { fg := rgbToHex ⟨13, 12, 12⟩, bg := rgbToHex ⟨94, 94, 94⟩,
          ratio := contrastRatioHexed ⟨13, 12, 12⟩ ⟨94, 94, 94⟩, clamped := some false,
          adjusted := some Side.fg, iterations := some 7 } := by
  refine ⟨?_, by rfl, by rfl, c3T, c3tz, c3snap⟩
  intro hcl
  have h := hcl { uiComponent := true } ⟨96, 93, 93⟩ ⟨94, 94, 94⟩ 3
    ⟨⟨⟨13, 12, 12⟩, contrastRatioRGB ⟨13, 12, 12⟩ ⟨94, 94, 94⟩, 7, .fgDarken⟩, 1640/51⟩
    (by rw [c3tz]; simp)
    ⟨⟨⟨⟨13, 12, 12⟩, contrastRatioRGB ⟨13, 12, 12⟩ ⟨94, 94, 94⟩, 7, .fgDarken⟩, 1640/51⟩,
      by rw [c3tz]; simp, rfl⟩
    c3choose
  have h2 := h.2
    ⟨⟨⟨178, 176, 176⟩, contrastRatioRGB ⟨178, 176, 176⟩ ⟨94, 94, 94⟩, 7, .fgLighten⟩, 550/17⟩
    (by rw [c3tz]; simp) rfl
  norm_num [canonicalRank] at h2

/-- CLAIM C3 (corrected): when the tie zone has more than one member,
the code picks the first member of the CHANGE-SORTED tie zone whose
side matches the preference (falling back to the zone's head when no
side matches) — not the first such member in the canonical search
order; the reference head is a minimal-change member of the zone.  The
sort is stable, so canonical order only breaks exact change ties. -/
theorem C3_tiebreak_amended (o : SnapOptions) (f b : RGB) (T : ℚ) (m : CandW) (ms : List CandW)
    (hs : sortedPassing f b T = m :: ms) (hlen : 1 < (tieZone f b T).length) :
    chooseBest o f b T =
      some (((tieZone f b T).find? fun c => c.path.isFg == preferFg o).getD m) ∧
    ∀ d ∈ tieZone f b T, m.change ≤ d.change := by
  constructor
  · simp only [chooseBest, hs]
    rw [if_pos hlen]
    cases hfg : o.preferForegroundAdjust <;> cases hbg : o.preferBackgroundAdjust <;>
      simp [preferFg, hfg, hbg]
  · have hp : List.Pairwise (fun a c : CandW => a.change ≤ c.change) (sortedPassing f b T) := by
      rw [sortedPassing]
      exact sortByChange_pairwise _
    rw [hs, List.pairwise_cons] at hp
    intro d hd
    have hmem := tieZone_subset_sorted f b T d hd
    rw [hs, List.mem_cons] at hmem
    rcases hmem with h | h
    · subst h
      exact le_rfl
    · exact hp.1 d h

/-- CLAIM C3, witness: the amended selection rule applied to the
counterexample input, where the change-sorted head is darken-fg. -/
theorem C3_witness :
    chooseBest { uiComponent := true } ⟨96, 93, 93⟩ ⟨94, 94, 94⟩ 3 =
      some (((tieZone ⟨96, 93, 93⟩ ⟨94, 94, 94⟩ 3).find? fun c =>
        c.path.isFg == preferFg { uiComponent := true }).getD
          ⟨⟨⟨13, 12, 12⟩, contrastRatioRGB ⟨13, 12, 12⟩ ⟨94, 94, 94⟩, 7, .fgDarken⟩, 1640/51⟩) ∧
    ∀ d ∈ tieZone ⟨96, 93, 93⟩ ⟨94, 94, 94⟩ 3,
      (⟨⟨⟨13, 12, 12⟩, contrastRatioRGB ⟨13, 12, 12⟩ ⟨94, 94, 94⟩, 7, .fgDarken⟩,
        1640/51⟩ : CandW).change ≤ d.change :=
  C3_tiebreak_amended { uiComponent := true } ⟨96, 93, 93⟩ ⟨94, 94, 94⟩ 3
    ⟨⟨⟨13, 12, 12⟩, contrastRatioRGB ⟨13, 12, 12⟩ ⟨94, 94, 94⟩, 7, .fgDarken⟩, 1640/51⟩
    [⟨⟨⟨12, 12, 12⟩, contrastRatioRGB ⟨96, 93, 93⟩ ⟨12, 12, 12⟩, 7, .bgDarken⟩, 1640/51⟩,
      ⟨⟨⟨176, 176, 176⟩, contrastRatioRGB ⟨96, 93, 93⟩ ⟨176, 176, 176⟩, 7, .bgLighten⟩, 1640/51⟩,
      ⟨⟨⟨178, 176, 176⟩, contrastRatioRGB ⟨178, 176, 176⟩ ⟨94, 94, 94⟩, 7, .fgLighten⟩, 550/17⟩]
    c3sorted (by rw [c3tz]; simp)

end Contrast
